import Mathlib

/-!
# RTSP handshake (`limelight-common/RtspConnection.c`)

A shallow embedding of the handshake sequencer and of the transaction engine of
`RtspConnection.c`.  The file-level globals (`sock`, `remoteAddr`,
`currentSeqNumber`, `rtspTargetUrl`, `sessionIdString`) form the `State`
record, which every function takes and returns.  The collaborators that the C
file only calls (allocator, socket primitives, serializer, parser, SDP
generator) are the fields of `Env`; each call made to a collaborator is
appended to `State.trace`, so that statements about "how often" and "with what
argument" are statements about that list.

A result `none` stands for undefined behaviour of the C program: a `recv` that
reports more bytes than the capacity it was given has written past the end of
`responseBuffer`.
-/

namespace RtspConnection

/-! ## Data model -/

/-- One `char` of a wire buffer. -/
abbrev Byte := Nat

/-- Modelled from the spec: the "none" connection handle; its definition is in a
platform header that `Limelight-internal.h` includes. -/
def INVALID_SOCKET : Int := -1

/-- Modelled from the spec: the value a failed `send` returns; defined in the
platform header next to `INVALID_SOCKET`. -/
def SOCKET_ERROR : Int := -1

def RTSP_CLIENT_VERSION : Int := 10

def RTSP_CLIENT_VERSION_S : String := "10"

def RTSP_MAX_RESP_SIZE : Int := 1024

/-- Modelled from the spec: ownership flag of `Rtsp.h` (the option owns its key
and value strings). -/
def FLAG_ALLOCATED_OPTION_FIELDS : Nat := 1

/-- Modelled from the spec: ownership flag of `Rtsp.h` (the message owns its
option nodes). -/
def FLAG_ALLOCATED_OPTION_ITEMS : Nat := 4

/-- Modelled from the spec: ownership flag of `Rtsp.h` (the message owns its
body). -/
def FLAG_ALLOCATED_PAYLOAD : Nat := 8

/-- The `OPTION_ITEM` node of `Rtsp.h`; the `next` pointer is the list
structure of `RTSP_MESSAGE.options`. -/
structure OPTION_ITEM where
  flags : Nat
  option : String
  content : String
deriving DecidableEq

/-- The `RTSP_MESSAGE` of `Rtsp.h`, request and response variants folded into
one record (`command`/`target` are read on requests, `statusCode` on
responses). -/
structure RTSP_MESSAGE where
  flags : Nat
  sequenceNumber : Int
  protocol : String
  options : List OPTION_ITEM
  payload : Option (List Byte)
  payloadLength : Int
  command : String
  target : String
  statusCode : Int
deriving DecidableEq

/-- What one `recv` call reports: the bytes it stored at the address it was
given (their number is the return value, `0` meaning that the peer closed the
connection), or a transport error (a negative return value). -/
inductive RecvResult where
  | bytes (bs : List Byte)
  | error
deriving DecidableEq

/-- The `int` that `recv` returns. -/
def RecvResult.ret : RecvResult → Int
  | .bytes bs => (bs.length : Int)
  | .error => SOCKET_ERROR

/-- The bytes that `recv` stored. -/
def RecvResult.stored : RecvResult → List Byte
  | .bytes bs => bs
  | .error => []

/-- Calls made to the collaborators, in program order. -/
inductive Event where
  | malloc (id : Nat) (ok : Bool)
  | free (id : Nat)
  | createRtspRequest (msg : RTSP_MESSAGE)
  | freeMessage (msg : RTSP_MESSAGE)
  | transact (request : RTSP_MESSAGE)
  | transactReturn (ret : Int) (response : RTSP_MESSAGE)
  | connectTcpSocket (handle : Int)
  | enableNoDelay (handle : Int)
  | serializeRtspMessage (request : RTSP_MESSAGE)
  | send (handle : Int) (bytes : List Byte)
  | recv (handle : Int) (offset : Int) (capacity : Int)
  | parseRtspMessage (buffer : List Byte)
  | freeSerialized (bytes : List Byte)
  | closesocket (handle : Int)
  | getSdpPayloadForStreamConfig (addr : Nat)
deriving DecidableEq

/-- The collaborators.  Allocations are numbered in call order over the whole
run, transactions likewise; the receives of one transaction are numbered from
`0`. -/
structure Env where
  /-- Whether the `n`-th call of `malloc` succeeds. -/
  mallocOk : Nat → Bool
  /-- The handle `connectTcpSocket` returns in the `k`-th transaction. -/
  connectTcpSocket : Nat → Int
  /-- The wire bytes of a request (`none`: `serializeRtspMessage` returned
  `NULL`). -/
  serializeRtspMessage : Nat → RTSP_MESSAGE → Option (List Byte)
  /-- The return value of `send` in the `k`-th transaction. -/
  send : Nat → List Byte → Int
  /-- The `j`-th `recv` of the `k`-th transaction, called with a capacity. -/
  recv : Nat → Nat → Int → RecvResult
  /-- The content of the `k`-th transaction's `responseBuffer` on entry (a
  local array that is not initialised), byte by byte. -/
  stack : Nat → Nat → Byte
  /-- The response `parseRtspMessage` builds from a buffer (`none`: any result
  other than `RTSP_ERROR_SUCCESS`). -/
  parseRtspMessage : Nat → List Byte → Option RTSP_MESSAGE
  /-- The body and the length `getSdpPayloadForStreamConfig` produces (`none`:
  it returned `NULL`). -/
  getSdpPayloadForStreamConfig : Nat → Nat → Option (List Byte × Int)

/-- The globals of `RtspConnection.c`, the call counters that index `Env`, and
the trace. -/
structure State where
  sock : Int
  remoteAddr : Nat
  currentSeqNumber : Int
  rtspTargetUrl : String
  sessionIdString : String
  mallocs : Nat
  transactions : Nat
  trace : List Event

/-- The globals as the C initialisers leave them when the program starts. -/
def State.initial (url : String) : State :=
  { sock := INVALID_SOCKET, remoteAddr := 0, currentSeqNumber := 1,
    rtspTargetUrl := url, sessionIdString := "", mallocs := 0,
    transactions := 0, trace := [] }

/-- Append one event to the trace. -/
def State.log (st : State) (e : Event) : State :=
  { st with trace := st.trace ++ [e] }

/-- The value of a 32-bit `int` after an arithmetic step (two's complement). -/
def toInt32 (v : Int) : Int := (v + 2147483648) % 4294967296 - 2147483648

/-! ## Collaborators with a fixed meaning -/

/-- One call of `malloc`: the result is the allocation's number, or `none` for
`NULL`. -/
def malloc (env : Env) (st : State) : Option Nat × State :=
  (if env.mallocOk st.mallocs then some st.mallocs else none,
   { st with mallocs := st.mallocs + 1,
             trace := st.trace ++ [Event.malloc st.mallocs (env.mallocOk st.mallocs)] })

def free (st : State) (id : Nat) : State := st.log (Event.free id)

/-- Modelled from the spec: `insertOption` of the message module (not in this
file) appends the node to the message's option list, in call order. -/
def insertOption (options : List OPTION_ITEM) (item : OPTION_ITEM) : List OPTION_ITEM :=
  options ++ [item]

/-- Modelled from the spec: `createRtspRequest` of the message module (not in
this file) builds a request with the given method, target, protocol and
sequence number, an empty option list, no body and no ownership flag. -/
def createRtspRequest (command target protocol : String) (sequenceNumber : Int) :
    RTSP_MESSAGE :=
  { flags := 0, sequenceNumber := sequenceNumber, protocol := protocol, options := [],
    payload := none, payloadLength := 0, command := command, target := target,
    statusCode := 0 }

/-- Modelled from the spec: `freeMessage` of the message module (not in this
file) releases what the message owns; here the release is recorded. -/
def freeMessage (st : State) (msg : RTSP_MESSAGE) : State := st.log (Event.freeMessage msg)

/-- Modelled from the spec: `getOptionContent` of the message module (not in
this file) returns the value of the first option with the given key, or `NULL`. -/
def getOptionContent (options : List OPTION_ITEM) (option : String) : Option String :=
  (options.find? (fun item => item.option == option)).map (fun item => item.content)

def closesocket (st : State) (handle : Int) : State := st.log (Event.closesocket handle)

/-! ## Option builder -/

def createOptionItem (env : Env) (st : State) (option content : String) :
    Option OPTION_ITEM × State :=
  match malloc env st with
  | (none, st1) => (none, st1)
  | (some item, st1) =>
    match malloc env st1 with
    | (none, st2) => (none, free st2 item)
    | (some optionPtr, st2) =>
      match malloc env st2 with
      | (none, st3) => (none, free (free st3 optionPtr) item)
      | (some _, st3) =>
        (some { flags := FLAG_ALLOCATED_OPTION_FIELDS, option := option, content := content },
         st3)

def addOption (env : Env) (st : State) (msg : RTSP_MESSAGE) (option content : String) :
    Int × RTSP_MESSAGE × State :=
  match createOptionItem env st option content with
  | (none, st1) => (0, msg, st1)
  | (some item, st1) =>
    (1, { msg with options := insertOption msg.options item,
                   flags := msg.flags ||| FLAG_ALLOCATED_OPTION_ITEMS }, st1)

def initializeRtspRequest (env : Env) (st : State) (command target : String) :
    Int × RTSP_MESSAGE × State :=
  let msg := createRtspRequest command target "RTSP/1.0" st.currentSeqNumber
  let st1 := { st with currentSeqNumber := toInt32 (st.currentSeqNumber + 1),
                       trace := st.trace ++ [Event.createRtspRequest msg] }
  match addOption env st1 msg "X-GS-ClientVersion" RTSP_CLIENT_VERSION_S with
  | (ret, msg1, st2) =>
    if ret = 0 then (0, msg1, freeMessage st2 msg1) else (1, msg1, st2)

/-! ## Transaction engine -/

/-- The store `recv` performs: `bs` replaces the bytes of the buffer from index
`offset` on. -/
def writeAt (buffer : List Byte) (offset : Nat) (bs : List Byte) : List Byte :=
  buffer.take offset ++ bs ++ buffer.drop (offset + bs.length)

/-- The content of `responseBuffer` when the `k`-th transaction declares it. -/
def responseBufferOnEntry (env : Env) (k : Nat) : List Byte :=
  (List.range RTSP_MAX_RESP_SIZE.toNat).map (env.stack k)

/-- How the receive loop of `transactRtspMessage` is left: by `break`, with the
buffer and the offset reached, or by the `goto Exit` of a full buffer. -/
inductive LoopExit where
  | done (responseBuffer : List Byte) (offset : Int)
  | tooLong
deriving DecidableEq

/-- The `for (;;)` loop of `transactRtspMessage` from its `j`-th iteration on.
`fuel` bounds the number of iterations; `none` is returned when it runs out and
when a `recv` reports more bytes than its capacity. -/
def recvLoop (env : Env) (k : Nat) :
    Nat → Nat → Int → List Byte → State → Option (LoopExit × State)
  | 0, _, _, _, _ => none
  | fuel + 1, j, offset, responseBuffer, st =>
    let capacity := RTSP_MAX_RESP_SIZE - offset
    let r := env.recv k j capacity
    let st1 := st.log (Event.recv st.sock offset capacity)
    let err := r.ret
    if err > capacity then none
    else if err ≤ 0 then some (LoopExit.done responseBuffer offset, st1)
    else
      let responseBuffer1 := writeAt responseBuffer offset.toNat r.stored
      let offset1 := offset + err
      if offset1 = RTSP_MAX_RESP_SIZE then some (LoopExit.tooLong, st1)
      else recvLoop env k fuel (j + 1) offset1 responseBuffer1 st1

/-- The code after the label `Exit` of `transactRtspMessage`. -/
def transactExit (st : State) (serializedMessage : List Byte) : State :=
  let st1 := st.log (Event.freeSerialized serializedMessage)
  let st2 := closesocket st1 st1.sock
  { st2 with sock := INVALID_SOCKET }

/-- A `return ret;` of `transactRtspMessage`, recorded with the content of
`*response` at that moment. -/
def transactReturn (st : State) (ret : Int) (response : RTSP_MESSAGE) :
    Option (Int × RTSP_MESSAGE × State) :=
  some (ret, response, st.log (Event.transactReturn ret response))

/-- The function `transactRtspMessage`: the returned `int`, the content of
`*response` afterwards, and the new state.  Returns 1 on success, 0 otherwise. -/
def transactRtspMessage (env : Env) (st : State) (request response : RTSP_MESSAGE) :
    Option (Int × RTSP_MESSAGE × State) :=
  let k := st.transactions
  let st0 := { st with transactions := k + 1, trace := st.trace ++ [Event.transact request] }
  let handle := env.connectTcpSocket k
  let st1 := { st0 with sock := handle, trace := st0.trace ++ [Event.connectTcpSocket handle] }
  if st1.sock = INVALID_SOCKET then transactReturn st1 0 response
  else
    let st2 := st1.log (Event.enableNoDelay st1.sock)
    let st3 := st2.log (Event.serializeRtspMessage request)
    match env.serializeRtspMessage k request with
    | none => transactReturn (closesocket st3 st3.sock) 0 response
    | some serializedMessage =>
      let err := env.send k serializedMessage
      let st4 := st3.log (Event.send st3.sock serializedMessage)
      if err = SOCKET_ERROR then transactReturn (transactExit st4 serializedMessage) 0 response
      else
        match recvLoop env k (RTSP_MAX_RESP_SIZE.toNat + 1) 0 0
            (responseBufferOnEntry env k) st4 with
        | none => none
        | some (LoopExit.tooLong, st5) =>
          transactReturn (transactExit st5 serializedMessage) 0 response
        | some (LoopExit.done responseBuffer _, st5) =>
          let st6 := st5.log (Event.parseRtspMessage responseBuffer)
          match env.parseRtspMessage k responseBuffer with
          | some parsed => transactReturn (transactExit st6 serializedMessage) 1 parsed
          | none => transactReturn (transactExit st6 serializedMessage) 0 response

def terminateRtspHandshake (st : State) : State :=
  if st.sock ≠ INVALID_SOCKET then
    { closesocket st st.sock with sock := INVALID_SOCKET }
  else st

/-! ## Request builders -/

def requestOptions (env : Env) (st : State) (response : RTSP_MESSAGE) :
    Option (Int × RTSP_MESSAGE × State) :=
  match initializeRtspRequest env st "OPTIONS" st.rtspTargetUrl with
  | (ret, request, st1) =>
    if ret ≠ 0 then
      match transactRtspMessage env st1 request response with
      | none => none
      | some (ret1, response1, st2) => some (ret1, response1, freeMessage st2 request)
    else some (ret, response, st1)

def requestDescribe (env : Env) (st : State) (response : RTSP_MESSAGE) :
    Option (Int × RTSP_MESSAGE × State) :=
  match initializeRtspRequest env st "DESCRIBE" st.rtspTargetUrl with
  | (ret, request, st1) =>
    if ret ≠ 0 then
      match addOption env st1 request "Accept" "application/sdp" with
      | (r1, request1, st2) =>
        if r1 ≠ 0 then
          match addOption env st2 request1 "If-Modified-Since"
              "Thu, 01 Jan 1970 00:00:00 GMT" with
          | (r2, request2, st3) =>
            if r2 ≠ 0 then
              match transactRtspMessage env st3 request2 response with
              | none => none
              | some (ret1, response1, st4) => some (ret1, response1, freeMessage st4 request2)
            else some (0, response, freeMessage st3 request2)
        else some (0, response, freeMessage st2 request1)
    else some (ret, response, st1)

/-- The part of `setupStream` from the `Transport` option on. -/
def setupStreamTail (env : Env) (st : State) (request response : RTSP_MESSAGE) :
    Option (Int × RTSP_MESSAGE × State) :=
  match addOption env st request "Transport" " " with
  | (r1, request1, st1) =>
    if r1 ≠ 0 then
      match addOption env st1 request1 "If-Modified-Since"
          "Thu, 01 Jan 1970 00:00:00 GMT" with
      | (r2, request2, st2) =>
        if r2 ≠ 0 then
          match transactRtspMessage env st2 request2 response with
          | none => none
          | some (ret1, response1, st3) => some (ret1, response1, freeMessage st3 request2)
        else some (0, response, freeMessage st2 request2)
    else some (0, response, freeMessage st1 request1)

def setupStream (env : Env) (st : State) (response : RTSP_MESSAGE) (target : String) :
    Option (Int × RTSP_MESSAGE × State) :=
  match initializeRtspRequest env st "SETUP" target with
  | (ret, request, st1) =>
    if ret ≠ 0 then
      if st1.sessionIdString ≠ "" then
        match addOption env st1 request "Session" st1.sessionIdString with
        | (r0, request0, st2) =>
          if r0 = 0 then some (0, response, freeMessage st2 request0)
          else setupStreamTail env st2 request0 response
      else setupStreamTail env st1 request response
    else some (ret, response, st1)

def playStream (env : Env) (st : State) (response : RTSP_MESSAGE) (target : String) :
    Option (Int × RTSP_MESSAGE × State) :=
  match initializeRtspRequest env st "PLAY" target with
  | (ret, request, st1) =>
    if ret ≠ 0 then
      match addOption env st1 request "Session" st1.sessionIdString with
      | (r1, request1, st2) =>
        if r1 ≠ 0 then
          match transactRtspMessage env st2 request1 response with
          | none => none
          | some (ret1, response1, st3) => some (ret1, response1, freeMessage st3 request1)
        else some (0, response, freeMessage st2 request1)
    else some (ret, response, st1)

/-- The characters `"%u"` produces. -/
def decimalDigits (n : Nat) : List Char :=
  if n = 0 then ['0'] else ((Nat.digits 10 n).reverse).map Nat.digitChar

/-- The characters `sprintf(buffer, "%d", v)` stores before the terminator. -/
def sprintf_d (v : Int) : String :=
  String.mk (if v < 0 then '-' :: decimalDigits v.natAbs else decimalDigits v.natAbs)

def sendVideoAnnounce (env : Env) (st : State) (response : RTSP_MESSAGE) (streamConfig : Nat) :
    Option (Int × RTSP_MESSAGE × State) :=
  match initializeRtspRequest env st "ANNOUNCE" "streamid=video" with
  | (ret, request, st1) =>
    if ret ≠ 0 then
      match addOption env st1 request "Session" st1.sessionIdString with
      | (r1, request1, st2) =>
        if r1 = 0 then some (0, response, freeMessage st2 request1)
        else
          match addOption env st2 request1 "Content-type" "application/sdp" with
          | (r2, request2, st3) =>
            if r2 = 0 then some (0, response, freeMessage st3 request2)
            else
              let st4 := st3.log (Event.getSdpPayloadForStreamConfig st3.remoteAddr)
              match env.getSdpPayloadForStreamConfig streamConfig st3.remoteAddr with
              | none => some (0, response, freeMessage st4 request2)
              | some (payload, payloadLength) =>
                let request3 := { request2 with payload := some payload,
                                                flags := request2.flags ||| FLAG_ALLOCATED_PAYLOAD }
                let payloadLengthStr := sprintf_d payloadLength
                match addOption env st4 request3 "Content-length" payloadLengthStr with
                | (r3, request4, st5) =>
                  if r3 = 0 then some (0, response, freeMessage st5 request4)
                  else
                    match transactRtspMessage env st5 request4 response with
                    | none => none
                    | some (ret1, response1, st6) =>
                      some (ret1, response1, freeMessage st6 request4)
    else some (ret, response, st1)

/-! ## Handshake sequencer -/

/-- The content of a local `RTSP_MESSAGE response;` before anything is stored
in it.  It is read only after a transaction has overwritten it. -/
def unsetResponse : RTSP_MESSAGE := createRtspRequest "" "" "" 0

/-- The function `performRtspHandshake`: the returned `int` and the new state. -/
def performRtspHandshake (env : Env) (st : State) (addr : Nat) (streamConfigPtr : Nat) :
    Option (Int × State) :=
  let st0 := { st with remoteAddr := addr }
  match requestOptions env st0 unsetResponse with
  | none => none
  | some (ret1, response1, st1) =>
  if ret1 = 0 then some (-1, st1)
  else if response1.statusCode ≠ 200 then some (-1, st1)
  else
  match requestDescribe env (freeMessage st1 response1) unsetResponse with
  | none => none
  | some (ret2, response2, st2) =>
  if ret2 = 0 then some (-1, st2)
  else if response2.statusCode ≠ 200 then some (-1, st2)
  else
  match setupStream env (freeMessage st2 response2) unsetResponse "streamid=audio" with
  | none => none
  | some (ret3, response3, st3) =>
  if ret3 = 0 then some (-1, st3)
  else if response3.statusCode ≠ 200 then some (-1, st3)
  else
  if getOptionContent response3.options "Session" = none then some (-1, st3)
  else
  match setupStream env (freeMessage st3 response3) unsetResponse "streamid=video" with
  | none => none
  | some (ret4, response4, st4) =>
  if ret4 = 0 then some (-1, st4)
  else if response4.statusCode ≠ 200 then some (-1, st4)
  else
  match sendVideoAnnounce env (freeMessage st4 response4) unsetResponse streamConfigPtr with
  | none => none
  | some (ret5, response5, st5) =>
  if ret5 = 0 then some (-1, st5)
  else if response5.statusCode ≠ 200 then some (-1, st5)
  else
  match playStream env (freeMessage st5 response5) unsetResponse "streamid=video" with
  | none => none
  | some (ret6, response6, st6) =>
  if ret6 = 0 then some (-1, st6)
  else if response6.statusCode ≠ 200 then some (-1, st6)
  else
  match playStream env (freeMessage st6 response6) unsetResponse "streamid=audio" with
  | none => none
  | some (ret7, response7, st7) =>
  if ret7 = 0 then some (-1, st7)
  else if response7.statusCode ≠ 200 then some (-1, st7)
  else some (0, freeMessage st7 response7)

/-! ## Reading the trace -/

/-- The events of the message level: construction and release of messages,
entry to and return from the transaction engine. -/
def Event.isHigh : Event → Bool
  | .createRtspRequest _ => true
  | .freeMessage _ => true
  | .transact _ => true
  | .transactReturn _ _ => true
  | _ => false

/-- The message-level events of a trace. -/
def high (tr : List Event) : List Event := tr.filter Event.isHigh

/-- The requests handed to the transaction engine, in order. -/
def requests (tr : List Event) : List RTSP_MESSAGE :=
  tr.filterMap (fun e => match e with | .transact m => some m | _ => none)

/-- The result and response of each transaction that returned, in order. -/
def outcomes (tr : List Event) : List (Int × RTSP_MESSAGE) :=
  tr.filterMap (fun e => match e with | .transactReturn r m => some (r, m) | _ => none)

/-- The requests built by `createRtspRequest`, in order. -/
def constructed (tr : List Event) : List RTSP_MESSAGE :=
  tr.filterMap (fun e => match e with | .createRtspRequest m => some m | _ => none)

/-- The messages released by `freeMessage`, in order. -/
def freed (tr : List Event) : List RTSP_MESSAGE :=
  tr.filterMap (fun e => match e with | .freeMessage m => some m | _ => none)

/-- The handles closed by `closesocket`, in order. -/
def closed (tr : List Event) : List Int :=
  tr.filterMap (fun e => match e with | .closesocket h => some h | _ => none)

/-- The buffers handed to `parseRtspMessage`, in order. -/
def parsed (tr : List Event) : List (List Byte) :=
  tr.filterMap (fun e => match e with | .parseRtspMessage b => some b | _ => none)

/-- The `(offset, capacity)` of each `recv` call, in order. -/
def receives (tr : List Event) : List (Int × Int) :=
  tr.filterMap (fun e => match e with | .recv _ o c => some (o, c) | _ => none)

/-- The part of the trace that a call added: what follows the caller's trace. -/
def added (before after : State) : List Event := after.trace.drop before.trace.length

/-! ## Vocabulary of the statements -/

/-- The globals a request builder leaves alone. -/
def Frame (st st' : State) : Prop :=
  st'.sessionIdString = st.sessionIdString ∧ st'.rtspTargetUrl = st.rtspTargetUrl ∧
    st'.remoteAddr = st.remoteAddr

/-- The trace of `st'` is the trace of `st` followed by events whose
message-level part is `hi`. -/
def Grows (st st' : State) (hi : List Event) : Prop :=
  ∃ evs, st'.trace = st.trace ++ evs ∧ high evs = hi

/-- A step below the message level: no global other than the allocation
counter changes and no message-level event is recorded. -/
def Quiet (st st' : State) : Prop :=
  Grows st st' [] ∧ Frame st st' ∧ st'.currentSeqNumber = st.currentSeqNumber ∧
    st'.sock = st.sock ∧ st'.transactions = st.transactions

/-- The message is a request for `command` on `target` numbered `seq`. -/
def IsRequest (command target : String) (seq : Int) (msg : RTSP_MESSAGE) : Prop :=
  msg.command = command ∧ msg.target = target ∧ msg.sequenceNumber = seq

/-- Every `recv` that is given room for at least one byte reports at most as
many bytes as the capacity it was given. -/
def RecvWithinCapacity (env : Env) : Prop :=
  ∀ k j capacity, 0 < capacity → (env.recv k j capacity).ret ≤ capacity

/-- What a request builder for `command` on `target` does, seen from its
caller: it builds one request (numbered with the counter, which it advances by
one), hands it to the transaction engine at most once, and releases it. -/
def StepSpec (command target : String) (st : State) (ret : Int) (response : RTSP_MESSAGE)
    (st' : State) : Prop :=
  Frame st st' ∧ st'.currentSeqNumber = toInt32 (st.currentSeqNumber + 1) ∧
    ∃ req, IsRequest command target st.currentSeqNumber req ∧
      ((ret = 0 ∧ Grows st st'
          [Event.createRtspRequest
              (createRtspRequest command target "RTSP/1.0" st.currentSeqNumber),
            Event.freeMessage req]) ∨
        ((ret = 0 ∨ ret = 1) ∧ Grows st st'
          [Event.createRtspRequest
              (createRtspRequest command target "RTSP/1.0" st.currentSeqNumber),
            Event.transact req, Event.transactReturn ret response, Event.freeMessage req]))

/-- The request `req` for `command` on `target` has been built in `st1`,
starting from `st`, and nothing else has happened at the message level. -/
def Built (command target : String) (st st1 : State) (req : RTSP_MESSAGE) : Prop :=
  Frame st st1 ∧ st1.currentSeqNumber = toInt32 (st.currentSeqNumber + 1) ∧
    IsRequest command target st.currentSeqNumber req ∧
    Grows st st1
      [Event.createRtspRequest (createRtspRequest command target "RTSP/1.0" st.currentSeqNumber)]

/-- One block of `performRtspHandshake`: the builder it calls, the request the
builder is for, and whether the block requires a `Session` option in the
response. -/
structure Block where
  command : String
  target : String
  needsSession : Bool
  run : Env → State → RTSP_MESSAGE → Option (Int × RTSP_MESSAGE × State)

/-- The blocks of `performRtspHandshake`, run from a list.  The theorem
`performRtspHandshake_eq_runBlocks` shows that the sequencer is this function on
`handshakeBlocks`; it is used to argue by induction on the blocks. -/
def runBlocks (env : Env) : List Block → State → Option (Int × State)
  | [], st => some (0, st)
  | b :: rest, st =>
    match b.run env st unsetResponse with
    | none => none
    | some (ret, response, st1) =>
      if ret = 0 then some (-1, st1)
      else if response.statusCode ≠ 200 then some (-1, st1)
      else if b.needsSession = true ∧ getOptionContent response.options "Session" = none then
        some (-1, st1)
      else runBlocks env rest (freeMessage st1 response)

/-- The seven blocks of `performRtspHandshake`, in source order. -/
def handshakeBlocks (url : String) (streamConfigPtr : Nat) : List Block :=
  [ { command := "OPTIONS", target := url, needsSession := false,
      run := fun env st r => requestOptions env st r },
    { command := "DESCRIBE", target := url, needsSession := false,
      run := fun env st r => requestDescribe env st r },
    { command := "SETUP", target := "streamid=audio", needsSession := true,
      run := fun env st r => setupStream env st r "streamid=audio" },
    { command := "SETUP", target := "streamid=video", needsSession := false,
      run := fun env st r => setupStream env st r "streamid=video" },
    { command := "ANNOUNCE", target := "streamid=video", needsSession := false,
      run := fun env st r => sendVideoAnnounce env st r streamConfigPtr },
    { command := "PLAY", target := "streamid=video", needsSession := false,
      run := fun env st r => playStream env st r "streamid=video" },
    { command := "PLAY", target := "streamid=audio", needsSession := false,
      run := fun env st r => playStream env st r "streamid=audio" } ]

/-- The message-level events that a run of blocks can leave, by cases on the
first block: its request is never handed over; or it is handed over and the
block fails; or the block succeeds and the remaining blocks run.  `c` is the
sequence counter before the run and `c'` the counter after it. -/
def Shape : List Block → Int → Int → List Event → Int → Prop
  | [], c, ret, evs, c' => ret = 0 ∧ evs = [] ∧ c' = c
  | b :: rest, c, ret, evs, c' =>
    ∃ req, IsRequest b.command b.target c req ∧
      ((ret = -1 ∧ c' = toInt32 (c + 1) ∧
          evs = [Event.createRtspRequest (createRtspRequest b.command b.target "RTSP/1.0" c),
            Event.freeMessage req]) ∨
        (∃ r resp, ret = -1 ∧ c' = toInt32 (c + 1) ∧
          (r = 0 ∨ (r = 1 ∧ (resp.statusCode ≠ 200 ∨
            (b.needsSession = true ∧ getOptionContent resp.options "Session" = none)))) ∧
          evs = [Event.createRtspRequest (createRtspRequest b.command b.target "RTSP/1.0" c),
            Event.transact req, Event.transactReturn r resp, Event.freeMessage req]) ∨
        (∃ resp tail, resp.statusCode = 200 ∧
          (b.needsSession = true → getOptionContent resp.options "Session" ≠ none) ∧
          evs = [Event.createRtspRequest (createRtspRequest b.command b.target "RTSP/1.0" c),
            Event.transact req, Event.transactReturn 1 resp, Event.freeMessage req,
            Event.freeMessage resp] ++ tail ∧
          Shape rest (toInt32 (c + 1)) ret tail c'))

/-- Every block of the list, run in a state whose target URL is `url`, behaves
as a request builder for its command and target, and returns whenever the
receives respect their capacity. -/
def BlocksOk (url : String) (bs : List Block) : Prop :=
  ∀ b ∈ bs,
    (∀ env st resp ret resp' st', st.rtspTargetUrl = url →
      b.run env st resp = some (ret, resp', st') →
      StepSpec b.command b.target st ret resp' st') ∧
    (∀ env st resp, RecvWithinCapacity env → ∃ r, b.run env st resp = some r)

/-- The method and target of the seven requests of the handshake, in order. -/
def handshakeSteps (url : String) : List (String × String) :=
  [("OPTIONS", url), ("DESCRIBE", url), ("SETUP", "streamid=audio"),
    ("SETUP", "streamid=video"), ("ANNOUNCE", "streamid=video"), ("PLAY", "streamid=video"),
    ("PLAY", "streamid=audio")]

/-- What a block requires of the outcome of its transaction. -/
def BlockPasses (b : Block) (o : Int × RTSP_MESSAGE) : Prop :=
  o.1 = 1 ∧ o.2.statusCode = 200 ∧
    (b.needsSession = true → getOptionContent o.2.options "Session" ≠ none)

/-- One evaluation of `currentSeqNumber++`. -/
def nextSeqNumber (c : Int) : Int := toInt32 (c + 1)

/-! ## Concrete collaborators -/

/-- A response `200` that carries `Session: ABC123`. -/
def sessionResponse : RTSP_MESSAGE :=
  { unsetResponse with
    statusCode := 200,
    options := [{ flags := FLAG_ALLOCATED_OPTION_FIELDS, option := "Session",
                  content := "ABC123" }] }

/-- A server that answers every request with `sessionResponse`: every
allocation succeeds, every connection opens with handle `3`, every request is
sent whole, the peer sends four bytes (as many of them as the first `recv` has
room for) and closes. -/
def serverOk : Env :=
  { mallocOk := fun _ => true
    connectTcpSocket := fun _ => 3
    serializeRtspMessage := fun _ _ => some [79, 80, 84, 73]
    send := fun _ bytes => bytes.length
    recv := fun _ j capacity =>
      if j = 0 then RecvResult.bytes ([82, 84, 83, 80].take capacity.toNat)
      else RecvResult.bytes []
    stack := fun _ _ => 65
    parseRtspMessage := fun _ _ => some sessionResponse
    getSdpPayloadForStreamConfig := fun _ _ => some ([118, 61, 48], 3) }

/-- The state in which a first handshake with `serverOk` leaves the program
that started in `State.initial "rtsp://host"`. -/
def afterFirstHandshake : State :=
  match performRtspHandshake serverOk (State.initial "rtsp://host") 0 0 with
  | some (_, st') => st'
  | none => State.initial "rtsp://host"

/-- The method, the target and the value of the `Session` option of a request. -/
def sessionOf (m : RTSP_MESSAGE) : String × String × Option String :=
  (m.command, m.target, getOptionContent m.options "Session")

/-- The number of bytes accumulated before the `j`-th `recv` of the `k`-th
transaction, when every earlier `recv` returned data. -/
def offsetBefore (env : Env) (k : Nat) : Nat → Int
  | 0 => 0
  | j + 1 => offsetBefore env k j + (env.recv k j (RTSP_MAX_RESP_SIZE - offsetBefore env k j)).ret

/-- The peer fills the buffer: the receives `0, …, m` of the `k`-th transaction
all return data, and with the last of them the accumulated length reaches
`RTSP_MAX_RESP_SIZE`. -/
def FillsBuffer (env : Env) (k m : Nat) : Prop :=
  (∀ j, j ≤ m → 0 < (env.recv k j (RTSP_MAX_RESP_SIZE - offsetBefore env k j)).ret) ∧
    offsetBefore env k (m + 1) = RTSP_MAX_RESP_SIZE

/-- A request as `requestOptions` hands it to the transaction engine first. -/
def optionsRequest : RTSP_MESSAGE :=
  { createRtspRequest "OPTIONS" "rtsp://host" "RTSP/1.0" 1 with
    options := [{ flags := FLAG_ALLOCATED_OPTION_FIELDS, option := "X-GS-ClientVersion",
                  content := RTSP_CLIENT_VERSION_S }],
    flags := FLAG_ALLOCATED_OPTION_ITEMS }

/-- A peer that never closes: every `recv` fills the room it is given. -/
def floodingServer : Env :=
  { serverOk with
    recv := fun _ _ capacity => RecvResult.bytes (List.replicate capacity.toNat 65) }

/-- A connection on which `send` fails. -/
def sendFails : Env :=
  { serverOk with send := fun _ _ => SOCKET_ERROR }

/-- A connection on which `send` transmits one byte of the request. -/
def shortSend : Env :=
  { serverOk with send := fun _ _ => 1 }

/-- A serializer that returns `NULL`. -/
def serializerFails : Env :=
  { serverOk with serializeRtspMessage := fun _ _ => none }

/-- A connection on which the second `recv` fails after four bytes have
arrived. -/
def receiveFails : Env :=
  { serverOk with
    recv := fun _ j capacity =>
      if j = 0 then RecvResult.bytes ([82, 84, 83, 80].take capacity.toNat)
      else RecvResult.error }

/-- The collaborators of `env`, except that a `recv` which fails in `env`
reports a closed connection instead. -/
def errorAsClose (env : Env) : Env :=
  { env with
    recv := fun k j capacity =>
      match env.recv k j capacity with
      | RecvResult.error => RecvResult.bytes []
      | RecvResult.bytes bs => RecvResult.bytes bs }

/-- The digits of a decimal numeral read from the left, continuing from the
value `acc`; `none` when a character is not a digit. -/
def parseDigitsFrom : Nat → List Char → Option Nat
  | acc, [] => some acc
  | acc, c :: cs =>
    if c.isDigit then parseDigitsFrom (acc * 10 + (c.toNat - '0'.toNat)) cs else none

/-- A decimal integer as the spec reads it ("parsed as an integer"): an
optional minus sign followed by one or more decimal digits. -/
def parseDecimal (s : String) : Option Int :=
  match s.data with
  | [] => none
  | c :: cs =>
    if c = '-' then
      if cs = [] then none else (parseDigitsFrom 0 cs).map (fun n : Nat => -(Int.ofNat n))
    else (parseDigitsFrom 0 (c :: cs)).map (fun n : Nat => Int.ofNat n)

/-- The values of the options of a message that have the given key. -/
def optionValues (msg : RTSP_MESSAGE) (key : String) : List String :=
  (msg.options.filter (fun item => item.option == key)).map (fun item => item.content)

/-- The allocations that succeeded, by number, in order. -/
def allocated (tr : List Event) : List Nat :=
  tr.filterMap (fun e => match e with | .malloc id true => some id | _ => none)

/-- The allocations handed back to `free`, by number, in order. -/
def released (tr : List Event) : List Nat :=
  tr.filterMap (fun e => match e with | .free id => some id | _ => none)

/-- An allocator that serves two requests and then fails. -/
def allocatorFailsThird : Env :=
  { serverOk with mallocOk := fun n => decide (n < 2) }

/-- The list `rs` of `(offset, capacity)` pairs is the list of the `recv` calls
of a receive loop of the `k`-th transaction: at most `RTSP_MAX_RESP_SIZE`
calls, the `i`-th made at offset `offsetBefore i` with the rest of the buffer
as capacity, every offset inside the buffer, and every call but the last one
returning data. -/
def ReceiveCalls (env : Env) (k : Nat) (rs : List (Int × Int)) : Prop :=
  ∃ n : Nat, (n : Int) ≤ RTSP_MAX_RESP_SIZE ∧
    rs = (List.range n).map (fun i =>
      (offsetBefore env k i, RTSP_MAX_RESP_SIZE - offsetBefore env k i)) ∧
    (∀ i, i < n → 0 ≤ offsetBefore env k i ∧ offsetBefore env k i < RTSP_MAX_RESP_SIZE) ∧
    (∀ i, i + 1 < n →
      0 < (env.recv k i (RTSP_MAX_RESP_SIZE - offsetBefore env k i)).ret)

/-- The keys and values of the options of a message, in list order. -/
def optionPairs (msg : RTSP_MESSAGE) : List (String × String) :=
  msg.options.map (fun item => (item.option, item.content))

/-- The option list of a request of the handshake: the client version first,
and after it no `Session` option with a value other than `sid`. -/
def HandshakeOptions (sid : String) (msg : RTSP_MESSAGE) : Prop :=
  ∃ rest, optionPairs msg = ("X-GS-ClientVersion", "10") :: rest ∧
    ∀ kv ∈ rest, kv.1 = "Session" → kv.2 = sid

/-- The result `r` of a request builder for `command` on `target`, called in
`st`: the builder returned, it built one request, numbered with the counter of
`st`, and released one message, which is that request (same method, target and
sequence number) and the one it handed to the transaction engine, if it handed
one over. -/
def ReleasesItsRequest (st : State) (r : Option (Int × RTSP_MESSAGE × State))
    (command target : String) : Prop :=
  ∃ ret response st' req, r = some (ret, response, st') ∧
    constructed (added st st') =
      [createRtspRequest command target "RTSP/1.0" st.currentSeqNumber] ∧
    freed (added st st') = [req] ∧ IsRequest command target st.currentSeqNumber req ∧
    (requests (added st st') = [] ∨ requests (added st st') = [req])

/-- A response `404` without options. -/
def notFoundResponse : RTSP_MESSAGE :=
  { unsetResponse with statusCode := 404 }

/-- A response `200` without options. -/
def plainResponse : RTSP_MESSAGE :=
  { unsetResponse with statusCode := 200 }

/-- The server of `serverOk`, except that it answers the second request
(`DESCRIBE`) with status `404`. -/
def describeNotFound : Env :=
  { serverOk with
    parseRtspMessage := fun k _ => if k = 1 then some notFoundResponse else some sessionResponse }

/-- The server of `serverOk`, except that its responses carry no `Session`
option. -/
def serverWithoutSession : Env :=
  { serverOk with parseRtspMessage := fun _ _ => some plainResponse }

/-- The content of `responseBuffer` before the `j`-th `recv` of the `k`-th
transaction, when every earlier `recv` returned data. -/
def bufferBefore (env : Env) (k : Nat) : Nat → List Byte
  | 0 => responseBufferOnEntry env k
  | j + 1 =>
    writeAt (bufferBefore env k j) (offsetBefore env k j).toNat
      (env.recv k j (RTSP_MAX_RESP_SIZE - offsetBefore env k j)).stored

/-- The accumulation of the `k`-th transaction stops at its `m`-th `recv`: the
receives before it all return data, the buffer is not full when it is called,
and it returns no data (a closed connection, or an error). -/
def StopsAt (env : Env) (k m : Nat) : Prop :=
  (∀ j, j < m → 0 < (env.recv k j (RTSP_MAX_RESP_SIZE - offsetBefore env k j)).ret) ∧
    offsetBefore env k m < RTSP_MAX_RESP_SIZE ∧
    (env.recv k m (RTSP_MAX_RESP_SIZE - offsetBefore env k m)).ret ≤ 0

/-- An environment in which every transaction gets an answer: every allocation
succeeds, every connection opens, every request is serialized and sent, every
response ends before the buffer is full and parses to a response with status
`200`, and the SDP generator produces a body. -/
def Responsive (env : Env) : Prop :=
  (∀ n, env.mallocOk n = true) ∧
    (∀ k, env.connectTcpSocket k ≠ INVALID_SOCKET) ∧
    (∀ k request, ∃ bytes, env.serializeRtspMessage k request = some bytes ∧
      env.send k bytes ≠ SOCKET_ERROR) ∧
    (∀ k, ∃ m, StopsAt env k m) ∧
    (∀ k buffer, ∃ response, env.parseRtspMessage k buffer = some response ∧
      response.statusCode = 200) ∧
    (∀ cfg addr, env.getSdpPayloadForStreamConfig cfg addr ≠ none)

/-- A cooperating environment for a handshake that starts with `k0`
transactions behind it: it is responsive, and the response of the third
transaction of the handshake (the audio setup) has a `Session` option. -/
def Cooperative (env : Env) (k0 : Nat) : Prop :=
  Responsive env ∧
    ∀ buffer response, env.parseRtspMessage (k0 + 2) buffer = some response →
      getOptionContent response.options "Session" ≠ none

/-- An environment that answers every transaction of a handshake that starts
with `k0` transactions behind it, but whose audio-setup response (the third) has
no `Session` option. -/
def WithoutSession (env : Env) (k0 : Nat) : Prop :=
  Responsive env ∧
    ∀ buffer response, env.parseRtspMessage (k0 + 2) buffer = some response →
      getOptionContent response.options "Session" = none

/-! ## Properties -/

theorem Frame.frameRefl (st : State) : Frame st st := ⟨rfl, rfl, rfl⟩

theorem Frame.frameThen {a b c : State} (h1 : Frame a b) (h2 : Frame b c) : Frame a c :=
  ⟨h2.1.trans h1.1, h2.2.1.trans h1.2.1, h2.2.2.trans h1.2.2⟩

theorem Grows.growsRefl (st : State) : Grows st st [] := ⟨[], by simp, rfl⟩

theorem Grows.growsThen {a b c : State} {x y : List Event} (h1 : Grows a b x) (h2 : Grows b c y) :
    Grows a c (x ++ y) := by
  obtain ⟨e1, h1, rfl⟩ := h1
  obtain ⟨e2, h2, rfl⟩ := h2
  exact ⟨e1 ++ e2, by rw [h2, h1, List.append_assoc], by simp [high]⟩

theorem Grows.high_added {a b : State} {x : List Event} (h : Grows a b x) :
    high (added a b) = x := by
  obtain ⟨e, h, rfl⟩ := h
  simp [added, h]

theorem grows_log (st : State) (e : Event) : Grows st (st.log e) (high [e]) :=
  ⟨[e], rfl, rfl⟩

theorem Quiet.quietRefl (st : State) : Quiet st st :=
  ⟨Grows.growsRefl st, Frame.frameRefl st, rfl, rfl, rfl⟩

theorem Quiet.quietThen {a b c : State} (h1 : Quiet a b) (h2 : Quiet b c) : Quiet a c :=
  ⟨by simpa using h1.1.growsThen h2.1, h1.2.1.frameThen h2.2.1, h2.2.2.1.trans h1.2.2.1,
    h2.2.2.2.1.trans h1.2.2.2.1, h2.2.2.2.2.trans h1.2.2.2.2⟩

theorem createOptionItem_quiet (env : Env) (st : State) (o c : String) :
    Quiet st (createOptionItem env st o c).2 := by
  by_cases h1 : env.mallocOk st.mallocs = true <;>
  by_cases h2 : env.mallocOk (st.mallocs + 1) = true <;>
  by_cases h3 : env.mallocOk (st.mallocs + 1 + 1) = true <;>
  simp [createOptionItem, malloc, free, State.log, Quiet, Grows, Frame, high, Event.isHigh,
    h1, h2, h3]

theorem createOptionItem_item (env : Env) (st : State) (o c : String) (item : OPTION_ITEM)
    (h : (createOptionItem env st o c).1 = some item) :
    item = { flags := FLAG_ALLOCATED_OPTION_FIELDS, option := o, content := c } := by
  by_cases h1 : env.mallocOk st.mallocs = true <;>
  by_cases h2 : env.mallocOk (st.mallocs + 1) = true <;>
  by_cases h3 : env.mallocOk (st.mallocs + 1 + 1) = true <;>
  simp [createOptionItem, malloc, free, State.log, h1, h2, h3] at h
  exact h.symm

/-- The message `addOption` leaves behind when it succeeds. -/
theorem addOption_spec (env : Env) (st : State) (msg : RTSP_MESSAGE) (o c : String) :
    Quiet st (addOption env st msg o c).2.2 ∧
      (((addOption env st msg o c).1 = 0 ∧ (addOption env st msg o c).2.1 = msg) ∨
        ((addOption env st msg o c).1 = 1 ∧
          (addOption env st msg o c).2.1 =
            { msg with
              options := msg.options ++
                [{ flags := FLAG_ALLOCATED_OPTION_FIELDS, option := o, content := c }],
              flags := msg.flags ||| FLAG_ALLOCATED_OPTION_ITEMS })) := by
  have hq := createOptionItem_quiet env st o c
  have hi := createOptionItem_item env st o c
  unfold addOption
  rcases hc : createOptionItem env st o c with ⟨_ | item, st1⟩
  · rw [hc] at hq
    exact ⟨hq, Or.inl ⟨rfl, rfl⟩⟩
  · rw [hc] at hq hi
    have := hi item rfl
    subst this
    exact ⟨hq, Or.inr ⟨rfl, rfl⟩⟩

theorem addOption_isRequest (env : Env) (st : State) (msg : RTSP_MESSAGE) (o c cmd tgt : String)
    (seq : Int) (h : IsRequest cmd tgt seq msg) :
    IsRequest cmd tgt seq (addOption env st msg o c).2.1 := by
  rcases (addOption_spec env st msg o c).2 with ⟨_, h2⟩ | ⟨_, h2⟩ <;> rw [h2] <;> exact h

theorem addOption_ret (env : Env) (st : State) (msg : RTSP_MESSAGE) (o c : String) :
    (addOption env st msg o c).1 = 0 ∨ (addOption env st msg o c).1 = 1 := by
  rcases (addOption_spec env st msg o c).2 with ⟨h, _⟩ | ⟨h, _⟩
  · exact Or.inl h
  · exact Or.inr h

theorem initializeRtspRequest_aux (env : Env) (st st0 : State) (cmd tgt : String) {ret : Int}
    {req : RTSP_MESSAGE} {st1 : State} (msg : RTSP_MESSAGE)
    (hmsg : msg = createRtspRequest cmd tgt "RTSP/1.0" st.currentSeqNumber)
    (hg0 : Grows st st0 [Event.createRtspRequest msg])
    (hf0 : Frame st st0) (hs0 : st0.currentSeqNumber = toInt32 (st.currentSeqNumber + 1))
    (hk0 : st0.sock = st.sock ∧ st0.transactions = st.transactions)
    (h : (if (addOption env st0 msg "X-GS-ClientVersion" RTSP_CLIENT_VERSION_S).1 = 0 then
            ((0 : Int), (addOption env st0 msg "X-GS-ClientVersion" RTSP_CLIENT_VERSION_S).2.1,
              freeMessage (addOption env st0 msg "X-GS-ClientVersion" RTSP_CLIENT_VERSION_S).2.2
                (addOption env st0 msg "X-GS-ClientVersion" RTSP_CLIENT_VERSION_S).2.1)
          else
            (1, (addOption env st0 msg "X-GS-ClientVersion" RTSP_CLIENT_VERSION_S).2.1,
              (addOption env st0 msg "X-GS-ClientVersion" RTSP_CLIENT_VERSION_S).2.2)) =
        (ret, req, st1)) :
    Frame st st1 ∧ st1.currentSeqNumber = toInt32 (st.currentSeqNumber + 1) ∧
      st1.sock = st.sock ∧ st1.transactions = st.transactions ∧
      IsRequest cmd tgt st.currentSeqNumber req ∧
      ((ret = 0 ∧ Grows st st1 [Event.createRtspRequest msg, Event.freeMessage req]) ∨
        (ret = 1 ∧ Grows st st1 [Event.createRtspRequest msg])) := by
  have hq := (addOption_spec env st0 msg "X-GS-ClientVersion" RTSP_CLIENT_VERSION_S).1
  have hr := addOption_isRequest env st0 msg "X-GS-ClientVersion" RTSP_CLIENT_VERSION_S cmd tgt
    st.currentSeqNumber (by subst hmsg; exact ⟨rfl, rfl, rfl⟩)
  have hret := addOption_ret env st0 msg "X-GS-ClientVersion" RTSP_CLIENT_VERSION_S
  rcases ha : addOption env st0 msg "X-GS-ClientVersion" RTSP_CLIENT_VERSION_S with ⟨r, m, s2⟩
  rw [ha] at h hq hr hret
  simp only at h hq hr hret
  obtain ⟨hg, hf, hs, hk, ht⟩ := hq
  rcases hret with hret | hret
  · subst hret
    simp only [if_true, Prod.mk.injEq] at h
    obtain ⟨rfl, rfl, rfl⟩ := h
    refine ⟨hf0.frameThen hf, by simpa [freeMessage, State.log, hs] using hs0, ?_, ?_, hr,
      Or.inl ⟨rfl, ?_⟩⟩
    · simpa [freeMessage, State.log, hk] using hk0.1
    · simpa [freeMessage, State.log, ht] using hk0.2
    · have := (hg0.growsThen hg).growsThen (grows_log s2 (Event.freeMessage m))
      simpa [freeMessage, high, Event.isHigh] using this
  · subst hret
    simp only [one_ne_zero, if_false, Prod.mk.injEq] at h
    obtain ⟨rfl, rfl, rfl⟩ := h
    refine ⟨hf0.frameThen hf, hs.trans hs0, hk.trans hk0.1, ht.trans hk0.2, hr, Or.inr ⟨rfl, ?_⟩⟩
    simpa using hg0.growsThen hg

theorem initializeRtspRequest_spec (env : Env) (st : State) (cmd tgt : String) {ret : Int}
    {req : RTSP_MESSAGE} {st1 : State}
    (h : initializeRtspRequest env st cmd tgt = (ret, req, st1)) :
    Frame st st1 ∧ st1.currentSeqNumber = toInt32 (st.currentSeqNumber + 1) ∧
      st1.sock = st.sock ∧ st1.transactions = st.transactions ∧
      IsRequest cmd tgt st.currentSeqNumber req ∧
      ((ret = 0 ∧ Grows st st1
          [Event.createRtspRequest (createRtspRequest cmd tgt "RTSP/1.0" st.currentSeqNumber),
            Event.freeMessage req]) ∨
        (ret = 1 ∧ Grows st st1
          [Event.createRtspRequest (createRtspRequest cmd tgt "RTSP/1.0" st.currentSeqNumber)])) := by
  unfold initializeRtspRequest at h
  refine initializeRtspRequest_aux env st _ cmd tgt _ rfl ?_ ?_ ?_ ?_ h
  · exact ⟨_, rfl, rfl⟩
  · exact ⟨rfl, rfl, rfl⟩
  · rfl
  · exact ⟨rfl, rfl⟩

/-- The receive loop records `recv` calls only and changes no global. -/
theorem recvLoop_trace (env : Env) (k : Nat) :
    ∀ (fuel j : Nat) (offset : Int) (buf : List Byte) (st : State) (ex : LoopExit) (st' : State),
      recvLoop env k fuel j offset buf st = some (ex, st') →
      (∃ evs, st'.trace = st.trace ++ evs ∧ ∀ e ∈ evs, ∃ h o c, e = Event.recv h o c) ∧
        Frame st st' ∧ st'.currentSeqNumber = st.currentSeqNumber ∧ st'.sock = st.sock ∧
        st'.transactions = st.transactions := by
  intro fuel
  induction fuel with
  | zero => intro j offset buf st ex st' h; simp [recvLoop] at h
  | succ n ih =>
    intro j offset buf st ex st' h
    unfold recvLoop at h
    simp only at h
    split_ifs at h with h1 h2 h3
    · simp only [Option.some.injEq, Prod.mk.injEq] at h
      obtain ⟨-, rfl⟩ := h
      exact ⟨⟨[_], rfl, by simp⟩, ⟨rfl, rfl, rfl⟩, rfl, rfl, rfl⟩
    · simp only [Option.some.injEq, Prod.mk.injEq] at h
      obtain ⟨-, rfl⟩ := h
      exact ⟨⟨[_], rfl, by simp⟩, ⟨rfl, rfl, rfl⟩, rfl, rfl, rfl⟩
    · obtain ⟨⟨evs, he, hall⟩, hf, hs, hk, ht⟩ := ih _ _ _ _ _ _ h
      refine ⟨⟨Event.recv st.sock offset (RTSP_MAX_RESP_SIZE - offset) :: evs, ?_, ?_⟩,
        hf, hs, hk, ht⟩
      · rw [he]; simp [State.log]
      · intro e he'
        rcases List.mem_cons.1 he' with rfl | he'
        · exact ⟨_, _, _, rfl⟩
        · exact hall e he'

theorem high_of_recv (evs : List Event) (h : ∀ e ∈ evs, ∃ s o c, e = Event.recv s o c) :
    high evs = [] := by
  unfold high
  rw [List.filter_eq_nil_iff]
  intro e he
  obtain ⟨s, o, c, rfl⟩ := h e he
  simp [Event.isHigh]

theorem recvLoop_quiet (env : Env) (k fuel j : Nat) (offset : Int) (buf : List Byte)
    (st : State) (ex : LoopExit) (st' : State)
    (h : recvLoop env k fuel j offset buf st = some (ex, st')) : Quiet st st' := by
  obtain ⟨⟨evs, he, hall⟩, hf, hs, hk, ht⟩ := recvLoop_trace env k fuel j offset buf st ex st' h
  exact ⟨⟨evs, he, high_of_recv evs hall⟩, hf, hs, hk, ht⟩

/-- With receives that respect their capacity the loop ends before the fuel does. -/
theorem recvLoop_total (env : Env) (hrecv : RecvWithinCapacity env) (k : Nat) :
    ∀ (fuel j : Nat) (offset : Int) (buf : List Byte) (st : State),
      0 ≤ offset → offset < RTSP_MAX_RESP_SIZE → RTSP_MAX_RESP_SIZE - offset ≤ fuel →
      ∃ r, recvLoop env k fuel j offset buf st = some r := by
  intro fuel
  induction fuel with
  | zero =>
    intro j offset buf st h0 h1 h2
    simp only [RTSP_MAX_RESP_SIZE] at h1 h2
    omega
  | succ n ih =>
    intro j offset buf st h0 h1 h2
    unfold recvLoop
    simp only
    have hc := hrecv k j (RTSP_MAX_RESP_SIZE - offset) (by omega)
    split_ifs with h3 h4 h5
    · omega
    · exact ⟨_, rfl⟩
    · exact ⟨_, rfl⟩
    · apply ih <;>
        (simp only [RTSP_MAX_RESP_SIZE] at h1 h2 h3 h4 h5 hc ⊢; push_cast at h2; omega)

theorem grows_of_trace {st st' : State} {evs x : List Event}
    (h : st'.trace = st.trace ++ evs) (hh : high evs = x) : Grows st st' x := ⟨evs, h, hh⟩

theorem high_append (a b : List Event) : high (a ++ b) = high a ++ high b := by
  simp [high]

theorem transactExit_trace (st : State) (bytes : List Byte) :
    (transactExit st bytes).trace =
      st.trace ++ [Event.freeSerialized bytes, Event.closesocket st.sock] := by
  simp [transactExit, closesocket, State.log]

theorem transactExit_frame (st : State) (bytes : List Byte) :
    Frame st (transactExit st bytes) ∧
      (transactExit st bytes).currentSeqNumber = st.currentSeqNumber ∧
      (transactExit st bytes).transactions = st.transactions ∧
      (transactExit st bytes).sock = INVALID_SOCKET :=
  ⟨⟨rfl, rfl, rfl⟩, rfl, rfl, rfl⟩

theorem transactRtspMessage_spec (env : Env) (st : State) (req resp : RTSP_MESSAGE) {ret : Int}
    {resp' : RTSP_MESSAGE} {st' : State}
    (h : transactRtspMessage env st req resp = some (ret, resp', st')) :
    Frame st st' ∧ st'.currentSeqNumber = st.currentSeqNumber ∧
      st'.transactions = st.transactions + 1 ∧ (ret = 0 ∨ ret = 1) ∧
      Grows st st' [Event.transact req, Event.transactReturn ret resp'] := by
  unfold transactRtspMessage at h
  simp only at h
  split at h
  · simp only [transactReturn, Option.some.injEq, Prod.mk.injEq] at h
    obtain ⟨rfl, rfl, rfl⟩ := h
    refine ⟨⟨rfl, rfl, rfl⟩, rfl, rfl, Or.inl rfl, ?_⟩
    apply grows_of_trace
    · simp only [State.log, List.append_assoc]; rfl
    · rfl
  · split at h
    · simp only [transactReturn, Option.some.injEq, Prod.mk.injEq] at h
      obtain ⟨rfl, rfl, rfl⟩ := h
      refine ⟨⟨rfl, rfl, rfl⟩, rfl, rfl, Or.inl rfl, ?_⟩
      apply grows_of_trace
      · simp only [State.log, closesocket, List.append_assoc]; rfl
      · rfl
    · split at h
      · simp only [transactReturn, Option.some.injEq, Prod.mk.injEq] at h
        obtain ⟨rfl, rfl, rfl⟩ := h
        refine ⟨⟨rfl, rfl, rfl⟩, rfl, rfl, Or.inl rfl, ?_⟩
        apply grows_of_trace
        · simp only [State.log, closesocket, transactExit, List.append_assoc]; rfl
        · rfl
      · split at h
        · exact absurd h (by simp)
        · rename_i st5 hloop
          obtain ⟨⟨evs, he, hh⟩, hf, hs, hk, ht⟩ := recvLoop_quiet _ _ _ _ _ _ _ _ _ hloop
          simp only [transactReturn, Option.some.injEq, Prod.mk.injEq] at h
          obtain ⟨rfl, rfl, rfl⟩ := h
          refine ⟨hf, hs, ht, Or.inl rfl, ?_⟩
          apply grows_of_trace
          · simp only [State.log, transactExit_trace, he, List.append_assoc]; rfl
          · simp only [high_append, hh]; rfl
        · rename_i buf off st5 hloop
          obtain ⟨⟨evs, he, hh⟩, hf, hs, hk, ht⟩ := recvLoop_quiet _ _ _ _ _ _ _ _ _ hloop
          split at h <;>
          · simp only [transactReturn, Option.some.injEq, Prod.mk.injEq] at h
            obtain ⟨rfl, rfl, rfl⟩ := h
            refine ⟨hf, hs, ht, by simp, ?_⟩
            apply grows_of_trace
            · simp only [State.log, transactExit_trace, he, List.append_assoc]; rfl
            · simp only [high_append, hh]; rfl

theorem transactRtspMessage_total (env : Env) (hrecv : RecvWithinCapacity env) (st : State)
    (req resp : RTSP_MESSAGE) : ∃ r, transactRtspMessage env st req resp = some r := by
  unfold transactRtspMessage
  simp only
  split
  · exact ⟨_, rfl⟩
  · split
    · exact ⟨_, rfl⟩
    · split
      · exact ⟨_, rfl⟩
      · split
        · rename_i hloop
          obtain ⟨r, hr⟩ := recvLoop_total env hrecv st.transactions
            (RTSP_MAX_RESP_SIZE.toNat + 1) 0 0 (responseBufferOnEntry env st.transactions) _
            (le_refl 0) (by decide) (by decide)
          rw [hr] at hloop
          exact absurd hloop (by simp)
        · exact ⟨_, rfl⟩
        · split <;> exact ⟨_, rfl⟩

theorem built_init (env : Env) (st : State) (cmd tgt : String) {ret : Int}
    {req : RTSP_MESSAGE} {st1 : State}
    (h : initializeRtspRequest env st cmd tgt = (ret, req, st1)) (hret : ret ≠ 0) :
    Built cmd tgt st st1 req := by
  obtain ⟨hf, hs, -, -, hr, hc⟩ := initializeRtspRequest_spec env st cmd tgt h
  rcases hc with ⟨h0, -⟩ | ⟨-, hg⟩
  · exact absurd h0 hret
  · exact ⟨hf, hs, hr, hg⟩

theorem step_init_fail (env : Env) (st : State) (cmd tgt : String) {ret : Int}
    {req : RTSP_MESSAGE} {st1 : State} (resp : RTSP_MESSAGE)
    (h : initializeRtspRequest env st cmd tgt = (ret, req, st1)) (hret : ¬ ret ≠ 0) :
    StepSpec cmd tgt st ret resp st1 := by
  obtain ⟨hf, hs, -, -, hr, hc⟩ := initializeRtspRequest_spec env st cmd tgt h
  rcases hc with ⟨h0, hg⟩ | ⟨h1, -⟩
  · exact ⟨hf, hs, req, hr, Or.inl ⟨h0, hg⟩⟩
  · exact absurd (by rw [h1]; decide) hret

theorem built_addOption (env : Env) {cmd tgt : String} {st st1 : State} {req : RTSP_MESSAGE}
    (o c : String) (h : Built cmd tgt st st1 req) :
    Built cmd tgt st (addOption env st1 req o c).2.2 (addOption env st1 req o c).2.1 := by
  obtain ⟨hf, hs, hr, hg⟩ := h
  obtain ⟨⟨hg', hf', hs', -, -⟩, -⟩ := addOption_spec env st1 req o c
  exact ⟨hf.frameThen hf', hs'.trans hs, addOption_isRequest env st1 req o c cmd tgt _ hr,
    by simpa using hg.growsThen hg'⟩

theorem step_fail {cmd tgt : String} {st st1 : State} {req : RTSP_MESSAGE}
    (resp : RTSP_MESSAGE) (h : Built cmd tgt st st1 req) :
    StepSpec cmd tgt st 0 resp (freeMessage st1 req) := by
  obtain ⟨hf, hs, hr, hg⟩ := h
  refine ⟨hf, hs, req, hr, Or.inl ⟨rfl, ?_⟩⟩
  simpa using hg.growsThen (grows_log st1 (Event.freeMessage req))

theorem step_transact (env : Env) {cmd tgt : String} {st st1 : State} {req : RTSP_MESSAGE}
    (resp : RTSP_MESSAGE) (h : Built cmd tgt st st1 req) {ret : Int} {resp' : RTSP_MESSAGE}
    {st' : State}
    (ht : (match transactRtspMessage env st1 req resp with
      | none => none
      | some (ret1, response1, st2) => some (ret1, response1, freeMessage st2 req)) =
        some (ret, resp', st')) :
    StepSpec cmd tgt st ret resp' st' := by
  obtain ⟨hf, hs, hr, hg⟩ := h
  rcases htx : transactRtspMessage env st1 req resp with _ | ⟨r, rp, st2⟩
  · rw [htx] at ht; exact absurd ht (by simp)
  · rw [htx] at ht
    simp only [Option.some.injEq, Prod.mk.injEq] at ht
    obtain ⟨rfl, rfl, rfl⟩ := ht
    obtain ⟨hf2, hs2, -, hret, hg2⟩ := transactRtspMessage_spec env st1 req resp htx
    refine ⟨hf.frameThen hf2, hs2.trans hs, req, hr, Or.inr ⟨hret, ?_⟩⟩
    simpa using (hg.growsThen hg2).growsThen (grows_log st2 (Event.freeMessage req))

theorem requestOptions_spec (env : Env) (st : State) (resp : RTSP_MESSAGE) {ret : Int}
    {resp' : RTSP_MESSAGE} {st' : State}
    (h : requestOptions env st resp = some (ret, resp', st')) :
    StepSpec "OPTIONS" st.rtspTargetUrl st ret resp' st' := by
  unfold requestOptions at h
  rcases hi : initializeRtspRequest env st "OPTIONS" st.rtspTargetUrl with ⟨r, req, st1⟩
  rw [hi] at h
  simp only at h
  split_ifs at h with h1
  · exact step_transact env resp (built_init env st _ _ hi h1) h
  · simp only [Option.some.injEq, Prod.mk.injEq] at h
    obtain ⟨rfl, rfl, rfl⟩ := h
    exact step_init_fail env st _ _ _ hi h1

theorem requestDescribe_spec (env : Env) (st : State) (resp : RTSP_MESSAGE) {ret : Int}
    {resp' : RTSP_MESSAGE} {st' : State}
    (h : requestDescribe env st resp = some (ret, resp', st')) :
    StepSpec "DESCRIBE" st.rtspTargetUrl st ret resp' st' := by
  unfold requestDescribe at h
  rcases hi : initializeRtspRequest env st "DESCRIBE" st.rtspTargetUrl with ⟨r, req, st1⟩
  rw [hi] at h
  simp only at h
  split_ifs at h with h1 h2 h3
  · exact step_transact env resp
      (built_addOption env _ _ (built_addOption env _ _ (built_init env st _ _ hi h1))) h
  · simp only [Option.some.injEq, Prod.mk.injEq] at h
    obtain ⟨rfl, rfl, rfl⟩ := h
    exact step_fail _ (built_addOption env _ _ (built_addOption env _ _ (built_init env st _ _ hi h1)))
  · simp only [Option.some.injEq, Prod.mk.injEq] at h
    obtain ⟨rfl, rfl, rfl⟩ := h
    exact step_fail _ (built_addOption env _ _ (built_init env st _ _ hi h1))
  · simp only [Option.some.injEq, Prod.mk.injEq] at h
    obtain ⟨rfl, rfl, rfl⟩ := h
    exact step_init_fail env st _ _ _ hi h1

theorem setupStreamTail_spec (env : Env) {cmd tgt : String} {st st1 : State}
    {req : RTSP_MESSAGE} (resp : RTSP_MESSAGE) (hb : Built cmd tgt st st1 req) {ret : Int}
    {resp' : RTSP_MESSAGE} {st' : State}
    (h : setupStreamTail env st1 req resp = some (ret, resp', st')) :
    StepSpec cmd tgt st ret resp' st' := by
  unfold setupStreamTail at h
  simp only at h
  split_ifs at h with h2 h3
  · exact step_transact env resp (built_addOption env _ _ (built_addOption env _ _ hb)) h
  · simp only [Option.some.injEq, Prod.mk.injEq] at h
    obtain ⟨rfl, rfl, rfl⟩ := h
    exact step_fail _ (built_addOption env _ _ (built_addOption env _ _ hb))
  · simp only [Option.some.injEq, Prod.mk.injEq] at h
    obtain ⟨rfl, rfl, rfl⟩ := h
    exact step_fail _ (built_addOption env _ _ hb)

theorem setupStream_spec (env : Env) (st : State) (resp : RTSP_MESSAGE) (tgt : String)
    {ret : Int} {resp' : RTSP_MESSAGE} {st' : State}
    (h : setupStream env st resp tgt = some (ret, resp', st')) :
    StepSpec "SETUP" tgt st ret resp' st' := by
  unfold setupStream at h
  rcases hi : initializeRtspRequest env st "SETUP" tgt with ⟨r, req, st1⟩
  rw [hi] at h
  simp only at h
  split_ifs at h with h1 h2 h3
  · simp only [Option.some.injEq, Prod.mk.injEq] at h
    obtain ⟨rfl, rfl, rfl⟩ := h
    exact step_fail _ (built_addOption env _ _ (built_init env st _ _ hi h1))
  · exact setupStreamTail_spec env resp (built_addOption env _ _ (built_init env st _ _ hi h1)) h
  · exact setupStreamTail_spec env resp (built_init env st _ _ hi h1) h
  · simp only [Option.some.injEq, Prod.mk.injEq] at h
    obtain ⟨rfl, rfl, rfl⟩ := h
    exact step_init_fail env st _ _ _ hi h1

theorem playStream_spec (env : Env) (st : State) (resp : RTSP_MESSAGE) (tgt : String)
    {ret : Int} {resp' : RTSP_MESSAGE} {st' : State}
    (h : playStream env st resp tgt = some (ret, resp', st')) :
    StepSpec "PLAY" tgt st ret resp' st' := by
  unfold playStream at h
  rcases hi : initializeRtspRequest env st "PLAY" tgt with ⟨r, req, st1⟩
  rw [hi] at h
  simp only at h
  split_ifs at h with h1 h2
  · exact step_transact env resp (built_addOption env _ _ (built_init env st _ _ hi h1)) h
  · simp only [Option.some.injEq, Prod.mk.injEq] at h
    obtain ⟨rfl, rfl, rfl⟩ := h
    exact step_fail _ (built_addOption env _ _ (built_init env st _ _ hi h1))
  · simp only [Option.some.injEq, Prod.mk.injEq] at h
    obtain ⟨rfl, rfl, rfl⟩ := h
    exact step_init_fail env st _ _ _ hi h1

theorem built_log {cmd tgt : String} {st st1 : State} {req : RTSP_MESSAGE} (e : Event)
    (he : e.isHigh = false) (h : Built cmd tgt st st1 req) : Built cmd tgt st (st1.log e) req := by
  obtain ⟨hf, hs, hr, hg⟩ := h
  refine ⟨hf, hs, hr, ?_⟩
  have := hg.growsThen (grows_log st1 e)
  simpa [high, he] using this

theorem built_payload {cmd tgt : String} {st st1 : State} {req : RTSP_MESSAGE}
    (payload : Option (List Byte)) (flags : Nat) (h : Built cmd tgt st st1 req) :
    Built cmd tgt st st1 { req with payload := payload, flags := flags } := by
  obtain ⟨hf, hs, hr, hg⟩ := h
  exact ⟨hf, hs, hr, hg⟩

theorem sendVideoAnnounce_spec (env : Env) (st : State) (resp : RTSP_MESSAGE) (cfg : Nat)
    {ret : Int} {resp' : RTSP_MESSAGE} {st' : State}
    (h : sendVideoAnnounce env st resp cfg = some (ret, resp', st')) :
    StepSpec "ANNOUNCE" "streamid=video" st ret resp' st' := by
  unfold sendVideoAnnounce at h
  rcases hi : initializeRtspRequest env st "ANNOUNCE" "streamid=video" with ⟨r, req, st1⟩
  rw [hi] at h
  simp only at h
  split_ifs at h with h1 h2 h3
  · simp only [Option.some.injEq, Prod.mk.injEq] at h
    obtain ⟨rfl, rfl, rfl⟩ := h
    exact step_fail _ (built_addOption env _ _ (built_init env st _ _ hi h1))
  · simp only [Option.some.injEq, Prod.mk.injEq] at h
    obtain ⟨rfl, rfl, rfl⟩ := h
    exact step_fail _ (built_addOption env _ _ (built_addOption env _ _ (built_init env st _ _ hi h1)))
  · have hb := built_log (Event.getSdpPayloadForStreamConfig
      (addOption env (addOption env st1 req "Session" st1.sessionIdString).2.2
        (addOption env st1 req "Session" st1.sessionIdString).2.1 "Content-type"
        "application/sdp").2.2.remoteAddr) rfl
      (built_addOption env "Content-type" "application/sdp"
        (built_addOption env "Session" st1.sessionIdString (built_init env st _ _ hi h1)))
    split at h
    · simp only [Option.some.injEq, Prod.mk.injEq] at h
      obtain ⟨rfl, rfl, rfl⟩ := h
      exact step_fail _ hb
    · rename_i payload payloadLength hsdp
      split_ifs at h with h4
      · simp only [Option.some.injEq, Prod.mk.injEq] at h
        obtain ⟨rfl, rfl, rfl⟩ := h
        exact step_fail _ (built_addOption env _ _ (built_payload _ _ hb))
      · exact step_transact env resp (built_addOption env _ _ (built_payload _ _ hb)) h
  · simp only [Option.some.injEq, Prod.mk.injEq] at h
    obtain ⟨rfl, rfl, rfl⟩ := h
    exact step_init_fail env st _ _ _ hi h1

theorem transact_then_free_total (env : Env) (hrecv : RecvWithinCapacity env) (st1 : State)
    (req resp : RTSP_MESSAGE) :
    ∃ r, (match transactRtspMessage env st1 req resp with
      | none => none
      | some (ret1, response1, st2) => some (ret1, response1, freeMessage st2 req)) = some r := by
  obtain ⟨⟨a, b, c⟩, h⟩ := transactRtspMessage_total env hrecv st1 req resp
  rw [h]
  exact ⟨_, rfl⟩

theorem requestOptions_total (env : Env) (hrecv : RecvWithinCapacity env) (st : State)
    (resp : RTSP_MESSAGE) : ∃ r, requestOptions env st resp = some r := by
  unfold requestOptions
  simp only
  split_ifs <;> first | exact ⟨_, rfl⟩ | exact transact_then_free_total env hrecv _ _ _

theorem requestDescribe_total (env : Env) (hrecv : RecvWithinCapacity env) (st : State)
    (resp : RTSP_MESSAGE) : ∃ r, requestDescribe env st resp = some r := by
  unfold requestDescribe
  simp only
  split_ifs <;> first | exact ⟨_, rfl⟩ | exact transact_then_free_total env hrecv _ _ _

theorem setupStreamTail_total (env : Env) (hrecv : RecvWithinCapacity env) (st : State)
    (req resp : RTSP_MESSAGE) : ∃ r, setupStreamTail env st req resp = some r := by
  unfold setupStreamTail
  simp only
  split_ifs <;> first | exact ⟨_, rfl⟩ | exact transact_then_free_total env hrecv _ _ _

theorem setupStream_total (env : Env) (hrecv : RecvWithinCapacity env) (st : State)
    (resp : RTSP_MESSAGE) (tgt : String) : ∃ r, setupStream env st resp tgt = some r := by
  unfold setupStream
  simp only
  split_ifs <;> first | exact ⟨_, rfl⟩ | exact setupStreamTail_total env hrecv _ _ _

theorem playStream_total (env : Env) (hrecv : RecvWithinCapacity env) (st : State)
    (resp : RTSP_MESSAGE) (tgt : String) : ∃ r, playStream env st resp tgt = some r := by
  unfold playStream
  simp only
  split_ifs <;> first | exact ⟨_, rfl⟩ | exact transact_then_free_total env hrecv _ _ _

theorem sendVideoAnnounce_total (env : Env) (hrecv : RecvWithinCapacity env) (st : State)
    (resp : RTSP_MESSAGE) (cfg : Nat) : ∃ r, sendVideoAnnounce env st resp cfg = some r := by
  unfold sendVideoAnnounce
  simp only
  split_ifs
  · exact ⟨_, rfl⟩
  · exact ⟨_, rfl⟩
  · split
    · exact ⟨_, rfl⟩
    · split_ifs <;> first | exact ⟨_, rfl⟩ | exact transact_then_free_total env hrecv _ _ _
  · exact ⟨_, rfl⟩

theorem performRtspHandshake_eq_runBlocks (env : Env) (st : State) (addr cfg : Nat) :
    performRtspHandshake env st addr cfg =
      runBlocks env (handshakeBlocks st.rtspTargetUrl cfg) { st with remoteAddr := addr } := by
  unfold performRtspHandshake handshakeBlocks
  simp only [runBlocks, Bool.false_eq_true, false_and, if_false, true_and]

theorem handshakeBlocks_ok (url : String) (cfg : Nat) : BlocksOk url (handshakeBlocks url cfg) := by
  intro b hb
  simp only [handshakeBlocks, List.mem_cons, List.mem_singleton, List.not_mem_nil, or_false] at hb
  rcases hb with rfl | rfl | rfl | rfl | rfl | rfl | rfl
  · exact ⟨fun env st resp ret resp' st' hu h => hu ▸ requestOptions_spec env st resp h,
      fun env st resp hr => requestOptions_total env hr st resp⟩
  · exact ⟨fun env st resp ret resp' st' hu h => hu ▸ requestDescribe_spec env st resp h,
      fun env st resp hr => requestDescribe_total env hr st resp⟩
  · exact ⟨fun env st resp ret resp' st' _ h => setupStream_spec env st resp _ h,
      fun env st resp hr => setupStream_total env hr st resp _⟩
  · exact ⟨fun env st resp ret resp' st' _ h => setupStream_spec env st resp _ h,
      fun env st resp hr => setupStream_total env hr st resp _⟩
  · exact ⟨fun env st resp ret resp' st' _ h => sendVideoAnnounce_spec env st resp _ h,
      fun env st resp hr => sendVideoAnnounce_total env hr st resp _⟩
  · exact ⟨fun env st resp ret resp' st' _ h => playStream_spec env st resp _ h,
      fun env st resp hr => playStream_total env hr st resp _⟩
  · exact ⟨fun env st resp ret resp' st' _ h => playStream_spec env st resp _ h,
      fun env st resp hr => playStream_total env hr st resp _⟩

theorem runBlocks_total (env : Env) (hrecv : RecvWithinCapacity env) (url : String) :
    ∀ (bs : List Block) (st : State), BlocksOk url bs → ∃ r, runBlocks env bs st = some r := by
  intro bs
  induction bs with
  | nil => intro st _; exact ⟨_, rfl⟩
  | cons b rest ih =>
    intro st hok
    obtain ⟨⟨r, p, s1⟩, hr⟩ := (hok b (List.mem_cons_self _ _)).2 env st unsetResponse hrecv
    unfold runBlocks
    rw [hr]
    simp only
    split_ifs
    · exact ⟨_, rfl⟩
    · exact ⟨_, rfl⟩
    · exact ⟨_, rfl⟩
    · exact ih _ (fun b' hb' => hok b' (List.mem_cons_of_mem _ hb'))

theorem runBlocks_shape (env : Env) (url : String) :
    ∀ (bs : List Block) (st : State) (ret : Int) (st' : State), BlocksOk url bs →
      st.rtspTargetUrl = url → runBlocks env bs st = some (ret, st') →
      Frame st st' ∧
        ∃ evs, Grows st st' evs ∧ Shape bs st.currentSeqNumber ret evs st'.currentSeqNumber := by
  intro bs
  induction bs with
  | nil =>
    intro st ret st' _ _ h
    simp only [runBlocks, Option.some.injEq, Prod.mk.injEq] at h
    obtain ⟨rfl, rfl⟩ := h
    exact ⟨Frame.frameRefl _, [], Grows.growsRefl _, rfl, rfl, rfl⟩
  | cons b rest ih =>
    intro st ret st' hok hurl h
    unfold runBlocks at h
    rcases hr : b.run env st unsetResponse with _ | ⟨r, p, s1⟩
    · rw [hr] at h; exact absurd h (by simp)
    rw [hr] at h
    simp only at h
    obtain ⟨hf, hs, req, hreq, hc⟩ := (hok b (List.mem_cons_self _ _)).1 env st _ _ _ _ hurl hr
    split_ifs at h with h1 h2 h3
    · simp only [Option.some.injEq, Prod.mk.injEq] at h
      obtain ⟨rfl, rfl⟩ := h
      refine ⟨hf, ?_⟩
      rcases hc with ⟨-, hg⟩ | ⟨-, hg⟩
      · exact ⟨_, hg, req, hreq, Or.inl ⟨rfl, hs, rfl⟩⟩
      · exact ⟨_, hg, req, hreq, Or.inr (Or.inl ⟨r, p, rfl, hs, Or.inl h1, rfl⟩)⟩
    · simp only [Option.some.injEq, Prod.mk.injEq] at h
      obtain ⟨rfl, rfl⟩ := h
      refine ⟨hf, ?_⟩
      rcases hc with ⟨h0, -⟩ | ⟨h01, hg⟩
      · exact absurd h0 h1
      · have hr1 : r = 1 := h01.resolve_left h1
        exact ⟨_, hg, req, hreq, Or.inr (Or.inl ⟨r, p, rfl, hs, Or.inr ⟨hr1, Or.inl h2⟩, rfl⟩)⟩
    · simp only [Option.some.injEq, Prod.mk.injEq] at h
      obtain ⟨rfl, rfl⟩ := h
      refine ⟨hf, ?_⟩
      rcases hc with ⟨h0, -⟩ | ⟨h01, hg⟩
      · exact absurd h0 h1
      · have hr1 : r = 1 := h01.resolve_left h1
        exact ⟨_, hg, req, hreq, Or.inr (Or.inl ⟨r, p, rfl, hs, Or.inr ⟨hr1, Or.inr h3⟩, rfl⟩)⟩
    · rcases hc with ⟨h0, -⟩ | ⟨h01, hg⟩
      · exact absurd h0 h1
      · have hr1 : r = 1 := h01.resolve_left h1
        subst hr1
        have hurl' : (freeMessage s1 p).rtspTargetUrl = url := by
          rw [← hurl]; exact hf.2.1
        obtain ⟨hf', evs, hg', hsh⟩ :=
          ih (freeMessage s1 p) ret st' (fun b' hb' => hok b' (List.mem_cons_of_mem _ hb'))
            hurl' h
        have hfm : Frame s1 (freeMessage s1 p) := ⟨rfl, rfl, rfl⟩
        refine ⟨(hf.frameThen hfm).frameThen hf', _,
          (hg.growsThen (grows_log s1 (Event.freeMessage p))).growsThen hg', req, hreq,
          Or.inr (Or.inr ⟨p, evs, not_not.1 h2, ?_, ?_, ?_⟩)⟩
        · intro hn hnone
          exact h3 ⟨hn, hnone⟩
        · rfl
        · have : (freeMessage s1 p).currentSeqNumber = toInt32 (st.currentSeqNumber + 1) := hs
          rw [← this]
          exact hsh

theorem requests_high (tr : List Event) : requests (high tr) = requests tr := by
  induction tr with
  | nil => rfl
  | cons e tl ih =>
    cases e <;> simp_all [requests, high, Event.isHigh, List.filter_cons]

theorem outcomes_high (tr : List Event) : outcomes (high tr) = outcomes tr := by
  induction tr with
  | nil => rfl
  | cons e tl ih =>
    cases e <;> simp_all [outcomes, high, Event.isHigh, List.filter_cons]

theorem constructed_high (tr : List Event) : constructed (high tr) = constructed tr := by
  induction tr with
  | nil => rfl
  | cons e tl ih =>
    cases e <;> simp_all [constructed, high, Event.isHigh, List.filter_cons]

theorem freed_high (tr : List Event) : freed (high tr) = freed tr := by
  induction tr with
  | nil => rfl
  | cons e tl ih =>
    cases e <;> simp_all [freed, high, Event.isHigh, List.filter_cons]

/-- The handshake returns, and its message-level events have the shape of a
run of the seven blocks. -/
theorem performRtspHandshake_shape (env : Env) (hrecv : RecvWithinCapacity env) (st : State)
    (addr cfg : Nat) :
    ∃ ret st', performRtspHandshake env st addr cfg = some (ret, st') ∧
      st'.sessionIdString = st.sessionIdString ∧ st'.rtspTargetUrl = st.rtspTargetUrl ∧
      st'.remoteAddr = addr ∧
      Shape (handshakeBlocks st.rtspTargetUrl cfg) st.currentSeqNumber ret
        (high (added st st')) st'.currentSeqNumber := by
  rw [performRtspHandshake_eq_runBlocks]
  obtain ⟨⟨ret, st'⟩, hr⟩ := runBlocks_total env hrecv st.rtspTargetUrl
    (handshakeBlocks st.rtspTargetUrl cfg) { st with remoteAddr := addr }
    (handshakeBlocks_ok _ _)
  obtain ⟨hf, evs, hg, hsh⟩ := runBlocks_shape env st.rtspTargetUrl _
    { st with remoteAddr := addr } _ _ (handshakeBlocks_ok _ _) rfl hr
  refine ⟨ret, st', hr, hf.1, hf.2.1, hf.2.2, ?_⟩
  have : high (added st st') = evs := hg.high_added
  rw [this]
  exact hsh

theorem serverOk_recv : RecvWithinCapacity serverOk := by
  intro k j capacity hc
  by_cases hj : j = 0
  · simp only [serverOk, hj, if_true, RecvResult.ret, List.length_take]
    omega
  · simp only [serverOk, hj, if_false, RecvResult.ret, List.length_nil]
    omega

theorem shape_outcomes :
    ∀ (bs : List Block) (c ret : Int) (evs : List Event) (c' : Int), Shape bs c ret evs c' →
      (ret = 0 ∨ ret = -1) ∧ (ret = 0 ↔ List.Forall₂ BlockPasses bs (outcomes evs)) := by
  intro bs
  induction bs with
  | nil =>
    rintro c ret evs c' ⟨rfl, rfl, -⟩
    exact ⟨Or.inl rfl, by simp [outcomes]⟩
  | cons b rest ih =>
    rintro c ret evs c' ⟨req, -, h⟩
    rcases h with ⟨rfl, -, rfl⟩ | ⟨r, resp, rfl, -, hbad, rfl⟩ | ⟨resp, tail, h200, hsess, rfl, htail⟩
    · exact ⟨Or.inr rfl, by simp [outcomes]⟩
    · refine ⟨Or.inr rfl, ?_⟩
      simp only [outcomes, List.filterMap_cons, List.filterMap_nil, List.forall₂_cons,
        BlockPasses]
      constructor
      · intro h; exact absurd h (by decide)
      · rintro ⟨⟨h1, h2, h3⟩, -⟩
        rcases hbad with h0 | ⟨-, hs | ⟨hn, hnone⟩⟩
        · rw [h0] at h1; exact absurd h1 (by decide)
        · exact absurd h2 hs
        · exact absurd hnone (h3 hn)
    · obtain ⟨hret, hiff⟩ := ih _ _ _ _ htail
      refine ⟨hret, ?_⟩
      have ho : outcomes ([Event.createRtspRequest
            (createRtspRequest b.command b.target "RTSP/1.0" c), Event.transact req,
          Event.transactReturn 1 resp, Event.freeMessage req, Event.freeMessage resp] ++ tail) =
          (1, resp) :: outcomes tail := by
        simp [outcomes]
      rw [ho, List.forall₂_cons, ← hiff]
      have hp : BlockPasses b (1, resp) := ⟨rfl, h200, hsess⟩
      exact ⟨fun h => ⟨hp, h⟩, fun h => h.2⟩

theorem shape_requests :
    ∀ (bs : List Block) (c ret : Int) (evs : List Event) (c' : Int), Shape bs c ret evs c' →
      (requests evs).map (fun m => (m.command, m.target)) <+:
          bs.map (fun b => (b.command, b.target)) ∧
        (outcomes evs).length = (requests evs).length ∧
        (∀ o ∈ (outcomes evs).dropLast, o.1 = 1 ∧ o.2.statusCode = 200) ∧
        (ret = 0 → (requests evs).map (fun m => (m.command, m.target)) =
          bs.map (fun b => (b.command, b.target))) := by
  intro bs
  induction bs with
  | nil =>
    rintro c ret evs c' ⟨rfl, rfl, -⟩
    simp [requests, outcomes]
  | cons b rest ih =>
    rintro c ret evs c' ⟨req, ⟨hcmd, htgt, -⟩, h⟩
    rcases h with ⟨rfl, -, rfl⟩ | ⟨r, resp, rfl, -, -, rfl⟩ | ⟨resp, tail, h200, -, rfl, htail⟩
    · simp [requests, outcomes]
    · simp [requests, outcomes, hcmd, htgt]
    · obtain ⟨hpre, hlen, hall, heq⟩ := ih _ _ _ _ htail
      have ho : outcomes ([Event.createRtspRequest
            (createRtspRequest b.command b.target "RTSP/1.0" c), Event.transact req,
          Event.transactReturn 1 resp, Event.freeMessage req, Event.freeMessage resp] ++ tail) =
          (1, resp) :: outcomes tail := by
        simp [outcomes]
      have hq : requests ([Event.createRtspRequest
            (createRtspRequest b.command b.target "RTSP/1.0" c), Event.transact req,
          Event.transactReturn 1 resp, Event.freeMessage req, Event.freeMessage resp] ++ tail) =
          req :: requests tail := by
        simp [requests]
      rw [ho, hq]
      refine ⟨?_, by simp [hlen], ?_, ?_⟩
      · simp only [List.map_cons, hcmd, htgt]
        exact (List.prefix_cons_inj _).2 hpre
      · intro o ho'
        rcases hout : outcomes tail with _ | ⟨o1, os⟩
        · rw [hout] at ho'; simp at ho'
        · rw [hout, List.dropLast_cons₂, List.mem_cons] at ho'
          rcases ho' with rfl | ho'
          · exact ⟨rfl, h200⟩
          · exact hall o (by rw [hout]; exact ho')
      · intro h0
        simp only [List.map_cons, hcmd, htgt, heq h0]

theorem forall₂_handshakeBlocks (url : String) (cfg : Nat) (os : List (Int × RTSP_MESSAGE)) :
    List.Forall₂ BlockPasses (handshakeBlocks url cfg) os ↔
      os.length = 7 ∧ (∀ o ∈ os, o.1 = 1 ∧ o.2.statusCode = 200) ∧
        ∃ o, os[2]? = some o ∧ getOptionContent o.2.options "Session" ≠ none := by
  rcases os with _ | ⟨a, _ | ⟨b, _ | ⟨c, _ | ⟨d, _ | ⟨e, _ | ⟨f, _ | ⟨g, _ | ⟨x, xs⟩⟩⟩⟩⟩⟩⟩⟩ <;>
    simp [handshakeBlocks, BlockPasses]
  tauto

theorem handshakeBlocks_keys (url : String) (cfg : Nat) :
    (handshakeBlocks url cfg).map (fun b => (b.command, b.target)) = handshakeSteps url := rfl

/-- C3: the requests that `performRtspHandshake` hands to the transaction
engine are, by method and target, a prefix of the seven steps; each of them has
an outcome, and every outcome but the last is a result `1` with status code
`200` (so nothing is handed over after a failed transaction or a status other
than `200`). -/
theorem performRtspHandshake_requests_in_order (env : Env) (st : State) (addr cfg : Nat)
    (hrecv : RecvWithinCapacity env) :
    ∃ ret st', performRtspHandshake env st addr cfg = some (ret, st') ∧
      (requests (added st st')).map (fun m => (m.command, m.target)) <+:
        handshakeSteps st.rtspTargetUrl ∧
      (outcomes (added st st')).length = (requests (added st st')).length ∧
      ∀ o ∈ (outcomes (added st st')).dropLast, o.1 = 1 ∧ o.2.statusCode = 200 := by
  obtain ⟨ret, st', hp, -, -, -, hsh⟩ := performRtspHandshake_shape env hrecv st addr cfg
  obtain ⟨h1, h2, h3, -⟩ := shape_requests _ _ _ _ _ hsh
  rw [requests_high, handshakeBlocks_keys] at h1
  rw [requests_high, outcomes_high] at h2
  rw [outcomes_high] at h3
  exact ⟨ret, st', hp, h1, h2, h3⟩

theorem shape_constructed :
    ∀ (bs : List Block) (c ret : Int) (evs : List Event) (c' : Int), Shape bs c ret evs c' →
      (constructed evs).map (fun m => m.sequenceNumber) =
          (List.range (constructed evs).length).map (fun k => nextSeqNumber^[k] c) ∧
        c' = nextSeqNumber^[(constructed evs).length] c ∧
        (constructed evs).length ≤ bs.length := by
  intro bs
  induction bs with
  | nil =>
    rintro c ret evs c' ⟨rfl, rfl, rfl⟩
    simp [constructed]
  | cons b rest ih =>
    rintro c ret evs c' ⟨req, -, h⟩
    rcases h with ⟨rfl, rfl, rfl⟩ | ⟨r, resp, rfl, rfl, -, rfl⟩ | ⟨resp, tail, -, -, rfl, htail⟩
    · simp [constructed, createRtspRequest, nextSeqNumber]
    · simp [constructed, createRtspRequest, nextSeqNumber]
    · obtain ⟨hseq, hc', hlen⟩ := ih _ _ _ _ htail
      have hq : constructed ([Event.createRtspRequest
            (createRtspRequest b.command b.target "RTSP/1.0" c), Event.transact req,
          Event.transactReturn 1 resp, Event.freeMessage req, Event.freeMessage resp] ++ tail) =
          createRtspRequest b.command b.target "RTSP/1.0" c :: constructed tail := by
        simp [constructed]
      rw [hq]
      refine ⟨?_, ?_, by simpa using hlen⟩
      · rw [List.length_cons, List.range_succ_eq_map, List.map_cons, List.map_cons, hseq,
          List.map_map]
        simp [createRtspRequest, Function.comp_def, nextSeqNumber]
      · rw [hc']
        simp [nextSeqNumber]

theorem nextSeqNumber_iterate (c : Int) (hc : -2147483648 ≤ c) :
    ∀ k : Nat, c + k < 2147483648 → nextSeqNumber^[k] c = c + k := by
  intro k
  induction k with
  | zero => intro _; simp
  | succ n ih =>
    intro h
    rw [Function.iterate_succ_apply', ih (by push_cast at h; omega)]
    simp only [nextSeqNumber, toInt32]
    push_cast at h ⊢
    omega

/-- C4 (amended): in one call of `performRtspHandshake` the `k`-th request
built carries the value that the counter had on entry, advanced `k - 1` times,
and the counter is advanced once per request built; when the counter is `1` on
entry, as in the first attempt of a process, the `k`-th request carries `k`. -/
theorem performRtspHandshake_sequence_numbers (env : Env) (st : State) (addr cfg : Nat)
    (hrecv : RecvWithinCapacity env) :
    ∃ ret st', performRtspHandshake env st addr cfg = some (ret, st') ∧
      (constructed (added st st')).map (fun m => m.sequenceNumber) =
        (List.range (constructed (added st st')).length).map
          (fun k => nextSeqNumber^[k] st.currentSeqNumber) ∧
      st'.currentSeqNumber = nextSeqNumber^[(constructed (added st st')).length]
        st.currentSeqNumber ∧
      (st.currentSeqNumber = 1 →
        (constructed (added st st')).map (fun m => m.sequenceNumber) =
            (List.range (constructed (added st st')).length).map (fun k : Nat => (k : Int) + 1) ∧
          st'.currentSeqNumber = (constructed (added st st')).length + 1) := by
  obtain ⟨ret, st', hp, -, -, -, hsh⟩ := performRtspHandshake_shape env hrecv st addr cfg
  obtain ⟨h1, h2, h3⟩ := shape_constructed _ _ _ _ _ hsh
  rw [constructed_high] at h1 h2 h3
  have h7 : (constructed (added st st')).length ≤ 7 := h3
  refine ⟨ret, st', hp, h1, h2, ?_⟩
  intro hone
  constructor
  · rw [h1]
    apply List.map_congr_left
    intro k hk
    have hk' := List.mem_range.1 hk
    rw [hone, nextSeqNumber_iterate 1 (by decide) k (by omega)]
    omega
  · rw [h2, hone, nextSeqNumber_iterate 1 (by decide) _ (by omega)]
    omega

theorem performRtspHandshake_sequence_numbers_witness :
    RecvWithinCapacity serverOk ∧
      ∃ ret st', performRtspHandshake serverOk (State.initial "rtsp://host") 0 0 =
          some (ret, st') ∧
        (constructed (added (State.initial "rtsp://host") st')).map (fun m => m.sequenceNumber) =
          (List.range (constructed (added (State.initial "rtsp://host") st')).length).map
            (fun k => nextSeqNumber^[k] (State.initial "rtsp://host").currentSeqNumber) ∧
        st'.currentSeqNumber =
          nextSeqNumber^[(constructed (added (State.initial "rtsp://host") st')).length]
            (State.initial "rtsp://host").currentSeqNumber ∧
        ((State.initial "rtsp://host").currentSeqNumber = 1 →
          (constructed (added (State.initial "rtsp://host") st')).map
              (fun m => m.sequenceNumber) =
              (List.range (constructed (added (State.initial "rtsp://host") st')).length).map
                (fun k : Nat => (k : Int) + 1) ∧
            st'.currentSeqNumber =
              (constructed (added (State.initial "rtsp://host") st')).length + 1) :=
  ⟨serverOk_recv,
    performRtspHandshake_sequence_numbers serverOk (State.initial "rtsp://host") 0 0
      serverOk_recv⟩

set_option maxRecDepth 100000 in
/-- C4 (as stated) fails: in a second handshake of the same process the first
request built carries `8`, not `1`. -/
theorem second_handshake_sequence_numbers :
    (performRtspHandshake serverOk afterFirstHandshake 0 0).map
        (fun r => (constructed (added afterFirstHandshake r.2)).map (fun m => m.sequenceNumber)) =
      some [8, 9, 10, 11, 12, 13, 14] := by
  rfl

set_option maxRecDepth 100000 in
/-- C1: with a server whose audio-setup response carries `Session: ABC123`,
the video-setup request has no `Session` option and the three later requests
carry the empty string. -/
theorem session_not_propagated :
    (performRtspHandshake serverOk (State.initial "rtsp://host") 0 0).map
        (fun r => (r.1, (outcomes r.2.trace).map (fun o => getOptionContent o.2.options "Session"),
          (requests r.2.trace).map sessionOf)) =
      some (0, List.replicate 7 (some "ABC123"),
        [("OPTIONS", "rtsp://host", none), ("DESCRIBE", "rtsp://host", none),
          ("SETUP", "streamid=audio", none), ("SETUP", "streamid=video", none),
          ("ANNOUNCE", "streamid=video", some ""), ("PLAY", "streamid=video", some ""),
          ("PLAY", "streamid=audio", some "")]) := by
  rfl

theorem offsetBefore_lt (env : Env) (k m : Nat) (h : FillsBuffer env k m) :
    ∀ d j, j + d = m + 1 → offsetBefore env k j + d ≤ RTSP_MAX_RESP_SIZE := by
  intro d
  induction d with
  | zero =>
    intro j hj
    have : j = m + 1 := by omega
    subst this
    rw [h.2]; simp
  | succ n ih =>
    intro j hj
    have h1 := ih (j + 1) (by omega)
    have h2 := h.1 j (by omega)
    simp only [offsetBefore] at h1
    push_cast
    omega

theorem offsetBefore_ge (env : Env) (k m : Nat) (h : FillsBuffer env k m) :
    ∀ j, j ≤ m + 1 → (j : Int) ≤ offsetBefore env k j := by
  intro j
  induction j with
  | zero => intro _; simp [offsetBefore]
  | succ n ih =>
    intro hn
    have h1 := ih (by omega)
    have h2 := h.1 n (by omega)
    simp only [offsetBefore]
    push_cast
    omega

theorem recvLoop_tooLong (env : Env) (k m : Nat) (h : FillsBuffer env k m) :
    ∀ (fuel j : Nat) (buf : List Byte) (st : State), j ≤ m → m + 1 ≤ fuel + j →
      ∃ st', recvLoop env k fuel j (offsetBefore env k j) buf st = some (LoopExit.tooLong, st') := by
  intro fuel
  induction fuel with
  | zero => intro j buf st h1 h2; omega
  | succ n ih =>
    intro j buf st h1 h2
    have hpos := h.1 j h1
    have hle := offsetBefore_lt env k m h (m - j) (j + 1) (by omega)
    have hle0 := offsetBefore_lt env k m h (m + 1 - j) j (by omega)
    simp only [offsetBefore] at hle
    unfold recvLoop
    simp only
    rw [if_neg (by omega), if_neg (by omega)]
    by_cases hj : j = m
    · subst hj
      have := h.2
      simp only [offsetBefore] at this
      rw [if_pos this]
      exact ⟨_, rfl⟩
    · have hlt : j < m := by omega
      have hle' := offsetBefore_lt env k m h (m - j) (j + 1) (by omega)
      simp only [offsetBefore] at hle'
      have hne : offsetBefore env k j +
          (env.recv k j (RTSP_MAX_RESP_SIZE - offsetBefore env k j)).ret ≠ RTSP_MAX_RESP_SIZE := by
        have hmj : (1 : Int) ≤ ((m - j : Nat) : Int) := by omega
        omega
      rw [if_neg hne]
      exact ih (j + 1) _ _ (by omega) (by omega)

theorem recvLoop_tooLong_of_eq (env : Env) (k m : Nat) (h : FillsBuffer env k m)
    (fuel : Nat) (buf : List Byte) (st : State) (hm : m + 1 ≤ fuel)
    {r : Option (LoopExit × State)} (hr : recvLoop env k fuel 0 0 buf st = r) :
    ∃ st', r = some (LoopExit.tooLong, st') := by
  subst hr
  exact recvLoop_tooLong env k m h fuel 0 buf st (Nat.zero_le _) (by omega)

/-- C5: when the received bytes reach `RTSP_MAX_RESP_SIZE` without the peer
having closed the connection, `transactRtspMessage` returns `0`, leaves
`*response` alone and never calls `parseRtspMessage`. -/
theorem transactRtspMessage_message_too_long (env : Env) (st : State)
    (req resp : RTSP_MESSAGE) (m : Nat) (h : FillsBuffer env st.transactions m) :
    ∃ st', transactRtspMessage env st req resp = some (0, resp, st') ∧
      parsed (added st st') = [] := by
  have hm : m + 1 ≤ RTSP_MAX_RESP_SIZE.toNat + 1 := by
    have h1 := offsetBefore_ge env st.transactions m h (m + 1) (le_refl _)
    rw [h.2] at h1
    simp only [RTSP_MAX_RESP_SIZE] at h1 ⊢
    omega
  unfold transactRtspMessage
  simp only
  split
  · refine ⟨_, rfl, ?_⟩
    simp [added, State.log, parsed]
  · split
    · refine ⟨_, rfl, ?_⟩
      simp [added, State.log, closesocket, parsed]
    · rename_i bytes hser
      split
      · refine ⟨_, rfl, ?_⟩
        simp [added, State.log, closesocket, transactExit, parsed]
      · split
        · rename_i hloop
          obtain ⟨s, hs⟩ := recvLoop_tooLong_of_eq env _ m h _ _ _ hm hloop
          exact absurd hs (by simp)
        · rename_i st5 hloop
          obtain ⟨⟨evs, he, hall⟩, -⟩ := recvLoop_trace _ _ _ _ _ _ _ _ _ hloop
          refine ⟨_, rfl, ?_⟩
          simp only [State.log] at he
          simp [added, State.log, closesocket, transactExit, he]
          simp [parsed]
          intro a ha
          obtain ⟨s, o, c, rfl⟩ := hall a ha
          rfl
        · rename_i b o st5 hloop
          obtain ⟨s, hs⟩ := recvLoop_tooLong_of_eq env _ m h _ _ _ hm hloop
          exact absurd hs (by simp)

theorem floodingServer_fills : FillsBuffer floodingServer 0 0 := by
  constructor
  · intro j hj
    have : j = 0 := by omega
    subst this
    simp only [floodingServer, RecvResult.ret, offsetBefore, RTSP_MAX_RESP_SIZE,
      List.length_replicate]
    decide
  · simp only [floodingServer, RecvResult.ret, offsetBefore, RTSP_MAX_RESP_SIZE,
      List.length_replicate]
    decide

theorem transactRtspMessage_message_too_long_witness :
    FillsBuffer floodingServer (State.initial "rtsp://host").transactions 0 ∧
      ∃ st', transactRtspMessage floodingServer (State.initial "rtsp://host") optionsRequest
          unsetResponse = some (0, unsetResponse, st') ∧
        parsed (added (State.initial "rtsp://host") st') = [] :=
  ⟨floodingServer_fills,
    transactRtspMessage_message_too_long floodingServer (State.initial "rtsp://host")
      optionsRequest unsetResponse 0 floodingServer_fills⟩

/-- C9 (amended): when `send` reports `SOCKET_ERROR`, `transactRtspMessage`
returns `0`, leaves `*response` alone, and neither receives nor parses. -/
theorem transactRtspMessage_send_error (env : Env) (st : State) (req resp : RTSP_MESSAGE)
    (hsend : ∀ bytes, env.serializeRtspMessage st.transactions req = some bytes →
      env.send st.transactions bytes = SOCKET_ERROR) :
    ∃ st', transactRtspMessage env st req resp = some (0, resp, st') ∧
      receives (added st st') = [] ∧ parsed (added st st') = [] := by
  unfold transactRtspMessage
  simp only
  split
  · refine ⟨_, rfl, ?_, ?_⟩ <;> simp [added, State.log, parsed, receives]
  · split
    · refine ⟨_, rfl, ?_, ?_⟩ <;> simp [added, State.log, closesocket, parsed, receives]
    · rename_i bytes hser
      rw [if_pos (hsend bytes hser)]
      refine ⟨_, rfl, ?_, ?_⟩ <;>
        simp [added, State.log, closesocket, transactExit, parsed, receives]

theorem transactRtspMessage_send_error_witness :
    (∀ bytes, sendFails.serializeRtspMessage (State.initial "rtsp://host").transactions
        optionsRequest = some bytes →
      sendFails.send (State.initial "rtsp://host").transactions bytes = SOCKET_ERROR) ∧
      ∃ st', transactRtspMessage sendFails (State.initial "rtsp://host") optionsRequest
          unsetResponse = some (0, unsetResponse, st') ∧
        receives (added (State.initial "rtsp://host") st') = [] ∧
        parsed (added (State.initial "rtsp://host") st') = [] :=
  ⟨fun _ _ => rfl,
    transactRtspMessage_send_error sendFails (State.initial "rtsp://host") optionsRequest
      unsetResponse (fun _ _ => rfl)⟩

set_option maxRecDepth 100000 in
/-- C9 (as stated) fails: a `send` that transmits one byte of a four-byte
request is followed by the receive loop and the parser, and the transaction
returns `1` with a response. -/
theorem short_send_succeeds :
    shortSend.serializeRtspMessage 0 optionsRequest = some [79, 80, 84, 73] ∧
      shortSend.send 0 [79, 80, 84, 73] = 1 ∧
      (transactRtspMessage shortSend (State.initial "rtsp://host") optionsRequest
          unsetResponse).map (fun r => (r.1, r.2.1, (parsed r.2.2.trace).length)) =
        some (1, sessionResponse, 1) := by
  refine ⟨rfl, rfl, ?_⟩
  rfl

set_option maxRecDepth 100000 in
/-- C6: after a peer sent four bytes and closed, `parseRtspMessage` is called
once, with the whole `responseBuffer`: the four bytes followed by the 1020
bytes the array held before, with no terminator or length in between. -/
theorem parser_given_whole_buffer :
    (transactRtspMessage serverOk (State.initial "rtsp://host") optionsRequest
        unsetResponse).map (fun r => (receives r.2.2.trace, parsed r.2.2.trace)) =
      some ([(0, 1024), (4, 1020)], [[82, 84, 83, 80] ++ List.replicate 1020 65]) := by
  rfl

set_option maxRecDepth 100000 in
/-- C7: when the serializer fails, `transactRtspMessage` closes handle `3` and
returns with `sock` still `3`, so that `terminateRtspHandshake` closes the same
handle again. -/
theorem serialization_failure_keeps_sock :
    (transactRtspMessage serializerFails (State.initial "rtsp://host") optionsRequest
        unsetResponse).map
        (fun r => (r.1, r.2.2.sock, closed r.2.2.trace,
          closed (terminateRtspHandshake r.2.2).trace)) =
      some (0, 3, [3], [3, 3]) ∧ (3 : Int) ≠ INVALID_SOCKET := by
  constructor
  · rfl
  · decide

set_option maxRecDepth 100000 in
/-- C8 (as stated) fails: the second `recv` returns a negative value, the
buffer is parsed all the same, and the transaction returns `1`. -/
theorem receive_error_succeeds :
    (receiveFails.recv 0 1 1020).ret < 0 ∧
      (transactRtspMessage receiveFails (State.initial "rtsp://host") optionsRequest
          unsetResponse).map (fun r => (r.1, r.2.1, (parsed r.2.2.trace).length)) =
        some (1, sessionResponse, 1) := by
  constructor
  · decide
  · rfl

theorem recvLoop_errorAsClose (env : Env) (k : Nat) :
    ∀ (fuel j : Nat) (offset : Int) (buf : List Byte) (st : State),
      offset ≤ RTSP_MAX_RESP_SIZE →
      recvLoop (errorAsClose env) k fuel j offset buf st = recvLoop env k fuel j offset buf st := by
  intro fuel
  induction fuel with
  | zero => intro j offset buf st _; rfl
  | succ n ih =>
    intro j offset buf st hoff
    unfold recvLoop
    simp only [errorAsClose]
    rcases hr : env.recv k j (RTSP_MAX_RESP_SIZE - offset) with bs | _
    · simp only [RecvResult.ret, RecvResult.stored]
      split_ifs with h1 h2 h3
      · rfl
      · rfl
      · rfl
      · exact ih _ _ _ _ (by omega)
    · have h0 : ¬ ((0 : Int) > RTSP_MAX_RESP_SIZE - offset) := by omega
      have h1 : ¬ ((-1 : Int) > RTSP_MAX_RESP_SIZE - offset) := by omega
      simp [RecvResult.ret, SOCKET_ERROR, h0, h1]

/-- A `recv` that fails is treated as a `recv` that finds the connection
closed: the transaction is the same, trace included. -/
theorem transactRtspMessage_errorAsClose_eq (env : Env) (st : State) (req resp : RTSP_MESSAGE) :
    transactRtspMessage env st req resp = transactRtspMessage (errorAsClose env) st req resp := by
  have key := fun st' => recvLoop_errorAsClose env st.transactions (RTSP_MAX_RESP_SIZE.toNat + 1)
    0 0 (responseBufferOnEntry env st.transactions) st' (by decide)
  have hc : (errorAsClose env).connectTcpSocket = env.connectTcpSocket := rfl
  have hs : (errorAsClose env).serializeRtspMessage = env.serializeRtspMessage := rfl
  have hd : (errorAsClose env).send = env.send := rfl
  have hp : (errorAsClose env).parseRtspMessage = env.parseRtspMessage := rfl
  have hb : responseBufferOnEntry (errorAsClose env) = responseBufferOnEntry env := rfl
  unfold transactRtspMessage
  simp only [hc, hs, hd, hp, hb, key]

theorem digitChar_isDigit (d : Nat) (hd : d < 10) :
    (Nat.digitChar d).isDigit = true ∧ (Nat.digitChar d).toNat - '0'.toNat = d := by
  interval_cases d <;> exact ⟨rfl, rfl⟩

theorem parseDigitsFrom_append (acc : Nat) (l : List Char) (c : Char) :
    parseDigitsFrom acc (l ++ [c]) =
      (parseDigitsFrom acc l).bind
        (fun a => if c.isDigit then some (a * 10 + (c.toNat - '0'.toNat)) else none) := by
  induction l generalizing acc with
  | nil => simp [parseDigitsFrom]
  | cons x xs ih =>
    simp only [List.cons_append, parseDigitsFrom]
    by_cases hx : x.isDigit = true
    · rw [if_pos hx, if_pos hx]; exact ih _
    · rw [if_neg hx, if_neg hx]; rfl

theorem parseDigitsFrom_digits (ds : List Nat) (hds : ∀ d ∈ ds, d < 10) :
    parseDigitsFrom 0 (ds.reverse.map Nat.digitChar) = some (Nat.ofDigits 10 ds) := by
  induction ds with
  | nil => rfl
  | cons d tl ih =>
    have hd := digitChar_isDigit d (hds d (List.mem_cons_self _ _))
    rw [List.reverse_cons, List.map_append, List.map_singleton, parseDigitsFrom_append,
      ih (fun x hx => hds x (List.mem_cons_of_mem _ hx))]
    simp only [Option.some_bind, hd.1, if_true, hd.2, Nat.ofDigits_cons]
    congr 1
    omega

theorem parseDigitsFrom_decimalDigits (n : Nat) :
    parseDigitsFrom 0 (decimalDigits n) = some n := by
  unfold decimalDigits
  split_ifs with h
  · subst h; rfl
  · rw [parseDigitsFrom_digits _ (fun d hd => Nat.digits_lt_base (by decide) hd),
      Nat.ofDigits_digits]

theorem decimalDigits_length (n : Nat) (hn : n ≤ 2147483648) : (decimalDigits n).length ≤ 10 := by
  unfold decimalDigits
  split_ifs with h
  · simp
  · rw [List.length_map, List.length_reverse]
    have h1 := Nat.base_pow_length_digits_le 10 n (by decide) h
    by_contra hlen
    have h2 : 10 ^ 11 ≤ 10 ^ (Nat.digits 10 n).length :=
      Nat.pow_le_pow_right (by decide) (by omega)
    have : (10 : Nat) ^ 11 = 100000000000 := by norm_num
    omega

theorem decimalDigits_head (n : Nat) :
    ∃ c cs, decimalDigits n = c :: cs ∧ c ≠ '-' := by
  unfold decimalDigits
  split_ifs with h
  · exact ⟨'0', [], rfl, by decide⟩
  · have hne : Nat.digits 10 n ≠ [] := Nat.digits_ne_nil_iff_ne_zero.2 h
    rcases hrev : (Nat.digits 10 n).reverse with _ | ⟨d, tl⟩
    · exact absurd (List.reverse_eq_nil_iff.1 hrev) hne
    · refine ⟨Nat.digitChar d, tl.map Nat.digitChar, rfl, ?_⟩
      have hd : d < 10 := by
        apply @Nat.digits_lt_base 10 n d (by decide)
        rw [← List.mem_reverse, hrev]
        exact List.mem_cons_self _ _
      interval_cases d <;> decide

/-- The text `"%d"` produces reads back as the number, and with its terminator
it has at most 12 characters. -/
theorem sprintf_d_spec (v : Int) (h1 : -2147483648 ≤ v) (h2 : v ≤ 2147483647) :
    parseDecimal (sprintf_d v) = some v ∧ (sprintf_d v).length + 1 ≤ 12 := by
  have hlen := decimalDigits_length v.natAbs (by omega)
  obtain ⟨c, cs, hcs, hc⟩ := decimalDigits_head v.natAbs
  have hp := parseDigitsFrom_decimalDigits v.natAbs
  by_cases hv : v < 0
  · constructor
    · have hne : decimalDigits v.natAbs ≠ [] := by rw [hcs]; simp
      simp only [sprintf_d, parseDecimal, hv, if_true, hne, if_false, hp, Option.map_some',
        Option.some.injEq, Int.ofNat_eq_coe]
      omega
    · simp only [sprintf_d, hv, if_true, String.length_mk, List.length_cons]
      omega
  · constructor
    · rw [hcs] at hp
      simp only [sprintf_d, parseDecimal, hv, if_false, hcs, hc, hp, Option.map_some',
        Option.some.injEq, Int.ofNat_eq_coe]
      omega
    · simp only [sprintf_d, hv, if_false, String.length_mk]
      omega

theorem addOption_of_mallocOk (env : Env) (hm : ∀ n, env.mallocOk n = true) (st : State)
    (msg : RTSP_MESSAGE) (o c : String) :
    (addOption env st msg o c).1 = 1 ∧
      (addOption env st msg o c).2.1 =
        { msg with
          options := msg.options ++
            [{ flags := FLAG_ALLOCATED_OPTION_FIELDS, option := o, content := c }],
          flags := msg.flags ||| FLAG_ALLOCATED_OPTION_ITEMS } := by
  simp [addOption, createOptionItem, malloc, hm, insertOption]

theorem initializeRtspRequest_of_mallocOk (env : Env) (hm : ∀ n, env.mallocOk n = true)
    (st : State) (cmd tgt : String) :
    (initializeRtspRequest env st cmd tgt).1 = 1 ∧
      (initializeRtspRequest env st cmd tgt).2.1 =
        { createRtspRequest cmd tgt "RTSP/1.0" st.currentSeqNumber with
          options := [{ flags := FLAG_ALLOCATED_OPTION_FIELDS, option := "X-GS-ClientVersion",
                        content := RTSP_CLIENT_VERSION_S }],
          flags := 0 ||| FLAG_ALLOCATED_OPTION_ITEMS } := by
  unfold initializeRtspRequest
  simp only
  rw [if_neg (by rw [(addOption_of_mallocOk env hm _ _ _ _).1]; decide)]
  exact ⟨rfl, (addOption_of_mallocOk env hm _ _ _ _).2⟩

theorem step_transact_requests (env : Env) {cmd tgt : String} {st st1 : State}
    {req : RTSP_MESSAGE} (resp : RTSP_MESSAGE) (h : Built cmd tgt st st1 req) {ret : Int}
    {resp' : RTSP_MESSAGE} {st' : State}
    (ht : (match transactRtspMessage env st1 req resp with
      | none => none
      | some (ret1, response1, st2) => some (ret1, response1, freeMessage st2 req)) =
        some (ret, resp', st')) :
    requests (added st st') = [req] := by
  obtain ⟨hf, hs, hr, hg⟩ := h
  rcases htx : transactRtspMessage env st1 req resp with _ | ⟨r, rp, st2⟩
  · rw [htx] at ht; exact absurd ht (by simp)
  · rw [htx] at ht
    simp only [Option.some.injEq, Prod.mk.injEq] at ht
    obtain ⟨rfl, rfl, rfl⟩ := ht
    obtain ⟨-, -, -, -, hg2⟩ := transactRtspMessage_spec env st1 req resp htx
    have : high (added st (freeMessage st2 req)) = _ :=
      ((hg.growsThen hg2).growsThen (grows_log st2 (Event.freeMessage req))).high_added
    rw [← requests_high, this]
    rfl

/-- C10: for every `int` length `L` that the SDP generator reports,
`sendVideoAnnounce` (when its allocations succeed) hands over one `ANNOUNCE`
request that carries the body and exactly one `Content-length` option, whose
value reads back as `L` and fits, with its terminator, the 16 characters of
`payloadLengthStr`. -/
theorem sendVideoAnnounce_content_length (env : Env) (st : State) (resp : RTSP_MESSAGE)
    (cfg : Nat) (payload : List Byte) (L : Int) (hlo : -2147483648 ≤ L) (hhi : L ≤ 2147483647)
    (hsdp : env.getSdpPayloadForStreamConfig cfg st.remoteAddr = some (payload, L))
    (hm : ∀ n, env.mallocOk n = true) (hrecv : RecvWithinCapacity env) :
    ∃ ret resp' st' req v, sendVideoAnnounce env st resp cfg = some (ret, resp', st') ∧
      requests (added st st') = [req] ∧ req.command = "ANNOUNCE" ∧
      req.payload = some payload ∧ optionValues req "Content-length" = [v] ∧
      parseDecimal v = some L ∧ v.length + 1 ≤ 16 := by
  obtain ⟨⟨ret, resp', st'⟩, hr⟩ := sendVideoAnnounce_total env hrecv st resp cfg
  obtain ⟨hparse, hlen⟩ := sprintf_d_spec L hlo hhi
  have hr0 := hr
  unfold sendVideoAnnounce at hr
  have hi1 := initializeRtspRequest_of_mallocOk env hm st "ANNOUNCE" "streamid=video"
  rcases hi : initializeRtspRequest env st "ANNOUNCE" "streamid=video" with ⟨r, req, st1⟩
  rw [hi] at hr hi1
  obtain ⟨hr1, hreq⟩ := hi1
  simp only at hr hr1 hreq
  have hb := built_init env st _ _ hi (by rw [hr1]; decide)
  have h1 := addOption_of_mallocOk env hm st1 req "Session" st1.sessionIdString
  have hb1 := built_addOption env "Session" st1.sessionIdString hb
  rcases ha1 : addOption env st1 req "Session" st1.sessionIdString with ⟨r1, req1, st2⟩
  rw [ha1] at hr h1 hb1
  obtain ⟨hr1', hreq1⟩ := h1
  simp only at hr hr1' hreq1 hb1
  have h2 := addOption_of_mallocOk env hm st2 req1 "Content-type" "application/sdp"
  have hb2 := built_addOption env "Content-type" "application/sdp" hb1
  rcases ha2 : addOption env st2 req1 "Content-type" "application/sdp" with ⟨r2, req2, st3⟩
  rw [ha2] at hr h2 hb2
  obtain ⟨hr2', hreq2⟩ := h2
  simp only at hr hr2' hreq2 hb2
  have haddr : st3.remoteAddr = st.remoteAddr := hb2.1.2.2
  rw [if_pos (by rw [hr1]; decide), if_neg (by rw [hr1']; decide),
    if_neg (by rw [hr2']; decide), haddr, hsdp] at hr
  simp only at hr
  have hb3 := built_payload (some payload) (req2.flags ||| FLAG_ALLOCATED_PAYLOAD)
    (built_log (Event.getSdpPayloadForStreamConfig st.remoteAddr) rfl hb2)
  have h3 := addOption_of_mallocOk env hm
    (st3.log (Event.getSdpPayloadForStreamConfig st.remoteAddr))
    { req2 with payload := some payload, flags := req2.flags ||| FLAG_ALLOCATED_PAYLOAD }
    "Content-length" (sprintf_d L)
  have hb4 := built_addOption env "Content-length" (sprintf_d L) hb3
  rcases ha3 : addOption env (st3.log (Event.getSdpPayloadForStreamConfig st.remoteAddr))
    { req2 with payload := some payload, flags := req2.flags ||| FLAG_ALLOCATED_PAYLOAD }
    "Content-length" (sprintf_d L) with ⟨r3, req4, st5⟩
  rw [ha3] at hr h3 hb4
  obtain ⟨hr3', hreq4⟩ := h3
  simp only at hr hr3' hreq4 hb4
  rw [if_neg (by rw [hr3']; decide)] at hr
  have hreqs := step_transact_requests env resp hb4 hr
  refine ⟨ret, resp', st', req4, sprintf_d L, hr0, hreqs, hb4.2.2.1.1, ?_, ?_, hparse, by omega⟩
  · rw [hreq4]
  · rw [hreq4, hreq2, hreq1, hreq]
    simp [optionValues, createRtspRequest]

theorem floodingServer_recv : RecvWithinCapacity floodingServer := by
  intro k j capacity hc
  simp only [floodingServer, RecvResult.ret, List.length_replicate]
  omega

theorem performRtspHandshake_requests_in_order_witness :
    RecvWithinCapacity floodingServer ∧
      ∃ ret st', performRtspHandshake floodingServer (State.initial "rtsp://host") 0 0 =
          some (ret, st') ∧
        (requests (added (State.initial "rtsp://host") st')).map
            (fun m => (m.command, m.target)) <+:
          handshakeSteps (State.initial "rtsp://host").rtspTargetUrl ∧
        (outcomes (added (State.initial "rtsp://host") st')).length =
          (requests (added (State.initial "rtsp://host") st')).length ∧
        ∀ o ∈ (outcomes (added (State.initial "rtsp://host") st')).dropLast,
          o.1 = 1 ∧ o.2.statusCode = 200 :=
  ⟨floodingServer_recv,
    performRtspHandshake_requests_in_order floodingServer (State.initial "rtsp://host") 0 0
      floodingServer_recv⟩

theorem sendVideoAnnounce_content_length_witness :
    (-2147483648 : Int) ≤ 3 ∧ (3 : Int) ≤ 2147483647 ∧
      serverOk.getSdpPayloadForStreamConfig 0 (State.initial "rtsp://host").remoteAddr =
        some ([118, 61, 48], 3) ∧
      (∀ n, serverOk.mallocOk n = true) ∧ RecvWithinCapacity serverOk ∧
      ∃ ret resp' st' req v,
        sendVideoAnnounce serverOk (State.initial "rtsp://host") unsetResponse 0 =
          some (ret, resp', st') ∧
        requests (added (State.initial "rtsp://host") st') = [req] ∧
        req.command = "ANNOUNCE" ∧ req.payload = some [118, 61, 48] ∧
        optionValues req "Content-length" = [v] ∧ parseDecimal v = some 3 ∧
        v.length + 1 ≤ 16 :=
  ⟨by decide, by decide, rfl, fun _ => rfl, serverOk_recv,
    sendVideoAnnounce_content_length serverOk (State.initial "rtsp://host") unsetResponse 0
      [118, 61, 48] 3 (by decide) (by decide) rfl (fun _ => rfl) serverOk_recv⟩

/-- C19: `terminateRtspHandshake` closes the connection exactly when `sock` is
not `INVALID_SOCKET`, leaves `sock` equal to `INVALID_SOCKET`, and a second
call right after it closes nothing and changes nothing. -/
theorem terminateRtspHandshake_idempotent (st : State) :
    closed (added st (terminateRtspHandshake st)) =
        (if st.sock ≠ INVALID_SOCKET then [st.sock] else []) ∧
      (terminateRtspHandshake st).sock = INVALID_SOCKET ∧
      terminateRtspHandshake (terminateRtspHandshake st) = terminateRtspHandshake st ∧
      closed (added (terminateRtspHandshake st)
        (terminateRtspHandshake (terminateRtspHandshake st))) = [] := by
  by_cases h : st.sock = INVALID_SOCKET
  · simp [terminateRtspHandshake, h, added, closed]
  · simp [terminateRtspHandshake, h, added, closed, closesocket, State.log]

/-- C15: when one of the three allocations of `createOptionItem` fails,
`addOption` returns `0`, the message (option list and flags included) is as
before, and the allocations that had succeeded have all been released, last
one first. -/
theorem addOption_allocation_failure (env : Env) (st : State) (msg : RTSP_MESSAGE)
    (o c : String)
    (h : ¬ (env.mallocOk st.mallocs = true ∧ env.mallocOk (st.mallocs + 1) = true ∧
      env.mallocOk (st.mallocs + 2) = true)) :
    (addOption env st msg o c).1 = 0 ∧ (addOption env st msg o c).2.1 = msg ∧
      released (added st (addOption env st msg o c).2.2) =
        (allocated (added st (addOption env st msg o c).2.2)).reverse := by
  by_cases h1 : env.mallocOk st.mallocs = true <;>
  by_cases h2 : env.mallocOk (st.mallocs + 1) = true <;>
  by_cases h3 : env.mallocOk (st.mallocs + 1 + 1) = true <;>
  simp_all [addOption, createOptionItem, malloc, free, State.log, added, released, allocated]

theorem addOption_allocation_failure_witness :
    ¬ (allocatorFailsThird.mallocOk (State.initial "rtsp://host").mallocs = true ∧
        allocatorFailsThird.mallocOk ((State.initial "rtsp://host").mallocs + 1) = true ∧
        allocatorFailsThird.mallocOk ((State.initial "rtsp://host").mallocs + 2) = true) ∧
      ((addOption allocatorFailsThird (State.initial "rtsp://host") optionsRequest "Accept"
          "application/sdp").1 = 0 ∧
        (addOption allocatorFailsThird (State.initial "rtsp://host") optionsRequest "Accept"
          "application/sdp").2.1 = optionsRequest ∧
        released (added (State.initial "rtsp://host")
            (addOption allocatorFailsThird (State.initial "rtsp://host") optionsRequest "Accept"
              "application/sdp").2.2) =
          (allocated (added (State.initial "rtsp://host")
            (addOption allocatorFailsThird (State.initial "rtsp://host") optionsRequest "Accept"
              "application/sdp").2.2)).reverse) :=
  ⟨by decide,
    addOption_allocation_failure allocatorFailsThird (State.initial "rtsp://host")
      optionsRequest "Accept" "application/sdp" (by decide)⟩

/-- The `recv` calls of the loop from its `j`-th iteration on: there are `n ≥ 1`
of them, the `i`-th is made at offset `offsetBefore (j + i)` with the rest of
the buffer as capacity, every offset is inside the buffer and at least `i`
beyond the first, and every call but the last returned data. -/
theorem recvLoop_calls (env : Env) (k : Nat) :
    ∀ (fuel j : Nat) (buf : List Byte) (st : State) (ex : LoopExit) (st' : State),
      0 ≤ offsetBefore env k j → offsetBefore env k j < RTSP_MAX_RESP_SIZE →
      recvLoop env k fuel j (offsetBefore env k j) buf st = some (ex, st') →
      ∃ n, 1 ≤ n ∧
        st'.trace = st.trace ++ (List.range n).map (fun i =>
          Event.recv st.sock (offsetBefore env k (j + i))
            (RTSP_MAX_RESP_SIZE - offsetBefore env k (j + i))) ∧
        (∀ i, i < n → offsetBefore env k j + i ≤ offsetBefore env k (j + i) ∧
          offsetBefore env k (j + i) < RTSP_MAX_RESP_SIZE) ∧
        (∀ i, i + 1 < n →
          0 < (env.recv k (j + i) (RTSP_MAX_RESP_SIZE - offsetBefore env k (j + i))).ret) := by
  intro fuel
  induction fuel with
  | zero => intro j buf st ex st' _ _ h; simp [recvLoop] at h
  | succ f ih =>
    intro j buf st ex st' h0 h1 h
    unfold recvLoop at h
    simp only at h
    have hone : ∃ n, 1 ≤ n ∧
        (st.log (Event.recv st.sock (offsetBefore env k j)
          (RTSP_MAX_RESP_SIZE - offsetBefore env k j))).trace =
          st.trace ++ (List.range n).map (fun i =>
            Event.recv st.sock (offsetBefore env k (j + i))
              (RTSP_MAX_RESP_SIZE - offsetBefore env k (j + i))) ∧
        (∀ i, i < n → offsetBefore env k j + i ≤ offsetBefore env k (j + i) ∧
          offsetBefore env k (j + i) < RTSP_MAX_RESP_SIZE) ∧
        (∀ i, i + 1 < n →
          0 < (env.recv k (j + i) (RTSP_MAX_RESP_SIZE - offsetBefore env k (j + i))).ret) := by
      refine ⟨1, le_refl _, ?_, ?_, ?_⟩
      · simp [State.log, List.range_succ]
      · intro i hi
        have : i = 0 := by omega
        subst this
        simpa using h1
      · intro i hi; omega
    split_ifs at h with h2 h3 h4
    · simp only [Option.some.injEq, Prod.mk.injEq] at h
      obtain ⟨-, rfl⟩ := h
      exact hone
    · simp only [Option.some.injEq, Prod.mk.injEq] at h
      obtain ⟨-, rfl⟩ := h
      exact hone
    · have hnext : offsetBefore env k (j + 1) = offsetBefore env k j +
          (env.recv k j (RTSP_MAX_RESP_SIZE - offsetBefore env k j)).ret := rfl
      rw [← hnext] at h h4
      have hlt : offsetBefore env k (j + 1) < RTSP_MAX_RESP_SIZE := by
        rw [hnext] at h4 ⊢
        omega
      have hpos : 0 < (env.recv k j (RTSP_MAX_RESP_SIZE - offsetBefore env k j)).ret := by
        omega
      obtain ⟨n, hn, htr, hoff, hdata⟩ := ih (j + 1) _ _ _ _ (by rw [hnext]; omega) hlt h
      refine ⟨n + 1, by omega, ?_, ?_, ?_⟩
      · rw [htr, List.range_succ_eq_map, List.map_cons, List.map_map]
        simp [State.log, Function.comp_def, Nat.add_assoc, Nat.add_comm 1]
      · intro i hi
        rcases i with _ | i
        · simpa using h1
        · obtain ⟨ha, hb⟩ := hoff i (by omega)
          rw [show j + (i + 1) = j + 1 + i by omega]
          refine ⟨?_, hb⟩
          rw [hnext] at ha
          push_cast
          omega
      · intro i hi
        rcases i with _ | i
        · simpa using hpos
        · rw [show j + (i + 1) = j + 1 + i by omega]
          exact hdata i (by omega)

theorem added_of_trace {st st' : State} {evs : List Event} (h : st'.trace = st.trace ++ evs) :
    added st st' = evs := by
  simp [added, h]

theorem receives_map_recv (s : Int) (f g : Nat → Int) (n : Nat) :
    receives ((List.range n).map (fun i => Event.recv s (f i) (g i))) =
      (List.range n).map (fun i => (f i, g i)) := by
  induction n with
  | zero => rfl
  | succ m ih =>
    rw [List.range_succ, List.map_append, List.map_append, ← ih]
    simp [receives]

theorem receives_append (a b : List Event) : receives (a ++ b) = receives a ++ receives b := by
  simp [receives]

theorem receiveCalls_nil (env : Env) (k : Nat) : ReceiveCalls env k [] :=
  ⟨0, by decide, rfl, fun i hi => absurd hi (by omega), fun i hi => absurd hi (by omega)⟩

theorem receiveCalls_of_loop (env : Env) (st : State) {ex : LoopExit} {s4 s5 : State}
    {pre post : List Event}
    (hl : recvLoop env st.transactions (RTSP_MAX_RESP_SIZE.toNat + 1) 0 0
      (responseBufferOnEntry env st.transactions) s4 = some (ex, s5))
    {s : State} (h4 : s4.trace = st.trace ++ pre) (hs : s.trace = s5.trace ++ post)
    (hpre : receives pre = []) (hpost : receives post = []) :
    ReceiveCalls env st.transactions (receives (added st s)) := by
  obtain ⟨n, hn, htr, hoff, hdata⟩ := recvLoop_calls env st.transactions _ 0 _ s4 ex s5
    (le_refl _) (show (0 : Int) < 1024 by decide) hl
  refine ⟨n, ?_, ?_, ?_, ?_⟩
  · have := hoff (n - 1) (by omega)
    simp only [offsetBefore, Nat.zero_add] at this
    omega
  · have ht : s.trace = st.trace ++ (pre ++ (List.range n).map (fun i =>
        Event.recv s4.sock (offsetBefore env st.transactions (0 + i))
          (RTSP_MAX_RESP_SIZE - offsetBefore env st.transactions (0 + i))) ++ post) := by
      rw [hs, htr, h4]; simp
    rw [added_of_trace ht, receives_append, receives_append, hpre, hpost, receives_map_recv]
    simp
  · intro i hi
    have := hoff i hi
    simp only [offsetBefore, Nat.zero_add] at this
    exact ⟨by omega, this.2⟩
  · intro i hi
    simpa using hdata i hi

theorem receiveCalls_of_trace (env : Env) {st s : State} {evs : List Event}
    (h1 : s.trace = st.trace ++ evs) (h2 : receives evs = []) :
    ReceiveCalls env st.transactions (receives (added st s)) := by
  rw [added_of_trace h1, h2]
  exact receiveCalls_nil _ _

/-- The `recv` calls of one transaction are those of one receive loop. -/
theorem transactRtspMessage_receives (env : Env) (st : State) (req resp : RTSP_MESSAGE)
    {ret : Int} {resp' : RTSP_MESSAGE} {st' : State}
    (h : transactRtspMessage env st req resp = some (ret, resp', st')) :
    ReceiveCalls env st.transactions (receives (added st st')) := by
  unfold transactRtspMessage at h
  simp only at h
  split at h
  · simp only [transactReturn, Option.some.injEq, Prod.mk.injEq] at h
    obtain ⟨-, -, rfl⟩ := h
    apply receiveCalls_of_trace
    · simp only [State.log, List.append_assoc]; rfl
    · rfl
  · split at h
    · simp only [transactReturn, Option.some.injEq, Prod.mk.injEq] at h
      obtain ⟨-, -, rfl⟩ := h
      apply receiveCalls_of_trace
      · simp only [State.log, closesocket, List.append_assoc]; rfl
      · rfl
    · split at h
      · simp only [transactReturn, Option.some.injEq, Prod.mk.injEq] at h
        obtain ⟨-, -, rfl⟩ := h
        apply receiveCalls_of_trace
        · simp only [State.log, closesocket, transactExit, List.append_assoc]; rfl
        · rfl
      · split at h
        · exact absurd h (by simp)
        · rename_i st5 hloop
          simp only [transactReturn, Option.some.injEq, Prod.mk.injEq] at h
          obtain ⟨-, -, rfl⟩ := h
          apply receiveCalls_of_loop env st hloop
          · simp only [State.log, List.append_assoc]; rfl
          · simp only [State.log, transactExit_trace, List.append_assoc]; rfl
          · rfl
          · rfl
        · rename_i buf off st5 hloop
          split at h <;>
          · simp only [transactReturn, Option.some.injEq, Prod.mk.injEq] at h
            obtain ⟨-, -, rfl⟩ := h
            apply receiveCalls_of_loop env st hloop
            · simp only [State.log, List.append_assoc]; rfl
            · simp only [State.log, transactExit_trace, List.append_assoc]; rfl
            · rfl
            · rfl

theorem receiveFails_recv : RecvWithinCapacity receiveFails := by
  intro k j capacity hc
  by_cases hj : j = 0
  · simp only [receiveFails, hj, if_true, RecvResult.ret, List.length_take]
    omega
  · simp only [receiveFails, hj, if_false, RecvResult.ret, SOCKET_ERROR]
    omega

/-- C16: with receives that respect their capacity, `transactRtspMessage`
returns, and every `recv` call it made was given an offset between `0` and
`1023` and the capacity `1024 - offset`, which lies between `1` and `1024`, so
that offset plus capacity does not pass the end of `responseBuffer`. -/
theorem transactRtspMessage_receive_window (env : Env) (st : State) (req resp : RTSP_MESSAGE)
    (hrecv : RecvWithinCapacity env) :
    ∃ ret resp' st', transactRtspMessage env st req resp = some (ret, resp', st') ∧
      ∀ p ∈ receives (added st st'),
        0 ≤ p.1 ∧ p.1 ≤ 1023 ∧ p.2 = RTSP_MAX_RESP_SIZE - p.1 ∧ 1 ≤ p.2 ∧ p.2 ≤ 1024 ∧
          p.1 + p.2 ≤ RTSP_MAX_RESP_SIZE := by
  obtain ⟨⟨ret, resp', st'⟩, h⟩ := transactRtspMessage_total env hrecv st req resp
  obtain ⟨n, -, hrs, hoff, -⟩ := transactRtspMessage_receives env st req resp h
  refine ⟨ret, resp', st', h, ?_⟩
  intro p hp
  rw [hrs, List.mem_map] at hp
  obtain ⟨i, hi, rfl⟩ := hp
  obtain ⟨h0, h1⟩ := hoff i (List.mem_range.1 hi)
  simp only [RTSP_MAX_RESP_SIZE] at h1 ⊢
  refine ⟨h0, by omega, trivial, by omega, by omega, by omega⟩

theorem transactRtspMessage_receive_window_witness :
    RecvWithinCapacity serverOk ∧
      ∃ ret resp' st', transactRtspMessage serverOk (State.initial "rtsp://host") optionsRequest
          unsetResponse = some (ret, resp', st') ∧
        ∀ p ∈ receives (added (State.initial "rtsp://host") st'),
          0 ≤ p.1 ∧ p.1 ≤ 1023 ∧ p.2 = RTSP_MAX_RESP_SIZE - p.1 ∧ 1 ≤ p.2 ∧ p.2 ≤ 1024 ∧
            p.1 + p.2 ≤ RTSP_MAX_RESP_SIZE :=
  ⟨serverOk_recv,
    transactRtspMessage_receive_window serverOk (State.initial "rtsp://host") optionsRequest
      unsetResponse serverOk_recv⟩

/-- C17: with receives that respect their capacity, the receive loop of
`transactRtspMessage` ends for every peer: the transaction returns after at
most `1024` calls of `recv`, and every call but the last one returned data and
advanced the offset by at least one (so at most one call returned no data). -/
theorem transactRtspMessage_receive_loop_ends (env : Env) (st : State) (req resp : RTSP_MESSAGE)
    (hrecv : RecvWithinCapacity env) :
    ∃ ret resp' st', transactRtspMessage env st req resp = some (ret, resp', st') ∧
      (receives (added st st')).length ≤ 1024 ∧
      ∀ i, i + 1 < (receives (added st st')).length →
        0 < (env.recv st.transactions i
          (RTSP_MAX_RESP_SIZE - offsetBefore env st.transactions i)).ret ∧
        offsetBefore env st.transactions i + 1 ≤ offsetBefore env st.transactions (i + 1) ∧
        (receives (added st st'))[i + 1]? =
          some (offsetBefore env st.transactions (i + 1),
            RTSP_MAX_RESP_SIZE - offsetBefore env st.transactions (i + 1)) := by
  obtain ⟨⟨ret, resp', st'⟩, h⟩ := transactRtspMessage_total env hrecv st req resp
  obtain ⟨n, hn, hrs, -, hdata⟩ := transactRtspMessage_receives env st req resp h
  have hlen : (receives (added st st')).length = n := by rw [hrs]; simp
  refine ⟨ret, resp', st', h, ?_, ?_⟩
  · rw [hlen]
    simp only [RTSP_MAX_RESP_SIZE] at hn
    omega
  · intro i hi
    rw [hlen] at hi
    have hd := hdata i hi
    refine ⟨hd, ?_, ?_⟩
    · simp only [offsetBefore]
      omega
    · rw [hrs]
      simp [hi]

theorem transactRtspMessage_receive_loop_ends_witness :
    RecvWithinCapacity receiveFails ∧
      ∃ ret resp' st', transactRtspMessage receiveFails (State.initial "rtsp://host")
          optionsRequest unsetResponse = some (ret, resp', st') ∧
        (receives (added (State.initial "rtsp://host") st')).length ≤ 1024 ∧
        ∀ i, i + 1 < (receives (added (State.initial "rtsp://host") st')).length →
          0 < (receiveFails.recv (State.initial "rtsp://host").transactions i
            (RTSP_MAX_RESP_SIZE -
              offsetBefore receiveFails (State.initial "rtsp://host").transactions i)).ret ∧
          offsetBefore receiveFails (State.initial "rtsp://host").transactions i + 1 ≤
            offsetBefore receiveFails (State.initial "rtsp://host").transactions (i + 1) ∧
          (receives (added (State.initial "rtsp://host") st'))[i + 1]? =
            some (offsetBefore receiveFails (State.initial "rtsp://host").transactions (i + 1),
              RTSP_MAX_RESP_SIZE -
                offsetBefore receiveFails (State.initial "rtsp://host").transactions (i + 1)) :=
  ⟨receiveFails_recv,
    transactRtspMessage_receive_loop_ends receiveFails (State.initial "rtsp://host")
      optionsRequest unsetResponse receiveFails_recv⟩

theorem addOption_optionPairs (env : Env) (st : State) (msg : RTSP_MESSAGE) (o c : String)
    (hne : (addOption env st msg o c).1 ≠ 0) :
    optionPairs (addOption env st msg o c).2.1 = optionPairs msg ++ [(o, c)] := by
  rcases (addOption_spec env st msg o c).2 with ⟨h0, -⟩ | ⟨-, h1⟩
  · exact absurd h0 hne
  · rw [h1]; simp [optionPairs]

theorem initializeRtspRequest_optionPairs (env : Env) (st : State) (cmd tgt : String)
    {ret : Int} {req : RTSP_MESSAGE} {st1 : State}
    (h : initializeRtspRequest env st cmd tgt = (ret, req, st1)) (hret : ret ≠ 0) :
    optionPairs req = [("X-GS-ClientVersion", "10")] := by
  unfold initializeRtspRequest at h
  simp only at h
  split_ifs at h with h0
  · simp only [Prod.mk.injEq] at h
    exact absurd h.1.symm hret
  · have := addOption_optionPairs _ _ _ _ _ h0
    simp only [Prod.mk.injEq] at h
    obtain ⟨-, rfl, -⟩ := h
    simpa [optionPairs, createRtspRequest, RTSP_CLIENT_VERSION_S] using this

theorem requests_of_grows {st st' : State} {hi : List Event} (h : Grows st st' hi) :
    requests (added st st') = requests hi := by
  rw [← requests_high, h.high_added]

theorem init_fail_requests (env : Env) (st : State) (cmd tgt : String) {ret : Int}
    {req : RTSP_MESSAGE} {st1 : State}
    (h : initializeRtspRequest env st cmd tgt = (ret, req, st1)) (hret : ¬ ret ≠ 0) :
    requests (added st st1) = [] := by
  obtain ⟨-, -, -, -, -, hc⟩ := initializeRtspRequest_spec env st cmd tgt h
  rcases hc with ⟨-, hg⟩ | ⟨h1, -⟩
  · rw [requests_of_grows hg]; rfl
  · exact absurd (by rw [h1]; decide) hret

theorem built_fail_requests {cmd tgt : String} {st st1 : State} {req : RTSP_MESSAGE}
    (h : Built cmd tgt st st1 req) : requests (added st (freeMessage st1 req)) = [] := by
  have hg : Grows st (freeMessage st1 req) _ :=
    h.2.2.2.growsThen (grows_log st1 (Event.freeMessage req))
  rw [requests_of_grows hg]
  rfl

/-- The requests a builder hands over all satisfy `P` when the request it has
built does. -/
theorem transact_requests_forall (env : Env) {cmd tgt : String} {st st1 : State}
    {req : RTSP_MESSAGE} (resp : RTSP_MESSAGE) (hb : Built cmd tgt st st1 req) {ret : Int}
    {resp' : RTSP_MESSAGE} {st' : State} (P : RTSP_MESSAGE → Prop) (hP : P req)
    (ht : (match transactRtspMessage env st1 req resp with
      | none => none
      | some (ret1, response1, st2) => some (ret1, response1, freeMessage st2 req)) =
        some (ret, resp', st')) :
    ∀ m ∈ requests (added st st'), P m := by
  rw [step_transact_requests env resp hb ht]
  intro m hm
  rw [List.mem_singleton.1 hm]
  exact hP

theorem requestOptions_options (env : Env) (st : State) (resp : RTSP_MESSAGE) {ret : Int}
    {resp' : RTSP_MESSAGE} {st' : State}
    (h : requestOptions env st resp = some (ret, resp', st')) :
    ∀ m ∈ requests (added st st'), optionPairs m = [("X-GS-ClientVersion", "10")] := by
  unfold requestOptions at h
  rcases hi : initializeRtspRequest env st "OPTIONS" st.rtspTargetUrl with ⟨r, req, st1⟩
  rw [hi] at h
  simp only at h
  split_ifs at h with h1
  · exact transact_requests_forall env resp (built_init env st _ _ hi h1) _
      (initializeRtspRequest_optionPairs env st _ _ hi h1) h
  · simp only [Option.some.injEq, Prod.mk.injEq] at h
    obtain ⟨rfl, rfl, rfl⟩ := h
    rw [init_fail_requests env st _ _ hi h1]
    simp

theorem playStream_options (env : Env) (st : State) (resp : RTSP_MESSAGE) (tgt : String)
    {ret : Int} {resp' : RTSP_MESSAGE} {st' : State}
    (h : playStream env st resp tgt = some (ret, resp', st')) :
    ∀ m ∈ requests (added st st'),
      optionPairs m = [("X-GS-ClientVersion", "10"), ("Session", st.sessionIdString)] := by
  unfold playStream at h
  rcases hi : initializeRtspRequest env st "PLAY" tgt with ⟨r, req, st1⟩
  rw [hi] at h
  simp only at h
  have hsid : ∀ hr : r ≠ 0, st1.sessionIdString = st.sessionIdString :=
    fun hr => (built_init env st _ _ hi hr).1.1
  split_ifs at h with h1 h2
  · refine transact_requests_forall env resp
      (built_addOption env _ _ (built_init env st _ _ hi h1)) _ ?_ h
    rw [addOption_optionPairs _ _ _ _ _ h2, initializeRtspRequest_optionPairs env st _ _ hi h1,
      hsid h1]
    rfl
  · simp only [Option.some.injEq, Prod.mk.injEq] at h
    obtain ⟨rfl, rfl, rfl⟩ := h
    rw [built_fail_requests (built_addOption env _ _ (built_init env st _ _ hi h1))]
    simp
  · simp only [Option.some.injEq, Prod.mk.injEq] at h
    obtain ⟨rfl, rfl, rfl⟩ := h
    rw [init_fail_requests env st _ _ hi h1]
    simp

theorem requestDescribe_options (env : Env) (st : State) (resp : RTSP_MESSAGE) {ret : Int}
    {resp' : RTSP_MESSAGE} {st' : State}
    (h : requestDescribe env st resp = some (ret, resp', st')) :
    ∀ m ∈ requests (added st st'),
      optionPairs m = [("X-GS-ClientVersion", "10"), ("Accept", "application/sdp"),
        ("If-Modified-Since", "Thu, 01 Jan 1970 00:00:00 GMT")] := by
  unfold requestDescribe at h
  rcases hi : initializeRtspRequest env st "DESCRIBE" st.rtspTargetUrl with ⟨r, req, st1⟩
  rw [hi] at h
  simp only at h
  split_ifs at h with h1 h2 h3
  · refine transact_requests_forall env resp
      (built_addOption env _ _ (built_addOption env _ _ (built_init env st _ _ hi h1))) _ ?_ h
    rw [addOption_optionPairs _ _ _ _ _ h3, addOption_optionPairs _ _ _ _ _ h2,
      initializeRtspRequest_optionPairs env st _ _ hi h1]
    rfl
  · simp only [Option.some.injEq, Prod.mk.injEq] at h
    obtain ⟨rfl, rfl, rfl⟩ := h
    rw [built_fail_requests
      (built_addOption env _ _ (built_addOption env _ _ (built_init env st _ _ hi h1)))]
    simp
  · simp only [Option.some.injEq, Prod.mk.injEq] at h
    obtain ⟨rfl, rfl, rfl⟩ := h
    rw [built_fail_requests (built_addOption env _ _ (built_init env st _ _ hi h1))]
    simp
  · simp only [Option.some.injEq, Prod.mk.injEq] at h
    obtain ⟨rfl, rfl, rfl⟩ := h
    rw [init_fail_requests env st _ _ hi h1]
    simp

theorem setupStreamTail_options (env : Env) {cmd tgt : String} {st st1 : State}
    {req : RTSP_MESSAGE} (resp : RTSP_MESSAGE) (hb : Built cmd tgt st st1 req) {ret : Int}
    {resp' : RTSP_MESSAGE} {st' : State}
    (h : setupStreamTail env st1 req resp = some (ret, resp', st')) :
    ∀ m ∈ requests (added st st'),
      optionPairs m = optionPairs req ++ [("Transport", " "),
        ("If-Modified-Since", "Thu, 01 Jan 1970 00:00:00 GMT")] := by
  unfold setupStreamTail at h
  simp only at h
  split_ifs at h with h2 h3
  · refine transact_requests_forall env resp
      (built_addOption env _ _ (built_addOption env _ _ hb)) _ ?_ h
    rw [addOption_optionPairs _ _ _ _ _ h3, addOption_optionPairs _ _ _ _ _ h2]
    simp
  · simp only [Option.some.injEq, Prod.mk.injEq] at h
    obtain ⟨rfl, rfl, rfl⟩ := h
    rw [built_fail_requests (built_addOption env _ _ (built_addOption env _ _ hb))]
    simp
  · simp only [Option.some.injEq, Prod.mk.injEq] at h
    obtain ⟨rfl, rfl, rfl⟩ := h
    rw [built_fail_requests (built_addOption env _ _ hb)]
    simp

/-- The options of the request `setupStream` hands over: a `Session` option is
among them exactly when `sessionIdString` is not empty. -/
theorem setupStream_options (env : Env) (st : State) (resp : RTSP_MESSAGE) (tgt : String)
    {ret : Int} {resp' : RTSP_MESSAGE} {st' : State}
    (h : setupStream env st resp tgt = some (ret, resp', st')) :
    ∀ m ∈ requests (added st st'),
      optionPairs m =
        if st.sessionIdString ≠ "" then
          [("X-GS-ClientVersion", "10"), ("Session", st.sessionIdString), ("Transport", " "),
            ("If-Modified-Since", "Thu, 01 Jan 1970 00:00:00 GMT")]
        else
          [("X-GS-ClientVersion", "10"), ("Transport", " "),
            ("If-Modified-Since", "Thu, 01 Jan 1970 00:00:00 GMT")] := by
  unfold setupStream at h
  rcases hi : initializeRtspRequest env st "SETUP" tgt with ⟨r, req, st1⟩
  rw [hi] at h
  simp only at h
  have hsid : ∀ hr : r ≠ 0, st1.sessionIdString = st.sessionIdString :=
    fun hr => (built_init env st _ _ hi hr).1.1
  split_ifs at h with h1 h2 h3
  · simp only [Option.some.injEq, Prod.mk.injEq] at h
    obtain ⟨rfl, rfl, rfl⟩ := h
    rw [built_fail_requests (built_addOption env _ _ (built_init env st _ _ hi h1))]
    simp
  · intro m hm
    rw [setupStreamTail_options env resp
      (built_addOption env _ _ (built_init env st _ _ hi h1)) h m hm,
      addOption_optionPairs _ _ _ _ _ h3, initializeRtspRequest_optionPairs env st _ _ hi h1,
      hsid h1, if_pos (by rw [← hsid h1]; exact h2)]
    rfl
  · intro m hm
    rw [setupStreamTail_options env resp (built_init env st _ _ hi h1) h m hm,
      initializeRtspRequest_optionPairs env st _ _ hi h1, if_neg (by rw [← hsid h1]; exact h2)]
    rfl
  · simp only [Option.some.injEq, Prod.mk.injEq] at h
    obtain ⟨rfl, rfl, rfl⟩ := h
    rw [init_fail_requests env st _ _ hi h1]
    simp

theorem sendVideoAnnounce_options (env : Env) (st : State) (resp : RTSP_MESSAGE) (cfg : Nat)
    {ret : Int} {resp' : RTSP_MESSAGE} {st' : State}
    (h : sendVideoAnnounce env st resp cfg = some (ret, resp', st')) :
    ∀ m ∈ requests (added st st'), ∃ v,
      optionPairs m = [("X-GS-ClientVersion", "10"), ("Session", st.sessionIdString),
        ("Content-type", "application/sdp"), ("Content-length", v)] := by
  unfold sendVideoAnnounce at h
  rcases hi : initializeRtspRequest env st "ANNOUNCE" "streamid=video" with ⟨r, req, st1⟩
  rw [hi] at h
  simp only at h
  have hsid : ∀ hr : r ≠ 0, st1.sessionIdString = st.sessionIdString :=
    fun hr => (built_init env st _ _ hi hr).1.1
  split_ifs at h with h1 h2 h3
  · simp only [Option.some.injEq, Prod.mk.injEq] at h
    obtain ⟨rfl, rfl, rfl⟩ := h
    rw [built_fail_requests (built_addOption env _ _ (built_init env st _ _ hi h1))]
    simp
  · simp only [Option.some.injEq, Prod.mk.injEq] at h
    obtain ⟨rfl, rfl, rfl⟩ := h
    rw [built_fail_requests
      (built_addOption env _ _ (built_addOption env _ _ (built_init env st _ _ hi h1)))]
    simp
  · have hb := built_log (Event.getSdpPayloadForStreamConfig
      (addOption env (addOption env st1 req "Session" st1.sessionIdString).2.2
        (addOption env st1 req "Session" st1.sessionIdString).2.1 "Content-type"
        "application/sdp").2.2.remoteAddr) rfl
      (built_addOption env "Content-type" "application/sdp"
        (built_addOption env "Session" st1.sessionIdString (built_init env st _ _ hi h1)))
    split at h
    · simp only [Option.some.injEq, Prod.mk.injEq] at h
      obtain ⟨rfl, rfl, rfl⟩ := h
      rw [built_fail_requests hb]
      simp
    · rename_i payload payloadLength hsdp
      split_ifs at h with h4
      · simp only [Option.some.injEq, Prod.mk.injEq] at h
        obtain ⟨rfl, rfl, rfl⟩ := h
        rw [built_fail_requests (built_addOption env _ _ (built_payload _ _ hb))]
        simp
      · refine transact_requests_forall env resp
          (built_addOption env _ _ (built_payload _ _ hb)) _ ⟨sprintf_d payloadLength, ?_⟩ h
        rw [addOption_optionPairs _ _ _ _ _ h4]
        have hp : ∀ (m : RTSP_MESSAGE) (p : Option (List Byte)) (f : Nat),
            optionPairs { m with payload := p, flags := f } = optionPairs m := fun _ _ _ => rfl
        rw [hp, addOption_optionPairs _ _ _ _ _ h3, addOption_optionPairs _ _ _ _ _ h2,
          initializeRtspRequest_optionPairs env st _ _ hi h1, hsid h1]
        rfl
  · simp only [Option.some.injEq, Prod.mk.injEq] at h
    obtain ⟨rfl, rfl, rfl⟩ := h
    rw [init_fail_requests env st _ _ hi h1]
    simp

theorem requests_added_append {st s1 st' : State} {x y : List Event} (h1 : Grows st s1 x)
    (h2 : Grows s1 st' y) :
    requests (added st st') = requests (added st s1) ++ requests (added s1 st') := by
  obtain ⟨e1, he1, -⟩ := h1
  obtain ⟨e2, he2, -⟩ := h2
  have h3 : st'.trace = st.trace ++ (e1 ++ e2) := by rw [he2, he1, List.append_assoc]
  rw [added_of_trace h3, added_of_trace he1, added_of_trace he2]
  simp [requests]

theorem stepSpec_grows {cmd tgt : String} {st st' : State} {ret : Int} {resp : RTSP_MESSAGE}
    (h : StepSpec cmd tgt st ret resp st') : ∃ hi, Grows st st' hi := by
  obtain ⟨-, -, req, -, hc⟩ := h
  rcases hc with ⟨-, hg⟩ | ⟨-, hg⟩
  · exact ⟨_, hg⟩
  · exact ⟨_, hg⟩

/-- A property of requests that every block establishes for the requests it
hands over, in states with session identifier `sid` and target URL `url`, holds
for all the requests of a run of the blocks. -/
theorem runBlocks_requests_forall (env : Env) (url sid : String) (P : RTSP_MESSAGE → Prop) :
    ∀ (bs : List Block) (st : State) (ret : Int) (st' : State), BlocksOk url bs →
      (∀ b ∈ bs, ∀ (s : State) (resp : RTSP_MESSAGE) (r : Int) (resp' : RTSP_MESSAGE)
        (s' : State), s.sessionIdString = sid → s.rtspTargetUrl = url →
        b.run env s resp = some (r, resp', s') → ∀ m ∈ requests (added s s'), P m) →
      st.rtspTargetUrl = url → st.sessionIdString = sid →
      runBlocks env bs st = some (ret, st') → ∀ m ∈ requests (added st st'), P m := by
  intro bs
  induction bs with
  | nil =>
    intro st ret st' _ _ _ _ h
    simp only [runBlocks, Option.some.injEq, Prod.mk.injEq] at h
    obtain ⟨-, rfl⟩ := h
    simp [added, requests]
  | cons b rest ih =>
    intro st ret st' hok hP hurl hsid h
    unfold runBlocks at h
    rcases hr : b.run env st unsetResponse with _ | ⟨r, p, s1⟩
    · rw [hr] at h; exact absurd h (by simp)
    rw [hr] at h
    simp only at h
    have hstep := (hok b (List.mem_cons_self _ _)).1 env st _ _ _ _ hurl hr
    have hfirst := hP b (List.mem_cons_self _ _) st _ _ _ _ hsid hurl hr
    split_ifs at h with h1 h2 h3
    · simp only [Option.some.injEq, Prod.mk.injEq] at h
      obtain ⟨-, rfl⟩ := h
      exact hfirst
    · simp only [Option.some.injEq, Prod.mk.injEq] at h
      obtain ⟨-, rfl⟩ := h
      exact hfirst
    · simp only [Option.some.injEq, Prod.mk.injEq] at h
      obtain ⟨-, rfl⟩ := h
      exact hfirst
    · obtain ⟨x, hg1⟩ := stepSpec_grows hstep
      have hf := hstep.1
      have hok' : BlocksOk url rest := fun b' hb' => hok b' (List.mem_cons_of_mem _ hb')
      have hurl' : (freeMessage s1 p).rtspTargetUrl = url := by rw [← hurl]; exact hf.2.1
      have hsid' : (freeMessage s1 p).sessionIdString = sid := by rw [← hsid]; exact hf.1
      obtain ⟨-, y, hg2, -⟩ := runBlocks_shape env url rest _ _ _ hok' hurl' h
      have hg12 := (grows_log s1 (Event.freeMessage p)).growsThen hg2
      have hrest := ih (freeMessage s1 p) ret st' hok'
        (fun b' hb' => hP b' (List.mem_cons_of_mem _ hb')) hurl' hsid' h
      intro m hm
      rw [requests_added_append hg1 hg12, List.mem_append] at hm
      rcases hm with hm | hm
      · exact hfirst m hm
      · have hsplit := requests_added_append (grows_log s1 (Event.freeMessage p)) hg2
        rw [hsplit, List.mem_append] at hm
        rcases hm with hm | hm
        · have : requests (added s1 (s1.log (Event.freeMessage p))) = [] := by
            simp [added, State.log, requests]
          rw [this] at hm
          exact absurd hm (by simp)
        · exact hrest m hm

theorem handshakeBlocks_options (env : Env) (url sid : String) (cfg : Nat) :
    ∀ b ∈ handshakeBlocks url cfg, ∀ (s : State) (resp : RTSP_MESSAGE) (r : Int)
      (resp' : RTSP_MESSAGE) (s' : State), s.sessionIdString = sid → s.rtspTargetUrl = url →
      b.run env s resp = some (r, resp', s') →
      ∀ m ∈ requests (added s s'), HandshakeOptions sid m := by
  intro b hb s resp r resp' s' hsid _ hrun m hm
  simp only [handshakeBlocks, List.mem_cons, List.mem_singleton, List.not_mem_nil, or_false] at hb
  rcases hb with rfl | rfl | rfl | rfl | rfl | rfl | rfl
  · exact ⟨[], requestOptions_options env s resp hrun m hm, by simp⟩
  · exact ⟨_, requestDescribe_options env s resp hrun m hm, by simp⟩
  · have := setupStream_options env s resp _ hrun m hm
    split_ifs at this
    · exact ⟨_, this, by simp [hsid]⟩
    · exact ⟨_, this, by simp⟩
  · have := setupStream_options env s resp _ hrun m hm
    split_ifs at this
    · exact ⟨_, this, by simp [hsid]⟩
    · exact ⟨_, this, by simp⟩
  · obtain ⟨v, hv⟩ := sendVideoAnnounce_options env s resp _ hrun m hm
    exact ⟨_, hv, by simp [hsid]⟩
  · exact ⟨_, playStream_options env s resp _ hrun m hm, by simp [hsid]⟩
  · exact ⟨_, playStream_options env s resp _ hrun m hm, by simp [hsid]⟩

/-- The handshake returns, leaves `sessionIdString` alone, and every request it
hands over has the option list of a handshake request. -/
theorem performRtspHandshake_options (env : Env) (hrecv : RecvWithinCapacity env) (st : State)
    (addr cfg : Nat) :
    ∃ ret st', performRtspHandshake env st addr cfg = some (ret, st') ∧
      st'.sessionIdString = st.sessionIdString ∧
      ∀ m ∈ requests (added st st'), HandshakeOptions st.sessionIdString m := by
  obtain ⟨ret, st', hp, hsid, -, -, -⟩ := performRtspHandshake_shape env hrecv st addr cfg
  refine ⟨ret, st', hp, hsid, ?_⟩
  rw [performRtspHandshake_eq_runBlocks] at hp
  exact runBlocks_requests_forall env st.rtspTargetUrl st.sessionIdString _ _
    { st with remoteAddr := addr } ret st' (handshakeBlocks_ok _ _)
    (handshakeBlocks_options env _ _ cfg) rfl rfl hp

/-- C18: `performRtspHandshake` returns with `sessionIdString` as it was on
entry, and every `Session` option of every request it hands over has that
string as its value (the empty string when the identifier is empty on entry). -/
theorem performRtspHandshake_keeps_sessionIdString (env : Env) (st : State) (addr cfg : Nat)
    (hrecv : RecvWithinCapacity env) :
    ∃ ret st', performRtspHandshake env st addr cfg = some (ret, st') ∧
      st'.sessionIdString = st.sessionIdString ∧
      (∀ m ∈ requests (added st st'), ∀ item ∈ m.options,
        item.option = "Session" → item.content = st.sessionIdString) ∧
      (st.sessionIdString = "" → ∀ m ∈ requests (added st st'), ∀ item ∈ m.options,
        item.option = "Session" → item.content = "") := by
  obtain ⟨ret, st', hp, hsid, hopt⟩ := performRtspHandshake_options env hrecv st addr cfg
  have key : ∀ m ∈ requests (added st st'), ∀ item ∈ m.options,
      item.option = "Session" → item.content = st.sessionIdString := by
    intro m hm item hitem hkey
    obtain ⟨rest, hrest, hall⟩ := hopt m hm
    have hmem : (item.option, item.content) ∈ optionPairs m :=
      List.mem_map.2 ⟨item, hitem, rfl⟩
    rw [hrest, List.mem_cons] at hmem
    rcases hmem with heq | hmem
    · simp only [Prod.mk.injEq] at heq
      rw [hkey] at heq
      exact absurd heq.1 (by decide)
    · exact hall _ hmem hkey
  refine ⟨ret, st', hp, hsid, key, ?_⟩
  intro hempty m hm item hitem hkey
  rw [← hempty]
  exact key m hm item hitem hkey

theorem performRtspHandshake_keeps_sessionIdString_witness :
    RecvWithinCapacity serverOk ∧
      ∃ ret st', performRtspHandshake serverOk (State.initial "rtsp://host") 0 0 =
          some (ret, st') ∧
        st'.sessionIdString = (State.initial "rtsp://host").sessionIdString ∧
        (∀ m ∈ requests (added (State.initial "rtsp://host") st'), ∀ item ∈ m.options,
          item.option = "Session" →
            item.content = (State.initial "rtsp://host").sessionIdString) ∧
        ((State.initial "rtsp://host").sessionIdString = "" →
          ∀ m ∈ requests (added (State.initial "rtsp://host") st'), ∀ item ∈ m.options,
            item.option = "Session" → item.content = "") :=
  ⟨serverOk_recv,
    performRtspHandshake_keeps_sessionIdString serverOk (State.initial "rtsp://host") 0 0
      serverOk_recv⟩

theorem constructed_of_grows {st st' : State} {hi : List Event} (h : Grows st st' hi) :
    constructed (added st st') = constructed hi := by
  rw [← constructed_high, h.high_added]

theorem freed_of_grows {st st' : State} {hi : List Event} (h : Grows st st' hi) :
    freed (added st st') = freed hi := by
  rw [← freed_high, h.high_added]

theorem stepSpec_releases {cmd tgt : String} {st st' : State} {ret : Int}
    {resp : RTSP_MESSAGE} {r : Option (Int × RTSP_MESSAGE × State)}
    (hr : r = some (ret, resp, st')) (h : StepSpec cmd tgt st ret resp st') :
    ReleasesItsRequest st r cmd tgt := by
  obtain ⟨-, -, req, hreq, hc⟩ := h
  rcases hc with ⟨-, hg⟩ | ⟨-, hg⟩
  · exact ⟨ret, resp, st', req, hr, by rw [constructed_of_grows hg]; rfl,
      by rw [freed_of_grows hg]; rfl, hreq, Or.inl (by rw [requests_of_grows hg]; rfl)⟩
  · exact ⟨ret, resp, st', req, hr, by rw [constructed_of_grows hg]; rfl,
      by rw [freed_of_grows hg]; rfl, hreq, Or.inr (by rw [requests_of_grows hg]; rfl)⟩

/-- C12: each of the five request builders returns having released the request
it built exactly once, whatever the allocations, the SDP generator and the
transaction did. -/
theorem builders_release_their_request (env : Env) (st : State) (resp : RTSP_MESSAGE)
    (tgt : String) (cfg : Nat) (hrecv : RecvWithinCapacity env) :
    ReleasesItsRequest st (requestOptions env st resp) "OPTIONS" st.rtspTargetUrl ∧
      ReleasesItsRequest st (requestDescribe env st resp) "DESCRIBE" st.rtspTargetUrl ∧
      ReleasesItsRequest st (setupStream env st resp tgt) "SETUP" tgt ∧
      ReleasesItsRequest st (playStream env st resp tgt) "PLAY" tgt ∧
      ReleasesItsRequest st (sendVideoAnnounce env st resp cfg) "ANNOUNCE" "streamid=video" := by
  obtain ⟨⟨r1, p1, s1⟩, h1⟩ := requestOptions_total env hrecv st resp
  obtain ⟨⟨r2, p2, s2⟩, h2⟩ := requestDescribe_total env hrecv st resp
  obtain ⟨⟨r3, p3, s3⟩, h3⟩ := setupStream_total env hrecv st resp tgt
  obtain ⟨⟨r4, p4, s4⟩, h4⟩ := playStream_total env hrecv st resp tgt
  obtain ⟨⟨r5, p5, s5⟩, h5⟩ := sendVideoAnnounce_total env hrecv st resp cfg
  exact ⟨stepSpec_releases h1 (requestOptions_spec env st resp h1),
    stepSpec_releases h2 (requestDescribe_spec env st resp h2),
    stepSpec_releases h3 (setupStream_spec env st resp tgt h3),
    stepSpec_releases h4 (playStream_spec env st resp tgt h4),
    stepSpec_releases h5 (sendVideoAnnounce_spec env st resp cfg h5)⟩

theorem allocatorFailsThird_recv : RecvWithinCapacity allocatorFailsThird := serverOk_recv

theorem builders_release_their_request_witness :
    RecvWithinCapacity allocatorFailsThird ∧
      (ReleasesItsRequest (State.initial "rtsp://host")
          (requestOptions allocatorFailsThird (State.initial "rtsp://host") unsetResponse)
          "OPTIONS" (State.initial "rtsp://host").rtspTargetUrl ∧
        ReleasesItsRequest (State.initial "rtsp://host")
          (requestDescribe allocatorFailsThird (State.initial "rtsp://host") unsetResponse)
          "DESCRIBE" (State.initial "rtsp://host").rtspTargetUrl ∧
        ReleasesItsRequest (State.initial "rtsp://host")
          (setupStream allocatorFailsThird (State.initial "rtsp://host") unsetResponse
            "streamid=audio") "SETUP" "streamid=audio" ∧
        ReleasesItsRequest (State.initial "rtsp://host")
          (playStream allocatorFailsThird (State.initial "rtsp://host") unsetResponse
            "streamid=audio") "PLAY" "streamid=audio" ∧
        ReleasesItsRequest (State.initial "rtsp://host")
          (sendVideoAnnounce allocatorFailsThird (State.initial "rtsp://host") unsetResponse 0)
          "ANNOUNCE" "streamid=video") :=
  ⟨allocatorFailsThird_recv,
    builders_release_their_request allocatorFailsThird (State.initial "rtsp://host")
      unsetResponse "streamid=audio" 0 allocatorFailsThird_recv⟩

set_option maxRecDepth 100000 in
/-- C11: when `DESCRIBE` is answered with status `404`, the handshake returns
`-1` having released the `OPTIONS` request, the `OPTIONS` response and the
`DESCRIBE` request, but not the `404` response; and when the audio setup is
answered with `200` and no `Session` option, the third response is not released
either. -/
theorem failed_step_response_not_released :
    (performRtspHandshake describeNotFound (State.initial "rtsp://host") 0 0).map
        (fun r => (r.1, (outcomes r.2.trace).map (fun o => (o.1, o.2.statusCode)),
          (freed r.2.trace).map (fun m => (m.command, m.statusCode)))) =
      some (-1, [(1, 200), (1, 404)], [("OPTIONS", 0), ("", 200), ("DESCRIBE", 0)]) ∧
    (performRtspHandshake serverWithoutSession (State.initial "rtsp://host") 0 0).map
        (fun r => (r.1, (outcomes r.2.trace).map (fun o => (o.1, o.2.statusCode)),
          (freed r.2.trace).map (fun m => (m.command, m.statusCode)))) =
      some (-1, [(1, 200), (1, 200), (1, 200)],
        [("OPTIONS", 0), ("", 200), ("DESCRIBE", 0), ("", 200), ("SETUP", 0)]) := by
  constructor
  · rfl
  · rfl

set_option maxRecDepth 100000 in
/-- C14: with a server whose audio-setup response carries `Session: ABC123`,
the `SETUP` request for the video stream, built after that response was read,
has no `Session` option. -/
theorem video_setup_without_session :
    (performRtspHandshake serverOk (State.initial "rtsp://host") 0 0).map
        (fun r => (((outcomes r.2.trace).map
            (fun o => getOptionContent o.2.options "Session")).take 3,
          ((requests r.2.trace).filter (fun m => m.command == "SETUP")).map sessionOf)) =
      some ([some "ABC123", some "ABC123", some "ABC123"],
        [("SETUP", "streamid=audio", none), ("SETUP", "streamid=video", none)]) := by
  rfl

theorem stopsAt_offset_le (env : Env) (k m : Nat) (h : StopsAt env k m) :
    ∀ d j, j + d = m → offsetBefore env k j + d ≤ offsetBefore env k m := by
  intro d
  induction d with
  | zero =>
    intro j hj
    have : j = m := by omega
    subst this
    simp
  | succ n ih =>
    intro j hj
    have h1 := ih (j + 1) (by omega)
    have h2 := h.1 j (by omega)
    simp only [offsetBefore] at h1
    push_cast
    omega

theorem stopsAt_offset_ge (env : Env) (k m : Nat) (h : StopsAt env k m) :
    ∀ j, j ≤ m → (j : Int) ≤ offsetBefore env k j := by
  intro j
  induction j with
  | zero => intro _; simp [offsetBefore]
  | succ n ih =>
    intro hn
    have h1 := ih (by omega)
    have h2 := h.1 n (by omega)
    simp only [offsetBefore]
    push_cast
    omega

/-- When the accumulation stops at the `m`-th `recv`, the loop is left by
`break`, with the buffer and the offset reached before that `recv`. -/
theorem recvLoop_done (env : Env) (k m : Nat) (h : StopsAt env k m) :
    ∀ (fuel j : Nat) (st : State), j ≤ m → m + 1 ≤ fuel + j →
      ∃ st', recvLoop env k fuel j (offsetBefore env k j) (bufferBefore env k j) st =
        some (LoopExit.done (bufferBefore env k m) (offsetBefore env k m), st') := by
  intro fuel
  induction fuel with
  | zero => intro j st h1 h2; omega
  | succ n ih =>
    intro j st h1 h2
    have hle := stopsAt_offset_le env k m h (m - j) j (by omega)
    have hlt := h.2.1
    unfold recvLoop
    simp only
    by_cases hj : j = m
    · subst hj
      have hret := h.2.2
      rw [if_neg (by omega), if_pos hret]
      exact ⟨_, rfl⟩
    · have hpos := h.1 j (by omega)
      have hle' := stopsAt_offset_le env k m h (m - (j + 1)) (j + 1) (by omega)
      simp only [offsetBefore] at hle'
      rw [if_neg (by omega), if_neg (by omega), if_neg (by omega)]
      exact ih (j + 1) _ (by omega) (by omega)

theorem recvLoop_done_of_eq (env : Env) (k m : Nat) (h : StopsAt env k m) (st : State)
    {r : Option (LoopExit × State)}
    (hr : recvLoop env k (RTSP_MAX_RESP_SIZE.toNat + 1) 0 0 (responseBufferOnEntry env k) st = r) :
    ∃ st', r = some (LoopExit.done (bufferBefore env k m) (offsetBefore env k m), st') := by
  subst hr
  have hm : m + 1 ≤ RTSP_MAX_RESP_SIZE.toNat + 1 + 0 := by
    have h1 := stopsAt_offset_ge env k m h m (le_refl _)
    have h2 := h.2.1
    simp only [RTSP_MAX_RESP_SIZE] at h2 ⊢
    omega
  exact recvLoop_done env k m h _ 0 st (Nat.zero_le _) hm

/-- A transaction whose connection opens, whose request is sent and whose
accumulation stops at the `m`-th `recv` hands the buffer reached there to the
parser, once, and returns `1` with the parsed response when the parser accepts
it and `0` with `*response` untouched when it does not. -/
theorem transactRtspMessage_stopsAt (env : Env) (st : State) (req resp : RTSP_MESSAGE)
    (m : Nat) (bytes : List Byte)
    (hconn : env.connectTcpSocket st.transactions ≠ INVALID_SOCKET)
    (hser : env.serializeRtspMessage st.transactions req = some bytes)
    (hsend : env.send st.transactions bytes ≠ SOCKET_ERROR)
    (hstop : StopsAt env st.transactions m) :
    ∃ ret resp' st', transactRtspMessage env st req resp = some (ret, resp', st') ∧
      parsed (added st st') = [bufferBefore env st.transactions m] ∧
      ((env.parseRtspMessage st.transactions (bufferBefore env st.transactions m) = some resp' ∧
          ret = 1) ∨
        (env.parseRtspMessage st.transactions (bufferBefore env st.transactions m) = none ∧
          ret = 0 ∧ resp' = resp)) ∧
      st'.transactions = st.transactions + 1 := by
  rcases hres : transactRtspMessage env st req resp with _ | ⟨ret, resp', st'⟩
  · unfold transactRtspMessage at hres
    simp only [hser] at hres
    rw [if_neg hconn, if_neg hsend] at hres
    split at hres
    · rename_i hloop
      obtain ⟨s, hs⟩ := recvLoop_done_of_eq env _ m hstop _ hloop
      exact absurd hs (by simp)
    · rename_i s5 hloop
      obtain ⟨s, hs⟩ := recvLoop_done_of_eq env _ m hstop _ hloop
      exact absurd hs (by simp)
    · split at hres <;> exact absurd hres (by simp [transactReturn])
  · refine ⟨ret, resp', st', rfl, ?_⟩
    unfold transactRtspMessage at hres
    simp only [hser] at hres
    rw [if_neg hconn, if_neg hsend] at hres
    split at hres
    · exact absurd hres (by simp)
    · rename_i s5 hloop
      obtain ⟨s, hs⟩ := recvLoop_done_of_eq env _ m hstop _ hloop
      exact absurd hs (by simp)
    · rename_i buf off s5 hloop
      obtain ⟨s, hs⟩ := recvLoop_done_of_eq env _ m hstop _ hloop
      simp only [Option.some.injEq, Prod.mk.injEq, LoopExit.done.injEq] at hs
      obtain ⟨⟨hbuf, -⟩, -⟩ := hs
      subst hbuf
      obtain ⟨⟨evs, he, hall⟩, -, -, -, ht⟩ := recvLoop_trace _ _ _ _ _ _ _ _ _ hloop
      simp only [State.log] at he ht
      have hparsed : ∀ s : State, s.trace = s5.trace ++
          [Event.parseRtspMessage (bufferBefore env st.transactions m),
            Event.freeSerialized bytes, Event.closesocket s5.sock] →
          ∀ (r : Int) (p : RTSP_MESSAGE), parsed (added st (s.log (Event.transactReturn r p))) =
            [bufferBefore env st.transactions m] := by
        intro s hs r p
        simp [added, State.log, hs, he, parsed]
        intro a ha
        obtain ⟨x, y, z, rfl⟩ := hall a ha
        rfl
      split at hres
      · rename_i parsedMsg hp
        simp only [transactReturn, Option.some.injEq, Prod.mk.injEq] at hres
        obtain ⟨rfl, rfl, rfl⟩ := hres
        refine ⟨hparsed _ (by simp [transactExit_trace, State.log]) _ _, Or.inl ⟨hp, rfl⟩, ?_⟩
        simpa [transactExit, closesocket, State.log] using ht
      · rename_i hp
        simp only [transactReturn, Option.some.injEq, Prod.mk.injEq] at hres
        obtain ⟨rfl, rfl, rfl⟩ := hres
        refine ⟨hparsed _ (by simp [transactExit_trace, State.log]) _ _,
          Or.inr ⟨hp, rfl, rfl⟩, ?_⟩
        simpa [transactExit, closesocket, State.log] using ht

theorem receiveFails_stopsAt (k : Nat) : StopsAt receiveFails k 1 := by
  refine ⟨?_, ?_, ?_⟩
  · intro j hj
    have : j = 0 := by omega
    subst this
    simp only [receiveFails, offsetBefore, RecvResult.ret, if_true]
    decide
  · simp only [receiveFails, offsetBefore, RecvResult.ret, if_true]
    decide
  · simp only [receiveFails, offsetBefore, RecvResult.ret, if_true]
    decide

/-- C8 (amended): a `recv` that returns a negative value ends the accumulation
exactly as a zero-length `recv` does.  The transaction gives the same result,
response and trace as with a peer that closes the connection at that point;
the buffer accumulated before that `recv` is handed to the parser, once; and
the call returns `1`, with the parsed response, when the parser accepts the
buffer, and `0`, with `*response` untouched, when it does not. -/
theorem transactRtspMessage_receive_error (env : Env) (st : State) (req resp : RTSP_MESSAGE)
    (m : Nat) (bytes : List Byte)
    (hconn : env.connectTcpSocket st.transactions ≠ INVALID_SOCKET)
    (hser : env.serializeRtspMessage st.transactions req = some bytes)
    (hsend : env.send st.transactions bytes ≠ SOCKET_ERROR)
    (hdata : ∀ j, j < m → 0 < (env.recv st.transactions j
      (RTSP_MAX_RESP_SIZE - offsetBefore env st.transactions j)).ret)
    (hroom : offsetBefore env st.transactions m < RTSP_MAX_RESP_SIZE)
    (herr : (env.recv st.transactions m
      (RTSP_MAX_RESP_SIZE - offsetBefore env st.transactions m)).ret < 0) :
    transactRtspMessage env st req resp = transactRtspMessage (errorAsClose env) st req resp ∧
      ∃ ret resp' st', transactRtspMessage env st req resp = some (ret, resp', st') ∧
        parsed (added st st') = [bufferBefore env st.transactions m] ∧
        ((env.parseRtspMessage st.transactions (bufferBefore env st.transactions m) =
              some resp' ∧ ret = 1) ∨
          (env.parseRtspMessage st.transactions (bufferBefore env st.transactions m) = none ∧
            ret = 0 ∧ resp' = resp)) := by
  obtain ⟨ret, resp', st', h1, h2, h3, -⟩ :=
    transactRtspMessage_stopsAt env st req resp m bytes hconn hser hsend
      ⟨hdata, hroom, le_of_lt herr⟩
  exact ⟨transactRtspMessage_errorAsClose_eq env st req resp, ret, resp', st', h1, h2, h3⟩

theorem transactRtspMessage_receive_error_witness :
    receiveFails.connectTcpSocket (State.initial "rtsp://host").transactions ≠ INVALID_SOCKET ∧
      receiveFails.serializeRtspMessage (State.initial "rtsp://host").transactions
        optionsRequest = some [79, 80, 84, 73] ∧
      receiveFails.send (State.initial "rtsp://host").transactions [79, 80, 84, 73] ≠
        SOCKET_ERROR ∧
      (∀ j, j < 1 → 0 < (receiveFails.recv (State.initial "rtsp://host").transactions j
        (RTSP_MAX_RESP_SIZE -
          offsetBefore receiveFails (State.initial "rtsp://host").transactions j)).ret) ∧
      offsetBefore receiveFails (State.initial "rtsp://host").transactions 1 <
        RTSP_MAX_RESP_SIZE ∧
      (receiveFails.recv (State.initial "rtsp://host").transactions 1
        (RTSP_MAX_RESP_SIZE -
          offsetBefore receiveFails (State.initial "rtsp://host").transactions 1)).ret < 0 ∧
      (transactRtspMessage receiveFails (State.initial "rtsp://host") optionsRequest
          unsetResponse =
        transactRtspMessage (errorAsClose receiveFails) (State.initial "rtsp://host")
          optionsRequest unsetResponse ∧
        ∃ ret resp' st', transactRtspMessage receiveFails (State.initial "rtsp://host")
            optionsRequest unsetResponse = some (ret, resp', st') ∧
          parsed (added (State.initial "rtsp://host") st') =
            [bufferBefore receiveFails (State.initial "rtsp://host").transactions 1] ∧
          ((receiveFails.parseRtspMessage (State.initial "rtsp://host").transactions
                (bufferBefore receiveFails (State.initial "rtsp://host").transactions 1) =
                some resp' ∧ ret = 1) ∨
            (receiveFails.parseRtspMessage (State.initial "rtsp://host").transactions
                (bufferBefore receiveFails (State.initial "rtsp://host").transactions 1) =
                none ∧ ret = 0 ∧ resp' = unsetResponse))) ∧
      ∃ st', transactRtspMessage receiveFails (State.initial "rtsp://host") optionsRequest
        unsetResponse = some (1, sessionResponse, st') := by
  have h := transactRtspMessage_receive_error receiveFails (State.initial "rtsp://host")
    optionsRequest unsetResponse 1 [79, 80, 84, 73] (by decide) rfl (by decide)
    (receiveFails_stopsAt _).1 (receiveFails_stopsAt _).2.1 (by decide)
  refine ⟨by decide, rfl, by decide, (receiveFails_stopsAt _).1, (receiveFails_stopsAt _).2.1,
    by decide, h, ?_⟩
  obtain ⟨-, ret, resp', st', h1, -, h3⟩ := h
  rcases h3 with ⟨hp, rfl⟩ | ⟨hp, -, -⟩
  · have hp' : some sessionResponse = some resp' := hp
    obtain rfl := Option.some.inj hp'
    exact ⟨st', h1⟩
  · have hp' : some sessionResponse = none := hp
    exact absurd hp' (by simp)

theorem addOption_transactions (env : Env) (s : State) (m : RTSP_MESSAGE) (o c : String) :
    (addOption env s m o c).2.2.transactions = s.transactions :=
  (addOption_spec env s m o c).1.2.2.2.2

theorem initializeRtspRequest_transactions (env : Env) (st : State) (cmd tgt : String) :
    (initializeRtspRequest env st cmd tgt).2.2.transactions = st.transactions :=
  (initializeRtspRequest_spec env st cmd tgt rfl).2.2.2.1

/-- In a responsive environment a transaction returns `1` with a response
that the parser produced. -/
theorem transactRtspMessage_cooperative (env : Env) (hc : Responsive env)
    (s : State) (rq rs : RTSP_MESSAGE) :
    ∃ rp s' buf, transactRtspMessage env s rq rs = some (1, rp, s') ∧
      env.parseRtspMessage s.transactions buf = some rp ∧
      s'.transactions = s.transactions + 1 := by
  obtain ⟨-, hconn, hsend, hstop, hparse, -⟩ := hc
  obtain ⟨bytes, hser, hsnd⟩ := hsend s.transactions rq
  obtain ⟨m, hm⟩ := hstop s.transactions
  obtain ⟨ret, rp, s', h1, -, h3, h4⟩ :=
    transactRtspMessage_stopsAt env s rq rs m bytes (hconn _) hser hsnd hm
  rcases h3 with ⟨hp, rfl⟩ | ⟨hp, -, -⟩
  · exact ⟨rp, s', _, h1, hp, h4⟩
  · obtain ⟨r, hr, -⟩ := hparse s.transactions (bufferBefore env s.transactions m)
    rw [hp] at hr
    exact absurd hr (by simp)

theorem cooperative_tail (env : Env) (hc : Responsive env) (s : State)
    (rq rs : RTSP_MESSAGE) (k : Nat) (hk : s.transactions = k) :
    ∃ rp s' buf, (match transactRtspMessage env s rq rs with
        | none => none
        | some (ret1, response1, st2) => some (ret1, response1, freeMessage st2 rq)) =
        some (1, rp, s') ∧
      env.parseRtspMessage k buf = some rp ∧ s'.transactions = k + 1 := by
  obtain ⟨rp, s', buf, h1, h2, h3⟩ := transactRtspMessage_cooperative env hc s rq rs
  rw [h1]
  subst hk
  exact ⟨rp, freeMessage s' rq, buf, rfl, h2, h3⟩

theorem requestOptions_cooperative (env : Env) (hc : Responsive env)
    (st : State) (resp : RTSP_MESSAGE) :
    ∃ rp s' buf, requestOptions env st resp = some (1, rp, s') ∧
      env.parseRtspMessage st.transactions buf = some rp ∧
      s'.transactions = st.transactions + 1 := by
  have hm := hc.1
  unfold requestOptions
  simp only
  rw [if_pos (by rw [(initializeRtspRequest_of_mallocOk env hm _ _ _).1]; decide)]
  exact cooperative_tail env hc _ _ _ _ (initializeRtspRequest_transactions _ _ _ _)

theorem requestDescribe_cooperative (env : Env) (hc : Responsive env)
    (st : State) (resp : RTSP_MESSAGE) :
    ∃ rp s' buf, requestDescribe env st resp = some (1, rp, s') ∧
      env.parseRtspMessage st.transactions buf = some rp ∧
      s'.transactions = st.transactions + 1 := by
  have hm := hc.1
  unfold requestDescribe
  simp only
  rw [if_pos (by rw [(initializeRtspRequest_of_mallocOk env hm _ _ _).1]; decide),
    if_pos (by rw [(addOption_of_mallocOk env hm _ _ _ _).1]; decide),
    if_pos (by rw [(addOption_of_mallocOk env hm _ _ _ _).1]; decide)]
  refine cooperative_tail env hc _ _ _ _ ?_
  rw [addOption_transactions, addOption_transactions, initializeRtspRequest_transactions]

theorem setupStreamTail_cooperative (env : Env) (hc : Responsive env)
    (s : State) (rq resp : RTSP_MESSAGE) :
    ∃ rp s' buf, setupStreamTail env s rq resp = some (1, rp, s') ∧
      env.parseRtspMessage s.transactions buf = some rp ∧
      s'.transactions = s.transactions + 1 := by
  have hm := hc.1
  unfold setupStreamTail
  simp only
  rw [if_pos (by rw [(addOption_of_mallocOk env hm _ _ _ _).1]; decide),
    if_pos (by rw [(addOption_of_mallocOk env hm _ _ _ _).1]; decide)]
  refine cooperative_tail env hc _ _ _ _ ?_
  rw [addOption_transactions, addOption_transactions]

theorem setupStream_cooperative (env : Env) (hc : Responsive env)
    (st : State) (resp : RTSP_MESSAGE) (tgt : String) :
    ∃ rp s' buf, setupStream env st resp tgt = some (1, rp, s') ∧
      env.parseRtspMessage st.transactions buf = some rp ∧
      s'.transactions = st.transactions + 1 := by
  have hm := hc.1
  unfold setupStream
  simp only
  rw [if_pos (by rw [(initializeRtspRequest_of_mallocOk env hm _ _ _).1]; decide)]
  split_ifs with h1 h2
  · rw [(addOption_of_mallocOk env hm _ _ _ _).1] at h2
    exact absurd h2 (by decide)
  · have := setupStreamTail_cooperative env hc
      (addOption env (initializeRtspRequest env st "SETUP" tgt).2.2
        (initializeRtspRequest env st "SETUP" tgt).2.1 "Session"
        (initializeRtspRequest env st "SETUP" tgt).2.2.sessionIdString).2.2
      (addOption env (initializeRtspRequest env st "SETUP" tgt).2.2
        (initializeRtspRequest env st "SETUP" tgt).2.1 "Session"
        (initializeRtspRequest env st "SETUP" tgt).2.2.sessionIdString).2.1 resp
    rw [addOption_transactions, initializeRtspRequest_transactions] at this
    exact this
  · have := setupStreamTail_cooperative env hc
      (initializeRtspRequest env st "SETUP" tgt).2.2
      (initializeRtspRequest env st "SETUP" tgt).2.1 resp
    rw [initializeRtspRequest_transactions] at this
    exact this

theorem playStream_cooperative (env : Env) (hc : Responsive env)
    (st : State) (resp : RTSP_MESSAGE) (tgt : String) :
    ∃ rp s' buf, playStream env st resp tgt = some (1, rp, s') ∧
      env.parseRtspMessage st.transactions buf = some rp ∧
      s'.transactions = st.transactions + 1 := by
  have hm := hc.1
  unfold playStream
  simp only
  rw [if_pos (by rw [(initializeRtspRequest_of_mallocOk env hm _ _ _).1]; decide),
    if_pos (by rw [(addOption_of_mallocOk env hm _ _ _ _).1]; decide)]
  refine cooperative_tail env hc _ _ _ _ ?_
  rw [addOption_transactions, initializeRtspRequest_transactions]

theorem sendVideoAnnounce_cooperative (env : Env) (hc : Responsive env)
    (st : State) (resp : RTSP_MESSAGE) (cfg : Nat) :
    ∃ rp s' buf, sendVideoAnnounce env st resp cfg = some (1, rp, s') ∧
      env.parseRtspMessage st.transactions buf = some rp ∧
      s'.transactions = st.transactions + 1 := by
  have hm := hc.1
  have hsdp := hc.2.2.2.2.2
  unfold sendVideoAnnounce
  simp only
  rw [if_pos (by rw [(initializeRtspRequest_of_mallocOk env hm _ _ _).1]; decide),
    if_neg (by rw [(addOption_of_mallocOk env hm _ _ _ _).1]; decide),
    if_neg (by rw [(addOption_of_mallocOk env hm _ _ _ _).1]; decide)]
  rcases hs : env.getSdpPayloadForStreamConfig cfg
    (addOption env
      (addOption env (initializeRtspRequest env st "ANNOUNCE" "streamid=video").2.2
        (initializeRtspRequest env st "ANNOUNCE" "streamid=video").2.1 "Session"
        (initializeRtspRequest env st "ANNOUNCE" "streamid=video").2.2.sessionIdString).2.2
      (addOption env (initializeRtspRequest env st "ANNOUNCE" "streamid=video").2.2
        (initializeRtspRequest env st "ANNOUNCE" "streamid=video").2.1 "Session"
        (initializeRtspRequest env st "ANNOUNCE" "streamid=video").2.2.sessionIdString).2.1
      "Content-type" "application/sdp").2.2.remoteAddr with _ | ⟨payload, len⟩
  · exact absurd hs (hsdp _ _)
  simp only
  rw [if_neg (by rw [(addOption_of_mallocOk env hm _ _ _ _).1]; decide)]
  refine cooperative_tail env hc _ _ _ _ ?_
  rw [addOption_transactions]
  show (addOption env _ _ _ _).2.2.transactions = _
  rw [addOption_transactions, addOption_transactions, initializeRtspRequest_transactions]

theorem responsive_status (env : Env) (hc : Responsive env) (k : Nat)
    (buf : List Byte) (rp : RTSP_MESSAGE) (h : env.parseRtspMessage k buf = some rp) :
    rp.statusCode = 200 := by
  obtain ⟨r, hr, h200⟩ := hc.2.2.2.2.1 k buf
  rw [h] at hr
  cases hr
  exact h200

/-- In a cooperating environment every block of the handshake passes, and
`performRtspHandshake` returns `0`. -/
theorem performRtspHandshake_cooperative (env : Env) (st : State) (addr cfg : Nat)
    (hco : Cooperative env st.transactions) :
    ∃ st', performRtspHandshake env st addr cfg = some (0, st') := by
  obtain ⟨hc, hsess⟩ := hco
  unfold performRtspHandshake
  simp only
  obtain ⟨r1, s1, b1, h1, p1, t1⟩ :=
    requestOptions_cooperative env hc { st with remoteAddr := addr } unsetResponse
  rw [h1]
  simp only
  rw [if_neg (by decide), if_neg (not_not.2 (responsive_status env hc _ _ _ p1))]
  obtain ⟨r2, s2, b2, h2, p2, t2⟩ :=
    requestDescribe_cooperative env hc (freeMessage s1 r1) unsetResponse
  rw [h2]
  simp only
  rw [if_neg (by decide), if_neg (not_not.2 (responsive_status env hc _ _ _ p2))]
  obtain ⟨r3, s3, b3, h3, p3, t3⟩ :=
    setupStream_cooperative env hc (freeMessage s2 r2) unsetResponse "streamid=audio"
  rw [h3]
  simp only
  have k3 : (freeMessage s2 r2).transactions = st.transactions + 2 := by
    show s2.transactions = _
    rw [t2]
    show s1.transactions + 1 = _
    rw [t1]
  rw [k3] at p3
  rw [if_neg (by decide), if_neg (not_not.2 (responsive_status env hc _ _ _ p3)),
    if_neg (hsess _ _ p3)]
  obtain ⟨r4, s4, b4, h4, p4, t4⟩ :=
    setupStream_cooperative env hc (freeMessage s3 r3) unsetResponse "streamid=video"
  rw [h4]
  simp only
  rw [if_neg (by decide), if_neg (not_not.2 (responsive_status env hc _ _ _ p4))]
  obtain ⟨r5, s5, b5, h5, p5, t5⟩ :=
    sendVideoAnnounce_cooperative env hc (freeMessage s4 r4) unsetResponse cfg
  rw [h5]
  simp only
  rw [if_neg (by decide), if_neg (not_not.2 (responsive_status env hc _ _ _ p5))]
  obtain ⟨r6, s6, b6, h6, p6, t6⟩ :=
    playStream_cooperative env hc (freeMessage s5 r5) unsetResponse "streamid=video"
  rw [h6]
  simp only
  rw [if_neg (by decide), if_neg (not_not.2 (responsive_status env hc _ _ _ p6))]
  obtain ⟨r7, s7, b7, h7, p7, t7⟩ :=
    playStream_cooperative env hc (freeMessage s6 r6) unsetResponse "streamid=audio"
  rw [h7]
  simp only
  rw [if_neg (by decide), if_neg (not_not.2 (responsive_status env hc _ _ _ p7))]
  exact ⟨_, rfl⟩

/-- In a responsive environment whose audio-setup response has no `Session`
option, `performRtspHandshake` returns `-1`. -/
theorem performRtspHandshake_withoutSession (env : Env) (st : State) (addr cfg : Nat)
    (hco : WithoutSession env st.transactions) :
    ∃ st', performRtspHandshake env st addr cfg = some (-1, st') := by
  obtain ⟨hc, hsess⟩ := hco
  unfold performRtspHandshake
  simp only
  obtain ⟨r1, s1, b1, h1, p1, t1⟩ :=
    requestOptions_cooperative env hc { st with remoteAddr := addr } unsetResponse
  rw [h1]
  simp only
  rw [if_neg (by decide), if_neg (not_not.2 (responsive_status env hc _ _ _ p1))]
  obtain ⟨r2, s2, b2, h2, p2, t2⟩ :=
    requestDescribe_cooperative env hc (freeMessage s1 r1) unsetResponse
  rw [h2]
  simp only
  rw [if_neg (by decide), if_neg (not_not.2 (responsive_status env hc _ _ _ p2))]
  obtain ⟨r3, s3, b3, h3, p3, t3⟩ :=
    setupStream_cooperative env hc (freeMessage s2 r2) unsetResponse "streamid=audio"
  rw [h3]
  simp only
  have k3 : (freeMessage s2 r2).transactions = st.transactions + 2 := by
    show s2.transactions = _
    rw [t2]
    show s1.transactions + 1 = _
    rw [t1]
  rw [k3] at p3
  rw [if_neg (by decide), if_neg (not_not.2 (responsive_status env hc _ _ _ p3)),
    if_pos (hsess _ _ p3)]
  exact ⟨_, rfl⟩

theorem serverOk_stopsAt (k : Nat) : StopsAt serverOk k 1 := by
  refine ⟨?_, ?_, ?_⟩
  · intro j hj
    have : j = 0 := by omega
    subst this
    simp only [serverOk, offsetBefore, RecvResult.ret, if_true]
    decide
  · simp only [serverOk, offsetBefore, RecvResult.ret, if_true]
    decide
  · simp only [serverOk, offsetBefore, RecvResult.ret, if_true]
    decide

theorem serverOk_responsive : Responsive serverOk := by
  refine ⟨fun _ => rfl, ?_, ?_, fun k => ⟨1, serverOk_stopsAt k⟩,
    fun _ _ => ⟨_, rfl, rfl⟩, ?_⟩
  · intro k
    show (3 : Int) ≠ -1
    decide
  · intro k request
    refine ⟨[79, 80, 84, 73], rfl, ?_⟩
    show (4 : Int) ≠ -1
    decide
  · intro cfg addr
    simp [serverOk]

theorem serverOk_cooperative (k0 : Nat) : Cooperative serverOk k0 := by
  refine ⟨serverOk_responsive, ?_⟩
  intro buffer response h
  have h' : some sessionResponse = some response := h
  obtain rfl := Option.some.inj h'
  decide

theorem serverWithoutSession_stopsAt (k : Nat) : StopsAt serverWithoutSession k 1 := by
  refine ⟨?_, ?_, ?_⟩
  · intro j hj
    have : j = 0 := by omega
    subst this
    simp only [serverWithoutSession, serverOk, offsetBefore, RecvResult.ret, if_true]
    decide
  · simp only [serverWithoutSession, serverOk, offsetBefore, RecvResult.ret, if_true]
    decide
  · simp only [serverWithoutSession, serverOk, offsetBefore, RecvResult.ret, if_true]
    decide

theorem serverWithoutSession_withoutSession (k0 : Nat) :
    WithoutSession serverWithoutSession k0 := by
  refine ⟨⟨fun _ => rfl, ?_, ?_, fun k => ⟨1, serverWithoutSession_stopsAt k⟩,
    fun _ _ => ⟨_, rfl, rfl⟩, ?_⟩, ?_⟩
  · intro k
    show (3 : Int) ≠ -1
    decide
  · intro k request
    refine ⟨[79, 80, 84, 73], rfl, ?_⟩
    show (4 : Int) ≠ -1
    decide
  · intro cfg addr
    simp [serverWithoutSession, serverOk]
  · intro buffer response h
    have h' : some plainResponse = some response := h
    obtain rfl := Option.some.inj h'
    decide

theorem serverWithoutSession_recv : RecvWithinCapacity serverWithoutSession := serverOk_recv

/-- C2: `performRtspHandshake` returns `0` or `-1`.  It returns `0` exactly
when seven transactions returned, each with result `1` and status code `200`,
and the response of the third one (the audio setup) has a `Session` option; the
seven transactions are then those of the seven steps, in order.  With a
cooperating environment (every transaction is answered with status `200` and
the audio-setup response has a `Session` option) it returns `0`; with an
environment that answers every transaction with status `200` but whose
audio-setup response has no `Session` option it returns `-1`. -/
theorem performRtspHandshake_success_iff (env : Env) (st : State) (addr cfg : Nat)
    (hrecv : RecvWithinCapacity env) :
    ∃ ret st', performRtspHandshake env st addr cfg = some (ret, st') ∧
      (ret = 0 ∨ ret = -1) ∧
      (ret = 0 ↔
        (outcomes (added st st')).length = 7 ∧
          (∀ o ∈ outcomes (added st st'), o.1 = 1 ∧ o.2.statusCode = 200) ∧
          ∃ o, (outcomes (added st st'))[2]? = some o ∧
            getOptionContent o.2.options "Session" ≠ none) ∧
      (ret = 0 → (requests (added st st')).map (fun m => (m.command, m.target)) =
        handshakeSteps st.rtspTargetUrl) ∧
      (Cooperative env st.transactions → ret = 0) ∧
      (WithoutSession env st.transactions → ret = -1) := by
  obtain ⟨ret, st', hp, -, -, -, hsh⟩ := performRtspHandshake_shape env hrecv st addr cfg
  obtain ⟨h1, h2⟩ := shape_outcomes _ _ _ _ _ hsh
  obtain ⟨-, -, -, h3⟩ := shape_requests _ _ _ _ _ hsh
  rw [outcomes_high, forall₂_handshakeBlocks] at h2
  rw [requests_high, handshakeBlocks_keys] at h3
  refine ⟨ret, st', hp, h1, h2, h3, ?_, ?_⟩
  · intro hco
    obtain ⟨s, hs⟩ := performRtspHandshake_cooperative env st addr cfg hco
    rw [hp] at hs
    simp only [Option.some.injEq, Prod.mk.injEq] at hs
    exact hs.1
  · intro hwo
    obtain ⟨s, hs⟩ := performRtspHandshake_withoutSession env st addr cfg hwo
    rw [hp] at hs
    simp only [Option.some.injEq, Prod.mk.injEq] at hs
    exact hs.1

theorem performRtspHandshake_success_iff_witness :
    RecvWithinCapacity serverOk ∧ Cooperative serverOk 0 ∧
      RecvWithinCapacity serverWithoutSession ∧ WithoutSession serverWithoutSession 0 ∧
      (∃ st', performRtspHandshake serverOk (State.initial "rtsp://host") 0 0 = some (0, st') ∧
        (outcomes (added (State.initial "rtsp://host") st')).length = 7 ∧
        (∀ o ∈ outcomes (added (State.initial "rtsp://host") st'),
          o.1 = 1 ∧ o.2.statusCode = 200) ∧
        (∃ o, (outcomes (added (State.initial "rtsp://host") st'))[2]? = some o ∧
          getOptionContent o.2.options "Session" ≠ none) ∧
        (requests (added (State.initial "rtsp://host") st')).map
            (fun m => (m.command, m.target)) =
          handshakeSteps "rtsp://host") ∧
      ∃ st', performRtspHandshake serverWithoutSession (State.initial "rtsp://host") 0 0 =
        some (-1, st') := by
  refine ⟨serverOk_recv, serverOk_cooperative 0, serverWithoutSession_recv,
    serverWithoutSession_withoutSession 0, ?_, ?_⟩
  · obtain ⟨ret, st', hp, -, hiff, hreq, hco, -⟩ :=
      performRtspHandshake_success_iff serverOk (State.initial "rtsp://host") 0 0 serverOk_recv
    obtain rfl : ret = 0 := hco (serverOk_cooperative 0)
    exact ⟨st', hp, (hiff.1 rfl).1, (hiff.1 rfl).2.1, (hiff.1 rfl).2.2, hreq rfl⟩
  · obtain ⟨ret, st', hp, -, -, -, -, hwo⟩ :=
      performRtspHandshake_success_iff serverWithoutSession (State.initial "rtsp://host") 0 0
        serverWithoutSession_recv
    obtain rfl : ret = -1 := hwo (serverWithoutSession_withoutSession 0)
    exact ⟨st', hp⟩

/-- C13: every request that `performRtspHandshake` hands to the transaction
engine has `X-GS-ClientVersion: 10` as the first entry of its option list; and
with a cooperating environment the requests handed over are those of the seven
steps, in order. -/
theorem performRtspHandshake_client_version_first (env : Env) (st : State) (addr cfg : Nat)
    (hrecv : RecvWithinCapacity env) :
    ∃ ret st', performRtspHandshake env st addr cfg = some (ret, st') ∧
      (∀ m ∈ requests (added st st'), ∃ item rest, m.options = item :: rest ∧
        item.option = "X-GS-ClientVersion" ∧ item.content = "10") ∧
      (Cooperative env st.transactions →
        (requests (added st st')).map (fun m => (m.command, m.target)) =
          handshakeSteps st.rtspTargetUrl) := by
  obtain ⟨ret, st', hp, -, hopt⟩ := performRtspHandshake_options env hrecv st addr cfg
  refine ⟨ret, st', hp, ?_, ?_⟩
  · intro m hm
    obtain ⟨rest, hrest, -⟩ := hopt m hm
    unfold optionPairs at hrest
    rcases hm' : m.options with _ | ⟨item, tl⟩
    · rw [hm'] at hrest; simp at hrest
    · rw [hm'] at hrest
      simp only [List.map_cons, List.cons.injEq, Prod.mk.injEq] at hrest
      exact ⟨item, tl, rfl, hrest.1.1, hrest.1.2⟩
  · intro hco
    obtain ⟨s, hs⟩ := performRtspHandshake_cooperative env st addr cfg hco
    rw [hp] at hs
    simp only [Option.some.injEq, Prod.mk.injEq] at hs
    obtain ⟨ret2, st2, hp2, -, -, -, hsh⟩ := performRtspHandshake_shape env hrecv st addr cfg
    rw [hp] at hp2
    simp only [Option.some.injEq, Prod.mk.injEq] at hp2
    obtain ⟨rfl, rfl⟩ := hp2
    obtain ⟨-, -, -, h3⟩ := shape_requests _ _ _ _ _ hsh
    rw [requests_high, handshakeBlocks_keys] at h3
    exact h3 hs.1

theorem performRtspHandshake_client_version_first_witness :
    RecvWithinCapacity serverOk ∧ Cooperative serverOk 0 ∧
      ∃ ret st', performRtspHandshake serverOk (State.initial "rtsp://host") 0 0 =
          some (ret, st') ∧
        (requests (added (State.initial "rtsp://host") st')).map
            (fun m => (m.command, m.target)) =
          [("OPTIONS", "rtsp://host"), ("DESCRIBE", "rtsp://host"), ("SETUP", "streamid=audio"),
            ("SETUP", "streamid=video"), ("ANNOUNCE", "streamid=video"),
            ("PLAY", "streamid=video"), ("PLAY", "streamid=audio")] ∧
        (requests (added (State.initial "rtsp://host") st')).length = 7 ∧
        ∀ m ∈ requests (added (State.initial "rtsp://host") st'), ∃ item rest,
          m.options = item :: rest ∧
          item.option = "X-GS-ClientVersion" ∧ item.content = "10" := by
  refine ⟨serverOk_recv, serverOk_cooperative 0, ?_⟩
  obtain ⟨ret, st', hp, hall, hco⟩ :=
    performRtspHandshake_client_version_first serverOk (State.initial "rtsp://host") 0 0
      serverOk_recv
  have hreq := hco (serverOk_cooperative 0)
  refine ⟨ret, st', hp, hreq, ?_, hall⟩
  have := congrArg List.length hreq
  simpa [handshakeSteps] using this

end RtspConnection
